import Mathlib

/-!
# Python op-binding generator (`src/gen/Gen.cpp`): a shallow embedding

The generator reads one operation description and writes Python source text:
accessors for operand and result slots, attribute accessors and a default
builder.  Every `os << llvm::formatv(template, args...)` of the source is
embedded as one `Emitted` value (the template that was instantiated together
with the arguments substituted into it); the Python text of each template is
given a meaning by `evalAccessor`, which runs the template body on a runtime
operation.
-/

set_option autoImplicit false

deriving instance DecidableEq for Except

namespace Gen

/-! ## Slot model (types of `mlir/TableGen`, declared outside `src/`) -/

/-- Modelled from the spec: the multiplicity of a slot (section 3, Slot),
which the source reads through `isOptional`, `isVariadic` and
`isVariableLength` of `NamedTypeConstraint`. -/
inductive Multiplicity
  | Single
  | Optional
  | Variadic
  deriving DecidableEq, Repr

/-- Modelled from the spec: `NamedTypeConstraint`, one operand or result slot
(section 3, Slot: an optional name, here empty when absent, and a
multiplicity). -/
structure NamedTypeConstraint where
  name : String
  multiplicity : Multiplicity
  deriving DecidableEq, Repr

instance : Inhabited NamedTypeConstraint := ⟨⟨"", Multiplicity.Single⟩⟩

/-- Modelled from the spec: `NamedTypeConstraint::isOptional`. -/
def NamedTypeConstraint.isOptional (e : NamedTypeConstraint) : Bool :=
  match e.multiplicity with
  | Multiplicity.Optional => true
  | _ => false

/-- Modelled from the spec: `NamedTypeConstraint::isVariadic`. -/
def NamedTypeConstraint.isVariadic (e : NamedTypeConstraint) : Bool :=
  match e.multiplicity with
  | Multiplicity.Variadic => true
  | _ => false

/-- Modelled from the spec: `NamedTypeConstraint::isVariableLength`, a slot
whose multiplicity is not Single (glossary, variable-length group). -/
def NamedTypeConstraint.isVariableLength (e : NamedTypeConstraint) : Bool :=
  e.isOptional || e.isVariadic

/-- Modelled from the spec: `NamedAttribute` with the queries the source makes
on it (section 3, AttributeSlot). -/
structure NamedAttribute where
  name : String
  storageType : String
  attrDefName : String
  isOptional : Bool
  hasDefaultValue : Bool
  isDerivedAttr : Bool
  deriving DecidableEq, Repr

/-- Modelled from the spec: `Argument`, one entry of the interleaved operand and
attribute list of an operation (section 4.3, item 2).  The source tests for an
attribute, then for an operand, and falls through otherwise; `other` is that
remaining case. -/
inductive Argument
  | namedAttribute (a : NamedAttribute)
  | namedTypeConstraint (o : NamedTypeConstraint)
  | other (name : String)
  deriving DecidableEq, Repr

/-- Modelled from the spec: `NamedRegion` (section 3, RegionSlot). -/
structure NamedRegion where
  name : String
  isVariadic : Bool
  deriving DecidableEq, Repr

/-- Modelled from the spec: `NamedSuccessor` (section 3, SuccessorSlot). -/
structure NamedSuccessor where
  name : String
  isVariadic : Bool
  deriving DecidableEq, Repr

/-- Modelled from the spec: `Operator` (section 3, Operation): the interleaved
arguments, the results, regions, successors, derived attributes, the trait
set, the class name and the operation name. -/
structure Operator where
  cppClassName : String
  operationName : String
  dialectName : String
  arguments : List Argument
  derivedAttributes : List NamedAttribute
  results : List NamedTypeConstraint
  regions : List NamedRegion
  successors : List NamedSuccessor
  traits : List String
  skipDefaultBuilders : Bool
  deriving Repr

/-- Modelled from the spec: `Operator::getTrait`, membership in the trait set. -/
def Operator.getTrait (op : Operator) (trait : String) : Bool :=
  op.traits.contains trait

/-- Modelled from the spec: the operand slots of an operation, the operand
entries of its arguments in declaration order. -/
def Operator.operands (op : Operator) : List NamedTypeConstraint :=
  op.arguments.filterMap fun a =>
    match a with
    | Argument.namedTypeConstraint o => some o
    | _ => none

/-- Modelled from the spec: `Operator::getNumOperands`. -/
def Operator.getNumOperands (op : Operator) : Nat := op.operands.length

/-- Modelled from the spec: `Operator::getOperand`. -/
def Operator.getOperand (op : Operator) (i : Nat) : NamedTypeConstraint :=
  op.operands.getD i default

/-- Modelled from the spec: `Operator::getNumResults`. -/
def Operator.getNumResults (op : Operator) : Nat := op.results.length

/-- Modelled from the spec: `Operator::getResult`. -/
def Operator.getResult (op : Operator) (i : Nat) : NamedTypeConstraint :=
  op.results.getD i default

/-- Modelled from the spec: `Operator::getNumVariableLengthOperands`, the count
of operand slots with multiplicity other than Single (section 4.1,
`numVariable`). -/
def Operator.getNumVariableLengthOperands (op : Operator) : Nat :=
  op.operands.countP NamedTypeConstraint.isVariableLength

/-- Modelled from the spec: `Operator::getNumVariableLengthResults`. -/
def Operator.getNumVariableLengthResults (op : Operator) : Nat :=
  op.results.countP NamedTypeConstraint.isVariableLength

/-! ## String helpers (`llvm::StringRef`) -/

/-- `StringRef::empty`. -/
def StringRef.empty (s : String) : Bool := s.data.isEmpty

/-- `StringRef::startswith`. -/
def StringRef.startswith (s pre : String) : Bool := pre.data.isPrefixOf s.data

/-- `StringRef::endswith`. -/
def StringRef.endswith (s suf : String) : Bool := suf.data.isSuffixOf s.data

/-- `StringRef::take_front()`: the first character, if any. -/
def StringRef.take_front (s : String) : String := String.mk (s.data.take 1)

/-- `StringRef::drop_front()`: all but the first character. -/
def StringRef.drop_front (s : String) : String := String.mk (s.data.drop 1)

/-- `StringRef::upper`. -/
def StringRef.upper (s : String) : String := String.mk (s.data.map Char.toUpper)

/-! ## Name resolver -/

/-- Checks whether `str` is a Python keyword or would shadow builtin function. -/
def isPythonReserved (str : String) : Bool :=
  ["and", "as", "assert", "break", "callable", "class",
   "continue", "def", "del", "elif", "else", "except",
   "finally", "for", "from", "global", "if", "import",
   "in", "is", "lambda", "nonlocal", "not", "or",
   "pass", "raise", "return", "issubclass", "try", "type",
   "while", "with", "yield"].contains str

/-- The source's `isODSReserved`. -/
def isODSReserved (str : String) : Bool :=
  StringRef.startswith str "_ods_" || StringRef.endswith str "_ods" ||
    ["attributes", "create", "context", "ip", "operands", "print", "get_asm",
     "loc", "verify", "regions", "results", "self", "operation",
     "DIALECT_NAMESPACE", "OPERATION_NAME"].contains str

/-- The source's `sanitizeName`. -/
def sanitizeName (name : String) : String :=
  if isPythonReserved name || isODSReserved name then name ++ "_" else name

/-! ## Slot kinds and trait names -/

/-- The `kind` argument of `emitElementAccessors`; the source asserts that it is
one of the two strings "operand" and "result". -/
inductive Kind
  | operand
  | result
  deriving DecidableEq, Repr

/-- The string passed as `kind`. -/
def Kind.str : Kind → String
  | Kind.operand => "operand"
  | Kind.result => "result"

/-- The source's `attrSizedTraitForKind`. -/
def attrSizedTraitForKind (kind : String) : String :=
  "::mlir::OpTrait::AttrSized" ++ StringRef.upper (StringRef.take_front kind) ++
    StringRef.drop_front kind ++ "Segments"

/-- The local `sameSizeTrait` of `emitElementAccessors`. -/
def sameSizeTraitForKind (kind : String) : String :=
  "::mlir::OpTrait::SameVariadic" ++ StringRef.upper (StringRef.take_front kind) ++
    StringRef.drop_front kind ++ "Size"

/-! ## Emitted text -/

/-- The `trailing` string of the explicit-size branch: empty, `[0]`, or
`opVariadicSegmentOptionalTrailingTemplate` instantiated with the kind. -/
inductive Trailing
  | empty
  | firstElement
  | opVariadicSegmentOptionalTrailingTemplate (kind : Kind)
  deriving DecidableEq, Repr

/-- One `os << llvm::formatv(template, args...)`: the template and the
arguments substituted into it, in the order the source passes them. -/
inductive Emitted
  | opSingleTemplate (name : String) (kind : Kind) (index : Nat)
  | opSingleAfterVariableTemplate (name : String) (kind : Kind) (numElements index : Nat)
  | opOneOptionalTemplate (name : String) (kind : Kind) (numElements index : Nat)
  | opOneVariadicTemplate (name : String) (kind : Kind) (numElements index : Nat)
  | opVariadicEqualPrefixTemplate (name : String) (kind : Kind)
      (numVariableLength numPrecedingSimple numPrecedingVariadic : Nat)
  | opVariadicEqualSimpleTemplate (kind : Kind)
  | opVariadicEqualVariadicTemplate (kind : Kind)
  | opVariadicSegmentTemplate (name : String) (kind : Kind) (index : Nat) (trailing : Trailing)
  deriving DecidableEq, Repr

/-! ## `emitElementAccessors` -/

/-- Body of the loop of the count-inferred branch (`numVariableLength <= 1`);
the state is the output stream and `seenVariableLength`. -/
def countInferredBody (op : Operator) (kind : Kind)
    (getNumElements : Operator → Nat) (getElement : Operator → Nat → NamedTypeConstraint)
    (st : List Emitted × Bool) (i : Nat) : List Emitted × Bool :=
  let element := getElement op i
  let seenVariableLength := if element.isVariableLength then true else st.2
  if StringRef.empty element.name then
    (st.1, seenVariableLength)
  else if element.isVariableLength then
    (st.1 ++ [if element.isOptional then
        Emitted.opOneOptionalTemplate (sanitizeName element.name) kind (getNumElements op) i
      else
        Emitted.opOneVariadicTemplate (sanitizeName element.name) kind (getNumElements op) i],
      seenVariableLength)
  else if seenVariableLength then
    (st.1 ++ [Emitted.opSingleAfterVariableTemplate (sanitizeName element.name) kind
        (getNumElements op) i], seenVariableLength)
  else
    (st.1 ++ [Emitted.opSingleTemplate (sanitizeName element.name) kind i], seenVariableLength)

/-- Body of the loop of the equal-size branch; the state is the output stream,
`numPrecedingSimple` and `numPrecedingVariadic`. -/
def equalSizeBody (op : Operator) (kind : Kind) (numVariableLength : Nat)
    (getElement : Operator → Nat → NamedTypeConstraint)
    (st : List Emitted × Nat × Nat) (i : Nat) : List Emitted × Nat × Nat :=
  let element := getElement op i
  let os := st.1
  let numPrecedingSimple := st.2.1
  let numPrecedingVariadic := st.2.2
  let os :=
    if !StringRef.empty element.name then
      os ++ [Emitted.opVariadicEqualPrefixTemplate (sanitizeName element.name) kind
              numVariableLength numPrecedingSimple numPrecedingVariadic,
             if element.isVariableLength then Emitted.opVariadicEqualVariadicTemplate kind
             else Emitted.opVariadicEqualSimpleTemplate kind]
    else os
  if element.isVariableLength then (os, numPrecedingSimple, numPrecedingVariadic + 1)
  else (os, numPrecedingSimple + 1, numPrecedingVariadic)

/-- Body of the loop of the explicit-size-attribute branch. -/
def attrSizedBody (op : Operator) (kind : Kind)
    (getElement : Operator → Nat → NamedTypeConstraint)
    (os : List Emitted) (i : Nat) : List Emitted :=
  let element := getElement op i
  if StringRef.empty element.name then os
  else
    let trailing :=
      if !element.isVariableLength then Trailing.firstElement
      else if element.isOptional then Trailing.opVariadicSegmentOptionalTrailingTemplate kind
      else Trailing.empty
    os ++ [Emitted.opVariadicSegmentTemplate (sanitizeName element.name) kind i trailing]

/-- The source's `emitElementAccessors`.  The result is the output stream after
the call, or the message of `llvm::PrintFatalError`. -/
def emitElementAccessors (op : Operator) (os : List Emitted) (kind : Kind)
    (getNumVariableLength : Operator → Nat) (getNumElements : Operator → Nat)
    (getElement : Operator → Nat → NamedTypeConstraint) : Except String (List Emitted) :=
  let sameSizeTrait := sameSizeTraitForKind kind.str
  let attrSizedTrait := attrSizedTraitForKind kind.str
  let numVariableLength := getNumVariableLength op
  if numVariableLength ≤ 1 then
    Except.ok ((List.range (getNumElements op)).foldl
      (countInferredBody op kind getNumElements getElement) (os, false)).1
  else if op.getTrait sameSizeTrait then
    Except.ok ((List.range (getNumElements op)).foldl
      (equalSizeBody op kind numVariableLength getElement) (os, 0, 0)).1
  else if op.getTrait attrSizedTrait then
    Except.ok ((List.range (getNumElements op)).foldl
      (attrSizedBody op kind getElement) os)
  else
    Except.error ("unsupported " ++ kind.str ++ " structure")

/-- The source's `emitOperandAccessors`. -/
def emitOperandAccessors (op : Operator) (os : List Emitted) : Except String (List Emitted) :=
  emitElementAccessors op os Kind.operand Operator.getNumVariableLengthOperands
    Operator.getNumOperands Operator.getOperand

/-- The source's `emitResultAccessors`. -/
def emitResultAccessors (op : Operator) (os : List Emitted) : Except String (List Emitted) :=
  emitElementAccessors op os Kind.result Operator.getNumVariableLengthResults
    Operator.getNumResults Operator.getResult

/-! ## Meaning of the emitted accessors

The templates are Python text.  Their bodies use integer arithmetic, `len`,
indexing and slicing of the operand or result sequence, a lookup in the
attribute dictionary, and the two helpers imported from `_ods_common`. -/

/-- Runtime operation read by an accessor body: its operand and result
sequences and its integer-array attributes. -/
structure PyOperation (α : Type) where
  operands : List α
  results : List α
  attributes : List (String × List Nat)
  deriving DecidableEq, Repr

/-- Python exceptions an accessor body can raise. -/
inductive PyError
  | NameError (name : String)
  | IndexError
  | KeyError (key : String)
  | SyntaxError
  deriving DecidableEq, Repr

/-- What an accessor returns: one element, `None`, or a sub-sequence. -/
inductive PyValue (α : Type)
  | element (x : α)
  | None
  | sequence (xs : List α)
  deriving DecidableEq, Repr

/-- Python `xs[k]` for an integer `k`: a negative index counts from the end,
and an index outside the sequence raises `IndexError`. -/
def pyGetItem {α : Type} (xs : List α) (k : Int) : Except PyError α :=
  let k := if k < 0 then k + xs.length else k
  if k < 0 then Except.error PyError.IndexError
  else
    match xs[k.toNat]? with
    | some x => Except.ok x
    | none => Except.error PyError.IndexError

/-- Python slice bound: a negative bound counts from the end, and the bound is
clamped to the sequence. -/
def pySliceIndex (len : Nat) (k : Int) : Nat :=
  if k < 0 then (k + len).toNat else min k.toNat len

/-- Python `xs[lo:hi]`. -/
def pySlice {α : Type} (xs : List α) (lo hi : Int) : List α :=
  let a := pySliceIndex xs.length lo
  let b := pySliceIndex xs.length hi
  (xs.drop a).take (b - a)

/-- The expression `self.operation` of a template: the operation the accessor
is called on. -/
def selfOperation {α : Type} (self : PyOperation α) : Except PyError (PyOperation α) :=
  Except.ok self

/-- The expression `operation` of a template, without `self.`: the body of an
accessor is a method whose only parameter is `self`, and the generated module
binds no name `operation` (its header imports the `_ods_` helpers, `_ods_ir`
and `builtins`, and it defines `_Dialect` and the operation classes), so the
name lookup raises `NameError`. -/
def bareOperation {α : Type} (_self : PyOperation α) : Except PyError (PyOperation α) :=
  Except.error (PyError.NameError "operation")

/-- The attribute `.operands` or `.results` of an operation, as selected by the
text `{kind}s` of a template. -/
def PyOperation.elements {α : Type} (o : PyOperation α) : Kind → List α
  | Kind.operand => o.operands
  | Kind.result => o.results

/-- Python `attributes[key]`. -/
def PyOperation.getAttr {α : Type} (o : PyOperation α) (key : String) :
    Except PyError (List Nat) :=
  match o.attributes.lookup key with
  | some v => Except.ok v
  | none => Except.error (PyError.KeyError key)

/-- Modelled from the spec: the helper `_ods_segmented_accessor` of
`_ods_common`, which is not under src/ (section 4.1, policy 3: the slot's offset
is the prefix sum of the preceding entries, and `sizes[index]` elements are
read from that offset). -/
def segmented_accessor {α : Type} (elements : List α) (raw_segments : List Nat) (idx : Nat) :
    Except PyError (List α) :=
  match raw_segments[idx]? with
  | none => Except.error PyError.IndexError
  | some size =>
    let start := (raw_segments.take idx).sum
    Except.ok (pySlice elements start (start + size))

/-- Runs the body of one emitted accessor (the chunks of one Python property)
on the operation `self`.  The helper `_ods_equally_sized_accessor` of
`_ods_common` is not under src/ and is passed in as `equally_sized_accessor`:
it receives the sequence and the three numbers of the template, and returns
the pair `start, pg`. -/
def evalAccessor {α : Type}
    (equally_sized_accessor : List α → Nat → Nat → Nat → Except PyError (Int × Int))
    (self : PyOperation α) : List Emitted → Except PyError (PyValue α)
  | [Emitted.opSingleTemplate _ kind index] => do
    -- return self.operation.{1}s[{2}]
    let o ← selfOperation self
    let x ← pyGetItem (o.elements kind) index
    pure (PyValue.element x)
  | [Emitted.opSingleAfterVariableTemplate _ kind numElements index] => do
    -- _ods_variadic_group_length = len(self.operation.{1}s) - {2} + 1
    -- return self.operation.{1}s[{3} + _ods_variadic_group_length - 1]
    let o ← selfOperation self
    let _ods_variadic_group_length : Int := ((o.elements kind).length : Int) - numElements + 1
    let x ← pyGetItem (o.elements kind) (index + _ods_variadic_group_length - 1)
    pure (PyValue.element x)
  | [Emitted.opOneOptionalTemplate _ kind numElements index] => do
    -- return None if len(self.operation.{1}s) < {2} else self.operation.{1}s[{3}]
    let o ← selfOperation self
    if ((o.elements kind).length : Int) < numElements then pure PyValue.None
    else do
      let x ← pyGetItem (o.elements kind) index
      pure (PyValue.element x)
  | [Emitted.opOneVariadicTemplate _ kind numElements index] => do
    -- _ods_variadic_group_length = len(self.operation.{1}s) - {2} + 1
    -- return self.operation.{1}s[{3}:{3} + _ods_variadic_group_length]
    let o ← selfOperation self
    let _ods_variadic_group_length : Int := ((o.elements kind).length : Int) - numElements + 1
    pure (PyValue.sequence (pySlice (o.elements kind) index (index + _ods_variadic_group_length)))
  | [Emitted.opVariadicEqualPrefixTemplate _ kind numVariableLength numPrecedingSimple
      numPrecedingVariadic, tail] => do
    -- start, pg = _ods_equally_sized_accessor(operation.{1}s, {2}, {3}, {4})
    let o ← bareOperation self
    let (start, pg) ← equally_sized_accessor (o.elements kind) numVariableLength
      numPrecedingSimple numPrecedingVariadic
    match tail with
    | Emitted.opVariadicEqualSimpleTemplate kind => do
      -- return self.operation.{0}s[start]
      let o ← selfOperation self
      let x ← pyGetItem (o.elements kind) start
      pure (PyValue.element x)
    | Emitted.opVariadicEqualVariadicTemplate kind => do
      -- return self.operation.{0}s[start:start + pg]
      let o ← selfOperation self
      pure (PyValue.sequence (pySlice (o.elements kind) start (start + pg)))
    | _ => Except.error PyError.SyntaxError
  | [Emitted.opVariadicSegmentTemplate _ kind index trailing] => do
    -- {1}_range = _ods_segmented_accessor(self.operation.{1}s,
    --     self.operation.attributes["{1}SegmentSizes"], {2})
    -- return {1}_range{3}
    let o ← selfOperation self
    let sizes ← o.getAttr (kind.str ++ "SegmentSizes")
    let range ← segmented_accessor (o.elements kind) sizes index
    match trailing with
    | Trailing.empty => pure (PyValue.sequence range)
    | Trailing.firstElement => do
      let x ← pyGetItem range 0
      pure (PyValue.element x)
    | Trailing.opVariadicSegmentOptionalTrailingTemplate kind0 =>
      -- [0] if len({0}_range) > 0 else None
      if kind0 = kind then
        if range.length > 0 then do
          let x ← pyGetItem range 0
          pure (PyValue.element x)
        else pure PyValue.None
      else Except.error (PyError.NameError (kind0.str ++ "_range"))
  | _ => Except.error PyError.SyntaxError

/-- Whether the text of a chunk opens a Python property
(`@builtins.property` and a `def` line).  The two return lines of the
equal-size branch continue the property opened before them. -/
def Emitted.startsProperty : Emitted → Bool
  | Emitted.opVariadicEqualSimpleTemplate _ => false
  | Emitted.opVariadicEqualVariadicTemplate _ => false
  | _ => true

/-- The name after `def` in a chunk that opens a property. -/
def Emitted.propertyName : Emitted → Option String
  | Emitted.opSingleTemplate name _ _ => some name
  | Emitted.opSingleAfterVariableTemplate name _ _ _ => some name
  | Emitted.opOneOptionalTemplate name _ _ _ => some name
  | Emitted.opOneVariadicTemplate name _ _ _ => some name
  | Emitted.opVariadicEqualPrefixTemplate name _ _ _ _ => some name
  | Emitted.opVariadicSegmentTemplate name _ _ _ => some name
  | _ => none

/-- The accessors in an output stream: each property-opening chunk with the
chunks that continue it, in order. -/
def accessorsOf : List Emitted → List (List Emitted)
  | [] => []
  | c :: rest =>
    match accessorsOf rest with
    | [] => [[c]]
    | (d :: ds) :: gs =>
      if d.startsProperty then [c] :: (d :: ds) :: gs else (c :: d :: ds) :: gs
    | [] :: gs => [c] :: gs

/-- The accessor policies of section 4.1. -/
inductive Policy
  | countInferred
  | equalSize
  | explicitSizeAttribute
  deriving DecidableEq, Repr

/-- The policy whose branch of `emitElementAccessors` instantiates a template. -/
def Emitted.policy : Emitted → Policy
  | Emitted.opSingleTemplate _ _ _ => Policy.countInferred
  | Emitted.opSingleAfterVariableTemplate _ _ _ _ => Policy.countInferred
  | Emitted.opOneOptionalTemplate _ _ _ _ => Policy.countInferred
  | Emitted.opOneVariadicTemplate _ _ _ _ => Policy.countInferred
  | Emitted.opVariadicEqualPrefixTemplate _ _ _ _ _ => Policy.equalSize
  | Emitted.opVariadicEqualSimpleTemplate _ => Policy.equalSize
  | Emitted.opVariadicEqualVariadicTemplate _ => Policy.equalSize
  | Emitted.opVariadicSegmentTemplate _ _ _ _ => Policy.explicitSizeAttribute

/-- The declared slots of a kind. -/
def Operator.elements (op : Operator) : Kind → List NamedTypeConstraint
  | Kind.operand => op.operands
  | Kind.result => op.results

/-- Accessor synthesis for a kind: `emitOperandAccessors` or
`emitResultAccessors`. -/
def emitAccessors (kind : Kind) (op : Operator) (os : List Emitted) :
    Except String (List Emitted) :=
  match kind with
  | Kind.operand => emitOperandAccessors op os
  | Kind.result => emitResultAccessors op os

/-! ## Closed forms of the three loops, used to state the properties -/

/-- Whether some slot at a position `< n` is variable-length. -/
def anyVariableLengthBefore (g : Nat → NamedTypeConstraint) (n : Nat) : Bool :=
  (List.range n).any fun j => (g j).isVariableLength

/-- Number of Single slots at positions `< n`. -/
def numSimpleBefore (g : Nat → NamedTypeConstraint) (n : Nat) : Nat :=
  (List.range n).countP fun j => !(g j).isVariableLength

/-- Number of variable-length slots at positions `< n`. -/
def numVariadicBefore (g : Nat → NamedTypeConstraint) (n : Nat) : Nat :=
  (List.range n).countP fun j => (g j).isVariableLength

/-- What the count-inferred loop writes for the slot at position `i`. -/
def countInferredChunk (kind : Kind) (numElements : Nat) (g : Nat → NamedTypeConstraint)
    (i : Nat) : Option Emitted :=
  let element := g i
  if StringRef.empty element.name then none
  else if element.isVariableLength then
    some (if element.isOptional then
        Emitted.opOneOptionalTemplate (sanitizeName element.name) kind numElements i
      else Emitted.opOneVariadicTemplate (sanitizeName element.name) kind numElements i)
  else if anyVariableLengthBefore g (i + 1) then
    some (Emitted.opSingleAfterVariableTemplate (sanitizeName element.name) kind numElements i)
  else some (Emitted.opSingleTemplate (sanitizeName element.name) kind i)

/-- What the equal-size loop writes for the slot at position `i`. -/
def equalSizeChunk (kind : Kind) (numVariableLength : Nat) (g : Nat → NamedTypeConstraint)
    (i : Nat) : List Emitted :=
  let element := g i
  if StringRef.empty element.name then []
  else
    [Emitted.opVariadicEqualPrefixTemplate (sanitizeName element.name) kind numVariableLength
        (numSimpleBefore g i) (numVariadicBefore g i),
      if element.isVariableLength then Emitted.opVariadicEqualVariadicTemplate kind
      else Emitted.opVariadicEqualSimpleTemplate kind]

/-- What the explicit-size-attribute loop writes for the slot at position `i`. -/
def attrSizedChunk (kind : Kind) (g : Nat → NamedTypeConstraint) (i : Nat) : Option Emitted :=
  let element := g i
  if StringRef.empty element.name then none
  else
    some (Emitted.opVariadicSegmentTemplate (sanitizeName element.name) kind i
      (if !element.isVariableLength then Trailing.firstElement
       else if element.isOptional then Trailing.opVariadicSegmentOptionalTrailingTemplate kind
       else Trailing.empty))

/-- The number of variable-length slots of a kind, as the two callers of
`emitElementAccessors` obtain it. -/
def Operator.numVariableLength (op : Operator) : Kind → Nat
  | Kind.operand => op.getNumVariableLengthOperands
  | Kind.result => op.getNumVariableLengthResults

/-- The slot of a kind at a position, as the two callers of
`emitElementAccessors` obtain it. -/
def Operator.getElement (op : Operator) : Kind → Nat → NamedTypeConstraint
  | Kind.operand => op.getOperand
  | Kind.result => op.getResult

/-! ## Example operations -/

/-- Result slots `[a: Single, (unnamed): Single, c: Single]`, no traits. -/
def exampleFixedOp : Operator :=
  Operator.mk "FixedOp" "test.fixed" "test" [] []
    [NamedTypeConstraint.mk "a" Multiplicity.Single,
     NamedTypeConstraint.mk "" Multiplicity.Single,
     NamedTypeConstraint.mk "c" Multiplicity.Single] [] [] [] false

/-- Operand slots `[a: Single, b: Variadic, c: Single]`, no traits. -/
def exampleOneVariadicOp : Operator :=
  Operator.mk "OneVariadicOp" "test.one_variadic" "test"
    [Argument.namedTypeConstraint (NamedTypeConstraint.mk "a" Multiplicity.Single),
     Argument.namedTypeConstraint (NamedTypeConstraint.mk "b" Multiplicity.Variadic),
     Argument.namedTypeConstraint (NamedTypeConstraint.mk "c" Multiplicity.Single)] [] [] [] [] [] false

/-- Operand slots `[p: Single, q: Optional, r: Single]`, no traits. -/
def exampleOneOptionalOp : Operator :=
  Operator.mk "OneOptionalOp" "test.one_optional" "test"
    [Argument.namedTypeConstraint (NamedTypeConstraint.mk "p" Multiplicity.Single),
     Argument.namedTypeConstraint (NamedTypeConstraint.mk "q" Multiplicity.Optional),
     Argument.namedTypeConstraint (NamedTypeConstraint.mk "r" Multiplicity.Single)] [] [] [] [] [] false

/-- Operand slots `[x: Variadic, y: Variadic]` with the equal-size trait
(Example 2 of the spec). -/
def exampleEqualSizeOp : Operator :=
  Operator.mk "EqualSizeOp" "test.equal_size" "test"
    [Argument.namedTypeConstraint (NamedTypeConstraint.mk "x" Multiplicity.Variadic),
     Argument.namedTypeConstraint (NamedTypeConstraint.mk "y" Multiplicity.Variadic)] [] [] [] []
    ["::mlir::OpTrait::SameVariadicOperandSize"] false

/-- Result slots `[p: Optional, q: Single]` with the explicit-size-attribute
trait (Example 3 of the spec). -/
def exampleAttrSizedOp : Operator :=
  Operator.mk "AttrSizedOp" "test.attr_sized" "test" [] []
    [NamedTypeConstraint.mk "p" Multiplicity.Optional,
     NamedTypeConstraint.mk "q" Multiplicity.Single] [] []
    ["::mlir::OpTrait::AttrSizedResultSegments"] false

/-- Operand slots `[x: Variadic, y: Variadic]` with both size traits. -/
def exampleBothTraitsOp : Operator :=
  Operator.mk "BothTraitsOp" "test.both_traits" "test"
    [Argument.namedTypeConstraint (NamedTypeConstraint.mk "x" Multiplicity.Variadic),
     Argument.namedTypeConstraint (NamedTypeConstraint.mk "y" Multiplicity.Variadic)] [] [] [] []
    ["::mlir::OpTrait::AttrSizedOperandSegments", "::mlir::OpTrait::SameVariadicOperandSize"]
    false

/-- Operand slots `[x: Variadic, y: Optional]` with neither size trait. -/
def exampleUnsupportedOp : Operator :=
  Operator.mk "UnsupportedOp" "test.unsupported" "test"
    [Argument.namedTypeConstraint (NamedTypeConstraint.mk "x" Multiplicity.Variadic),
     Argument.namedTypeConstraint (NamedTypeConstraint.mk "y" Multiplicity.Optional)] [] [] [] [] [] false

/-- Same slots as `exampleUnsupportedOp` under another class name and operation
name. -/
def exampleUnsupportedOp2 : Operator :=
  Operator.mk "OtherOp" "test.other" "test"
    [Argument.namedTypeConstraint (NamedTypeConstraint.mk "x" Multiplicity.Variadic),
     Argument.namedTypeConstraint (NamedTypeConstraint.mk "y" Multiplicity.Optional)] [] [] [] [] [] false

/-- A stand-in for `_ods_equally_sized_accessor` where a concrete evaluation
needs one; no property below depends on what it returns. -/
def exampleEquallySizedAccessor (elements : List Nat) (_n_variadic _n_preceding_simple
    _n_preceding_variadic : Nat) : Except PyError (Int × Int) :=
  Except.ok (0, (elements.length : Int))

/-- Result slots `[p: Optional, q: Single, (unnamed): Single, r: Variadic]` with
the explicit-size-attribute trait. -/
def exampleSegmentsOp : Operator :=
  Operator.mk "SegmentsOp" "test.segments" "test" [] []
    [NamedTypeConstraint.mk "p" Multiplicity.Optional,
     NamedTypeConstraint.mk "q" Multiplicity.Single,
     NamedTypeConstraint.mk "" Multiplicity.Single,
     NamedTypeConstraint.mk "r" Multiplicity.Variadic] [] []
    ["::mlir::OpTrait::AttrSizedResultSegments"] false

/-- The chunks `emitElementAccessors` writes for the slot at position `i`, in
whichever policy applies to the operation. -/
def slotAccessor (kind : Kind) (op : Operator) (i : Nat) : List Emitted :=
  if op.numVariableLength kind ≤ 1 then
    (countInferredChunk kind (op.elements kind).length (op.getElement kind) i).toList
  else if op.getTrait (sameSizeTraitForKind kind.str) then
    equalSizeChunk kind (op.numVariableLength kind) (op.getElement kind) i
  else (attrSizedChunk kind (op.getElement kind) i).toList

/-- Operand slots `[x: Variadic, (unnamed): Single, y: Variadic]` with the
equal-size trait. -/
def exampleUnnamedOp : Operator :=
  Operator.mk "UnnamedOp" "test.unnamed" "test"
    [Argument.namedTypeConstraint (NamedTypeConstraint.mk "x" Multiplicity.Variadic),
     Argument.namedTypeConstraint (NamedTypeConstraint.mk "" Multiplicity.Single),
     Argument.namedTypeConstraint (NamedTypeConstraint.mk "y" Multiplicity.Variadic)] [] [] [] []
    ["::mlir::OpTrait::SameVariadicOperandSize"] false

/-! ## Default builder: parameter list -/

instance : Inhabited Argument := ⟨Argument.other ""⟩

instance : Inhabited NamedRegion := ⟨⟨"", false⟩⟩

instance : Inhabited NamedSuccessor := ⟨⟨"", false⟩⟩

/-- Modelled from the spec: `Operator::getNumArgs`. -/
def Operator.getNumArgs (op : Operator) : Nat := op.arguments.length

/-- Modelled from the spec: `Operator::getArg`. -/
def Operator.getArg (op : Operator) (i : Nat) : Argument := op.arguments.getD i default

/-- Modelled from the spec: `Operator::getArgName`. -/
def Operator.getArgName (op : Operator) (i : Nat) : String :=
  match op.getArg i with
  | Argument.namedAttribute a => a.name
  | Argument.namedTypeConstraint o => o.name
  | Argument.other name => name

/-- Modelled from the spec: `Operator::getResultName`. -/
def Operator.getResultName (op : Operator) (i : Nat) : String := (op.getResult i).name

/-- Modelled from the spec: `Operator::getNumSuccessors`. -/
def Operator.getNumSuccessors (op : Operator) : Nat := op.successors.length

/-- Modelled from the spec: `Operator::getSuccessor`. -/
def Operator.getSuccessor (op : Operator) (i : Nat) : NamedSuccessor :=
  op.successors.getD i default

/-- Modelled from the spec: `Operator::getNumRegions`. -/
def Operator.getNumRegions (op : Operator) : Nat := op.regions.length

/-- Modelled from the spec: `Operator::getRegion`. -/
def Operator.getRegion (op : Operator) (i : Nat) : NamedRegion := op.regions.getD i default

/-- Modelled from the spec: `Operator::getNumVariadicRegions`. -/
def Operator.getNumVariadicRegions (op : Operator) : Nat :=
  op.regions.countP NamedRegion.isVariadic

/-- Modelled from the spec: `Operator::hasNoVariadicRegions`. -/
def Operator.hasNoVariadicRegions (op : Operator) : Bool := op.getNumVariadicRegions == 0

/-- `StringRef::lower`. -/
def StringRef.lower (s : String) : String := String.mk (s.data.map Char.toLower)

/-- The source's `hasSameArgumentAndResultTypes`. -/
def hasSameArgumentAndResultTypes (op : Operator) : Bool :=
  op.getTrait "::mlir::OpTrait::SameOperandsAndResultType" &&
    op.getNumVariableLengthResults == 0

/-- The source's `hasFirstAttrDerivedResultTypes`. -/
def hasFirstAttrDerivedResultTypes (op : Operator) : Bool :=
  op.getTrait "::mlir::OpTrait::FirstAttrDerivedResultType" &&
    op.getNumVariableLengthResults == 0

/-- The source's `hasInferTypeInterface`. -/
def hasInferTypeInterface (op : Operator) : Bool :=
  op.getTrait "::mlir::InferTypeOpInterface::Trait" && op.getNumRegions == 0

/-- The source's `canInferType`. -/
def canInferType (op : Operator) : Bool :=
  hasSameArgumentAndResultTypes op || hasFirstAttrDerivedResultTypes op ||
    hasInferTypeInterface op

/-- The source's `populateBuilderArgsResults`; returns `builderArgs`. -/
def populateBuilderArgsResults (op : Operator) (builderArgs : List String) : List String :=
  if canInferType op then builderArgs
  else
    (List.range op.getNumResults).foldl (fun builderArgs i =>
      let name := op.getResultName i
      let name :=
        if StringRef.empty name then
          if op.getNumResults = 1 then "result" else "_gen_res_" ++ toString i
        else name
      let name := sanitizeName name
      builderArgs ++ [name]) builderArgs

/-- The source's `populateBuilderArgs`; returns `builderArgs` and
`operandNames` (the parameter `successorArgNames` is not used by the source). -/
def populateBuilderArgs (op : Operator) (builderArgs operandNames : List String) :
    List String × List String :=
  (List.range op.getNumArgs).foldl (fun st i =>
    let name := op.getArgName i
    let name := if StringRef.empty name then "_gen_arg_" ++ toString i else name
    let name := sanitizeName name
    (st.1 ++ [name],
      match op.getArg i with
      | Argument.namedAttribute _ => st.2
      | _ => st.2 ++ [name])) (builderArgs, operandNames)

/-- The source's `populateBuilderArgsSuccessors`; returns `builderArgs` and
`successorArgNames`. -/
def populateBuilderArgsSuccessors (op : Operator) (builderArgs successorArgNames : List String) :
    List String × List String :=
  (List.range op.getNumSuccessors).foldl (fun st i =>
    let successor := op.getSuccessor i
    let name := successor.name
    let name := if StringRef.empty name then "_gen_successor_" ++ toString i else name
    let name := sanitizeName name
    (st.1 ++ [name], st.2 ++ [name])) (builderArgs, successorArgNames)

/-- The source's `populateBuilderRegions`; returns `builderArgs` and
`builderLines`.  The source asserts here that exactly one region is variadic
and that it is the last one, with the comment that this is enforced when the
`Operator` is constructed: it is an invariant of the input, and the properties
of the region count carry it as a hypothesis. -/
def populateBuilderRegions (op : Operator) (builderArgs builderLines : List String) :
    List String × List String :=
  if op.hasNoVariadicRegions then (builderArgs, builderLines)
  else
    let region := op.getRegion (op.getNumRegions - 1)
    let name := "num_" ++ StringRef.lower (StringRef.take_front region.name) ++
      StringRef.drop_front region.name
    (builderArgs ++ [name],
      builderLines ++ ["regions = " ++ toString (op.getNumRegions - 1) ++ " + " ++ name])

/-- The lambda `isKeywordArgFn` of `emitDefaultOpBuilder`, with the two captured
counts as arguments. -/
def isKeywordArgFn (op : Operator) (numResultArgs numOperandAttrArgs builderArgIndex : Nat) :
    Bool :=
  -- All result, successor, and region arguments are positional arguments.
  if builderArgIndex < numResultArgs ∨ builderArgIndex ≥ numResultArgs + numOperandAttrArgs then
    false
  else
    match op.getArg (builderArgIndex - numResultArgs) with
    | Argument.namedAttribute nattr => nattr.isOptional || nattr.hasDefaultValue
    | Argument.namedTypeConstraint ntype => ntype.isOptional
    | Argument.other _ => false

/-- The parameter part of `emitDefaultOpBuilder`: the `builderArgs` vector after
the `populate...` calls, `numResultArgs`, `numOperandAttrArgs`, the operand and
successor names, and `functionArgs`. -/
structure BuilderParameters where
  builderArgs : List String
  numResultArgs : Nat
  numOperandAttrArgs : Nat
  operandArgNames : List String
  successorArgNames : List String
  functionArgs : List String
  deriving DecidableEq, Repr

/-- The parameters that the source's `emitDefaultOpBuilder` computes, up to
`functionArgs` (`none` when the operation skips default builders).  The
`builderLines` of the `populateBuilderLines...` calls play no part in the
parameters and are left out here; `emitDefaultOpBuilder` below is the whole
function, with the assertion on which `populateBuilderLinesResult` can stop. -/
def emitDefaultOpBuilderParameters (op : Operator) : Option BuilderParameters :=
  if op.skipDefaultBuilders then none
  else
    let builderArgs := populateBuilderArgsResults op []
    let numResultArgs := builderArgs.length
    let (builderArgs, operandArgNames) := populateBuilderArgs op builderArgs []
    let numOperandAttrArgs := builderArgs.length - numResultArgs
    let (builderArgs, successorArgNames) := populateBuilderArgsSuccessors op builderArgs []
    let (builderArgs, _) := populateBuilderRegions op builderArgs []
    -- Add positional arguments.
    let functionArgs := (List.range builderArgs.length).foldl (fun functionArgs i =>
      if !isKeywordArgFn op numResultArgs numOperandAttrArgs i then
        functionArgs ++ [builderArgs.getD i ""]
      else functionArgs) []
    let functionArgs := functionArgs ++ ["*"]
    -- Add a default `None` value to each keyword arg string.
    let functionArgs := (List.range builderArgs.length).foldl (fun functionArgs i =>
      if isKeywordArgFn op numResultArgs numOperandAttrArgs i then
        functionArgs ++ [builderArgs.getD i "" ++ "=None"]
      else functionArgs) functionArgs
    let functionArgs := functionArgs ++ ["loc=None", "ip=None"]
    some (BuilderParameters.mk builderArgs numResultArgs numOperandAttrArgs operandArgNames
      successorArgNames functionArgs)

/-- An operation with one result, a Single, an Optional and a Variadic operand,
a mandatory, an optional and a default-valued attribute, one successor and a
trailing variadic region. -/
def exampleBuilderOp : Operator :=
  Operator.mk "BuilderOp" "test.builder" "test"
    [Argument.namedTypeConstraint (NamedTypeConstraint.mk "lhs" Multiplicity.Single),
     Argument.namedAttribute (NamedAttribute.mk "kind" "::mlir::StringAttr" "StrAttr" false false false),
     Argument.namedTypeConstraint (NamedTypeConstraint.mk "mask" Multiplicity.Optional),
     Argument.namedAttribute (NamedAttribute.mk "flag" "::mlir::UnitAttr" "UnitAttr" true false false),
     Argument.namedTypeConstraint (NamedTypeConstraint.mk "rest" Multiplicity.Variadic),
     Argument.namedAttribute
       (NamedAttribute.mk "width" "::mlir::IntegerAttr" "I64Attr" false true false)]
    []
    [NamedTypeConstraint.mk "" Multiplicity.Single]
    [NamedRegion.mk "body" false, NamedRegion.mk "cases" true]
    [NamedSuccessor.mk "dest" false] [] false

/-- Operand slots `[a: Single, b: Variadic]`, no traits (Example 1 of the
spec). -/
def exampleVariadicTailOp : Operator :=
  Operator.mk "VariadicTailOp" "test.variadic_tail" "test"
    [Argument.namedTypeConstraint (NamedTypeConstraint.mk "a" Multiplicity.Single),
     Argument.namedTypeConstraint (NamedTypeConstraint.mk "b" Multiplicity.Variadic)]
    [] [] [] [] [] false

/-! ## Default builder: statements -/

instance : Inhabited NamedAttribute := ⟨⟨"", "", "", false, false, false⟩⟩

/-- Modelled from the spec: `Operator::getAttributes`, the attribute slots of an
operation: the attribute entries of its arguments in declaration order,
followed by its derived attributes. -/
def Operator.getAttributes (op : Operator) : List NamedAttribute :=
  (op.arguments.filterMap fun a =>
    match a with
    | Argument.namedAttribute attr => some attr
    | _ => none) ++ op.derivedAttributes

/-- Modelled from the spec: `Operator::getAttribute`, for an index into the
attribute slots.  The real function indexes a vector, whose `operator[]`
asserts `idx < size()`; a caller that can pass an index past the end checks the
bound before the call (see `populateBuilderLinesResult`). -/
def Operator.getAttribute (op : Operator) (i : Nat) : NamedAttribute :=
  op.getAttributes.getD i default

/-- The characters `StringRef::trim` removes by default. -/
def StringRef.isTrimChar (c : Char) : Bool :=
  c == ' ' || c == '\t' || c == '\n' || c == Char.ofNat 11 || c == Char.ofNat 12 || c == '\r'

/-- `StringRef::trim`. -/
def StringRef.trim (s : String) : String :=
  String.mk ((s.data.dropWhile StringRef.isTrimChar).reverse.dropWhile
    StringRef.isTrimChar).reverse

/-- The test the source applies to recognise a unit attribute:
`attr.getStorageType().trim().equals("::mlir::UnitAttr")`. -/
def NamedAttribute.isUnitAttr (a : NamedAttribute) : Bool :=
  StringRef.trim a.storageType == "::mlir::UnitAttr"

/-- One entry of `builderLines`: the template that was instantiated and the
arguments substituted into it, in the order the source passes them. -/
inductive BuilderLine
  | contextLine
  | singleOperandAppendTemplate (name : String)
  | singleResultAppendTemplate (name : String)
  | optionalAppendOperandTemplate (name : String)
  | optionalAppendAttrSizedOperandsTemplate (name : String)
  | optionalAppendResultTemplate (name : String)
  | multiOperandAppendTemplate (name : String)
  | multiOperandAppendPackTemplate (name : String)
  | multiResultAppendTemplate (name : String)
  | initAttributeWithBuilderTemplate (argName attrName attrDefName : String)
  | initOptionalAttributeWithBuilderTemplate (argName attrName attrDefName : String)
  | initUnitAttributeTemplate (attrName argName : String)
  | initSuccessorsTemplate (value : String)
  | addSuccessorTemplate (method argName : String)
  | appendSameResultsTemplate (type : String) (numResults : Nat)
  | regionsLine (numFixedRegions : Nat) (name : String)
  deriving DecidableEq, Repr

/-- The text of a builder line: the source's template with its arguments
substituted by `llvm::formatv`. -/
def BuilderLine.str : BuilderLine → String
  | BuilderLine.contextLine => "_ods_context = _ods_get_default_loc_context(loc)"
  | BuilderLine.singleOperandAppendTemplate name =>
    "operands.append(_get_op_result_or_value(" ++ name ++ "))"
  | BuilderLine.singleResultAppendTemplate name => "results.append(" ++ name ++ ")"
  | BuilderLine.optionalAppendOperandTemplate name =>
    "if " ++ name ++ " is not None: operands.append(_get_op_result_or_value(" ++ name ++ "))"
  | BuilderLine.optionalAppendAttrSizedOperandsTemplate name =>
    "operands.append(_get_op_result_or_value(" ++ name ++ ") if " ++ name ++
      " is not None else None)"
  | BuilderLine.optionalAppendResultTemplate name =>
    "if " ++ name ++ " is not None: results.append(" ++ name ++ ")"
  | BuilderLine.multiOperandAppendTemplate name =>
    "operands.extend(_get_op_results_or_values(" ++ name ++ "))"
  | BuilderLine.multiOperandAppendPackTemplate name =>
    "operands.append(_get_op_results_or_values(" ++ name ++ "))"
  | BuilderLine.multiResultAppendTemplate name => "results.extend(" ++ name ++ ")"
  | BuilderLine.initAttributeWithBuilderTemplate argName attrName attrDefName =>
    "attributes[\"" ++ attrName ++ "\"] = (" ++ argName ++ " if (\n" ++
      "    issubclass(type(" ++ argName ++ "), _ods_ir.Attribute) or\n" ++
      "    not _ods_ir.AttrBuilder.contains('" ++ attrDefName ++ "')) else\n" ++
      "      _ods_ir.AttrBuilder.get('" ++ attrDefName ++ "')(" ++ argName ++
      ", context=_ods_context))"
  | BuilderLine.initOptionalAttributeWithBuilderTemplate argName attrName attrDefName =>
    "if " ++ argName ++ " is not None: attributes[\"" ++ attrName ++ "\"] = (" ++ argName ++
      " if (\n" ++
      "        issubclass(type(" ++ argName ++ "), _ods_ir.Attribute) or\n" ++
      "        not _ods_ir.AttrBuilder.contains('" ++ attrDefName ++ "')) else\n" ++
      "          _ods_ir.AttrBuilder.get('" ++ attrDefName ++ "')(" ++ argName ++
      ", context=_ods_context))"
  | BuilderLine.initUnitAttributeTemplate attrName argName =>
    "if bool(" ++ argName ++ "): attributes[\"" ++ attrName ++ "\"] = _ods_ir.UnitAttr.get(\n" ++
      "      _ods_get_default_loc_context(loc))"
  | BuilderLine.initSuccessorsTemplate value => "_ods_successors = " ++ value
  | BuilderLine.addSuccessorTemplate method argName =>
    "_ods_successors." ++ method ++ "(" ++ argName ++ ")"
  | BuilderLine.appendSameResultsTemplate type numResults =>
    "results.extend([" ++ type ++ "] * " ++ toString numResults ++ ")"
  | BuilderLine.regionsLine numFixedRegions name =>
    "regions = " ++ toString numFixedRegions ++ " + " ++ name

/-- The source's `deriveTypeFromAttrTemplate` with the attribute name
substituted. -/
def deriveTypeFromAttrTemplate (name : String) : String :=
  "_ods_result_type_source_attr = attributes[\"" ++ name ++ "\"]\n" ++
    "_ods_derived_result_type = (\n" ++
    "    _ods_ir.TypeAttr(_ods_result_type_source_attr).value\n" ++
    "    if _ods_ir.TypeAttr.isinstance(_ods_result_type_source_attr) else\n" ++
    "    _ods_result_type_source_attr.type)"

/-- The lines `appendLineByLine` pushes for the characters that remain, `cur`
being the characters of the current line read so far: the text is split at
each newline, and nothing is pushed for an empty remainder after a newline. -/
def splitLines (cur : List Char) : List Char → List String
  | [] => [String.mk cur]
  | c :: rest =>
    if c = '\n' then
      String.mk cur :: (match rest with
        | [] => []
        | _ :: _ => splitLines [] rest)
    else splitLines (cur ++ [c]) rest

/-- The source's `appendLineByLine`. -/
def appendLineByLine (string : String) (builderLines : List String) : List String :=
  builderLines ++ splitLines [] string.data

/-- The source's `populateBuilderLinesOperand`. -/
def populateBuilderLinesOperand (op : Operator) (names : List String)
    (builderLines : List String) : List String :=
  let sizedSegments := op.getTrait (attrSizedTraitForKind "operand")
  (List.range op.getNumOperands).foldl (fun builderLines i =>
    let element := op.getOperand i
    let name := names.getD i ""
    let formatString : String → BuilderLine :=
      if !element.isVariableLength then BuilderLine.singleOperandAppendTemplate
      else if element.isOptional then
        if sizedSegments then BuilderLine.optionalAppendAttrSizedOperandsTemplate
        else BuilderLine.optionalAppendOperandTemplate
      else
        if sizedSegments then BuilderLine.multiOperandAppendPackTemplate
        else BuilderLine.multiOperandAppendTemplate
    builderLines ++ [(formatString name).str]) builderLines

/-- The source's `populateBuilderLinesAttr`. -/
def populateBuilderLinesAttr (op : Operator) (argNames : List String)
    (builderLines : List String) : List String :=
  let builderLines := builderLines ++ [BuilderLine.contextLine.str]
  (List.range op.getNumArgs).foldl (fun builderLines i =>
    match op.getArg i with
    | Argument.namedAttribute nattr =>
      if nattr.isUnitAttr then
        builderLines ++
          [(BuilderLine.initUnitAttributeTemplate nattr.name (argNames.getD i "")).str]
      else
        builderLines ++
          [((if nattr.isOptional || nattr.hasDefaultValue then
              BuilderLine.initOptionalAttributeWithBuilderTemplate
            else BuilderLine.initAttributeWithBuilderTemplate)
            (argNames.getD i "") nattr.name nattr.attrDefName).str]
    | _ => builderLines) builderLines

/-- The source's `populateBuilderLinesSuccessors`. -/
def populateBuilderLinesSuccessors (op : Operator) (successorArgNames : List String)
    (builderLines : List String) : List String :=
  if successorArgNames.isEmpty then
    builderLines ++ [(BuilderLine.initSuccessorsTemplate "None").str]
  else
    let builderLines := builderLines ++ [(BuilderLine.initSuccessorsTemplate "[]").str]
    (List.range successorArgNames.length).foldl (fun builderLines i =>
      let argName := successorArgNames.getD i ""
      let successor := op.getSuccessor i
      builderLines ++
        [(BuilderLine.addSuccessorTemplate (if successor.isVariadic then "extend" else "append")
          argName).str]) builderLines

/-- The source's `populateBuilderLinesResult`.  The result is the statement list
after the call, or the message of the assertion that fails: in the branch of
`FirstAttrDerivedResultType` the source reads `op.getAttribute(0)`, which
asserts `idx < size()` on the attribute vector, and then asserts that the name
of that attribute is not empty. -/
def populateBuilderLinesResult (op : Operator) (names : List String)
    (builderLines : List String) : Except String (List String) :=
  let sizedSegments := op.getTrait (attrSizedTraitForKind "result")
  if hasSameArgumentAndResultTypes op then
    Except.ok (builderLines ++
      [(BuilderLine.appendSameResultsTemplate "operands[0].type" op.getNumResults).str])
  else if hasFirstAttrDerivedResultTypes op then
    if op.getAttributes.length = 0 then Except.error "idx < size()"
    else
      let firstAttr := op.getAttribute 0
      if StringRef.empty firstAttr.name then
        Except.error "unexpected empty name for the attribute from which the type is derived"
      else
        let builderLines :=
          appendLineByLine (deriveTypeFromAttrTemplate firstAttr.name) builderLines
        Except.ok (builderLines ++
          [(BuilderLine.appendSameResultsTemplate "_ods_derived_result_type"
            op.getNumResults).str])
  else if hasInferTypeInterface op then Except.ok builderLines
  else
    Except.ok ((List.range op.getNumResults).foldl (fun builderLines i =>
      let element := op.getResult i
      let name := names.getD i ""
      let formatString : String → BuilderLine :=
        if !element.isVariableLength then BuilderLine.singleResultAppendTemplate
        else if element.isOptional then BuilderLine.optionalAppendResultTemplate
        else
          if sizedSegments then BuilderLine.singleResultAppendTemplate
          else BuilderLine.multiResultAppendTemplate
      builderLines ++ [(formatString name).str]) builderLines)

/-- The three lists `emitDefaultOpBuilder` joins into `initTemplate`: the
signature, the statements of the body, and the arguments of the
`build_generic` call. -/
structure DefaultBuilder where
  functionArgs : List String
  builderLines : List String
  initArgs : List String
  deriving DecidableEq, Repr

/-- The source's `emitDefaultOpBuilder`: `Except.ok none` when the operation
skips default builders, `Except.ok (some b)` when the builder `b` is written,
and the message of the failing assertion when `populateBuilderLinesResult`
stops. -/
def emitDefaultOpBuilder (op : Operator) : Except String (Option DefaultBuilder) :=
  if op.skipDefaultBuilders then Except.ok none
  else
    let builderArgs := populateBuilderArgsResults op []
    let numResultArgs := builderArgs.length
    let (builderArgs, operandArgNames) := populateBuilderArgs op builderArgs []
    let numOperandAttrArgs := builderArgs.length - numResultArgs
    let (builderArgs, successorArgNames) := populateBuilderArgsSuccessors op builderArgs []
    let builderLines := populateBuilderLinesOperand op operandArgNames []
    let builderLines := populateBuilderLinesAttr op (builderArgs.drop numResultArgs) builderLines
    match populateBuilderLinesResult op (builderArgs.take numResultArgs) builderLines with
    | Except.error message => Except.error message
    | Except.ok builderLines =>
      let builderLines := populateBuilderLinesSuccessors op successorArgNames builderLines
      let (builderArgs, builderLines) := populateBuilderRegions op builderArgs builderLines
      -- Add positional arguments.
      let functionArgs := (List.range builderArgs.length).foldl (fun functionArgs i =>
        if !isKeywordArgFn op numResultArgs numOperandAttrArgs i then
          functionArgs ++ [builderArgs.getD i ""]
        else functionArgs) []
      let functionArgs := functionArgs ++ ["*"]
      -- Add a default `None` value to each keyword arg string.
      let functionArgs := (List.range builderArgs.length).foldl (fun functionArgs i =>
        if isKeywordArgFn op numResultArgs numOperandAttrArgs i then
          functionArgs ++ [builderArgs.getD i "" ++ "=None"]
        else functionArgs) functionArgs
      let functionArgs := functionArgs ++ ["loc=None", "ip=None"]
      let initArgs := ["attributes=attributes"]
      let initArgs :=
        if !hasInferTypeInterface op then initArgs ++ ["results=results"] else initArgs
      let initArgs := initArgs ++ ["operands=operands", "successors=_ods_successors",
        "regions=regions", "loc=loc", "ip=ip"]
      Except.ok (some (DefaultBuilder.mk functionArgs builderLines initArgs))

/-! ## Closed forms of the builder loops, used to state the properties -/

/-- The parameter `populateBuilderArgsResults` adds for the result at index
`i`. -/
def resultParameterName (op : Operator) (i : Nat) : String :=
  sanitizeName
    (if StringRef.empty (op.getResultName i) then
      if op.getNumResults = 1 then "result" else "_gen_res_" ++ toString i
    else op.getResultName i)

/-- The parameter `populateBuilderArgs` adds for the argument at index `i`. -/
def argParameterName (op : Operator) (i : Nat) : String :=
  sanitizeName
    (if StringRef.empty (op.getArgName i) then "_gen_arg_" ++ toString i else op.getArgName i)

/-- The parameter `populateBuilderArgsSuccessors` adds for the successor at
index `i`. -/
def successorParameterName (op : Operator) (i : Nat) : String :=
  sanitizeName
    (if StringRef.empty (op.getSuccessor i).name then "_gen_successor_" ++ toString i
     else (op.getSuccessor i).name)

/-- The parameter `populateBuilderRegions` adds for the trailing variadic
region. -/
def regionParameterName (op : Operator) : String :=
  "num_" ++ StringRef.lower (StringRef.take_front (op.getRegion (op.getNumRegions - 1)).name) ++
    StringRef.drop_front (op.getRegion (op.getNumRegions - 1)).name

/-- Whether an argument is an attribute (`is<NamedAttribute *>`). -/
def Argument.isNamedAttribute : Argument → Bool
  | Argument.namedAttribute _ => true
  | _ => false

/-- The classification `isKeywordArgFn` computes from an argument alone:
an optional or default-valued attribute, or an Optional operand. -/
def Argument.isKeyword : Argument → Bool
  | Argument.namedAttribute nattr => nattr.isOptional || nattr.hasDefaultValue
  | Argument.namedTypeConstraint ntype => ntype.isOptional
  | Argument.other _ => false

/-- The entries of `l` at the indices that satisfy `c`, in order: what the two
loops over `builderArgs` in `emitDefaultOpBuilder` collect. -/
def selectByIndex (c : Nat → Bool) (l : List String) : List String :=
  ((List.range l.length).filter c).map fun k => l.getD k ""

/-- The result parameters of the default builder. -/
def resultParameters (op : Operator) : List String :=
  if canInferType op then [] else (List.range op.getNumResults).map (resultParameterName op)

/-- The operand and attribute parameters of the default builder, in
declaration order. -/
def argParameters (op : Operator) : List String :=
  (List.range op.getNumArgs).map (argParameterName op)

/-- The successor parameters of the default builder. -/
def successorParameters (op : Operator) : List String :=
  (List.range op.getNumSuccessors).map (successorParameterName op)

/-- The region-count parameter of the default builder, if any. -/
def regionParameters (op : Operator) : List String :=
  if op.hasNoVariadicRegions then [] else [regionParameterName op]

/-- The line `populateBuilderLinesOperand` pushes for an operand slot. -/
def operandAppendLine (sizedSegments : Bool) (element : NamedTypeConstraint) (name : String) :
    BuilderLine :=
  if !element.isVariableLength then BuilderLine.singleOperandAppendTemplate name
  else if element.isOptional then
    if sizedSegments then BuilderLine.optionalAppendAttrSizedOperandsTemplate name
    else BuilderLine.optionalAppendOperandTemplate name
  else
    if sizedSegments then BuilderLine.multiOperandAppendPackTemplate name
    else BuilderLine.multiOperandAppendTemplate name

/-- The line the last branch of `populateBuilderLinesResult` pushes for a
result slot. -/
def resultAppendLine (sizedSegments : Bool) (element : NamedTypeConstraint) (name : String) :
    BuilderLine :=
  if !element.isVariableLength then BuilderLine.singleResultAppendTemplate name
  else if element.isOptional then BuilderLine.optionalAppendResultTemplate name
  else
    if sizedSegments then BuilderLine.singleResultAppendTemplate name
    else BuilderLine.multiResultAppendTemplate name

/-- The line `populateBuilderLinesAttr` pushes for an attribute argument. -/
def attrInitLine (nattr : NamedAttribute) (argName : String) : BuilderLine :=
  if nattr.isUnitAttr then BuilderLine.initUnitAttributeTemplate nattr.name argName
  else if nattr.isOptional || nattr.hasDefaultValue then
    BuilderLine.initOptionalAttributeWithBuilderTemplate argName nattr.name nattr.attrDefName
  else BuilderLine.initAttributeWithBuilderTemplate argName nattr.name nattr.attrDefName

/-- The lines of `populateBuilderLinesOperand`, one per operand slot. -/
def operandLines (op : Operator) (names : List String) : List BuilderLine :=
  (List.range op.getNumOperands).map fun i =>
    operandAppendLine (op.getTrait (attrSizedTraitForKind "operand")) (op.getOperand i)
      (names.getD i "")

/-- The lines of `populateBuilderLinesAttr` after the context line, one per
attribute argument. -/
def attrLines (op : Operator) (argNames : List String) : List BuilderLine :=
  (List.range op.getNumArgs).filterMap fun i =>
    match op.getArg i with
    | Argument.namedAttribute nattr => some (attrInitLine nattr (argNames.getD i ""))
    | _ => none

/-- The assertion on which `populateBuilderLinesResult` stops, if any: in the
branch of `FirstAttrDerivedResultType`, the bound of `op.getAttribute(0)` when
the operation has no attribute, and the assertion on the name when its first
attribute is unnamed. -/
def resultLinesError (op : Operator) : Option String :=
  if hasSameArgumentAndResultTypes op then none
  else if hasFirstAttrDerivedResultTypes op then
    if op.getAttributes.length = 0 then some "idx < size()"
    else if StringRef.empty (op.getAttribute 0).name then
      some "unexpected empty name for the attribute from which the type is derived"
    else none
  else none

/-- The lines `populateBuilderLinesResult` pushes when it returns. -/
def resultLines (op : Operator) (names : List String) : List String :=
  if hasSameArgumentAndResultTypes op then
    [(BuilderLine.appendSameResultsTemplate "operands[0].type" op.getNumResults).str]
  else if hasFirstAttrDerivedResultTypes op then
    splitLines [] (deriveTypeFromAttrTemplate (op.getAttribute 0).name).data ++
      [(BuilderLine.appendSameResultsTemplate "_ods_derived_result_type" op.getNumResults).str]
  else if hasInferTypeInterface op then []
  else
    (List.range op.getNumResults).map fun i =>
      (resultAppendLine (op.getTrait (attrSizedTraitForKind "result")) (op.getResult i)
        (names.getD i "")).str

/-- The lines of `populateBuilderLinesSuccessors`. -/
def successorLines (op : Operator) (successorArgNames : List String) : List BuilderLine :=
  if successorArgNames.isEmpty then [BuilderLine.initSuccessorsTemplate "None"]
  else
    BuilderLine.initSuccessorsTemplate "[]" ::
      (List.range successorArgNames.length).map fun i =>
        BuilderLine.addSuccessorTemplate
          (if (op.getSuccessor i).isVariadic then "extend" else "append")
          (successorArgNames.getD i "")

/-- The line of `populateBuilderRegions`, if any. -/
def regionLines (op : Operator) : List BuilderLine :=
  if op.hasNoVariadicRegions then []
  else [BuilderLine.regionsLine (op.getNumRegions - 1) (regionParameterName op)]

/-- The names `emitDefaultOpBuilder` passes to `populateBuilderLinesOperand`:
the parameters of the arguments that are not attributes. -/
def operandArgNames (op : Operator) : List String :=
  ((List.range op.getNumArgs).filter fun i => !(op.getArg i).isNamedAttribute).map
    (argParameterName op)

/-- The arguments of `exampleBuilderOp` in another order: the attributes
first, then the operands. -/
def exampleReorderedOp : Operator :=
  Operator.mk "BuilderOp" "test.builder" "test"
    [Argument.namedAttribute
       (NamedAttribute.mk "width" "::mlir::IntegerAttr" "I64Attr" false true false),
     Argument.namedAttribute (NamedAttribute.mk "flag" "::mlir::UnitAttr" "UnitAttr" true false false),
     Argument.namedAttribute
       (NamedAttribute.mk "kind" "::mlir::StringAttr" "StrAttr" false false false),
     Argument.namedTypeConstraint (NamedTypeConstraint.mk "rest" Multiplicity.Variadic),
     Argument.namedTypeConstraint (NamedTypeConstraint.mk "mask" Multiplicity.Optional),
     Argument.namedTypeConstraint (NamedTypeConstraint.mk "lhs" Multiplicity.Single)]
    []
    [NamedTypeConstraint.mk "" Multiplicity.Single]
    [NamedRegion.mk "body" false, NamedRegion.mk "cases" true]
    [NamedSuccessor.mk "dest" false] [] false

/-! ## Meaning of the builder statements

The statement templates are Python text that appends to the lists `operands`
and `results` and stores into the dictionary `attributes`. -/

/-- A Python value passed for a builder parameter, or held in `operands` or
`results`: `None`, one value, or a list of values. -/
inductive PyArg (α : Type)
  | None
  | value (v : α)
  | values (vs : List α)
  deriving DecidableEq, Repr

/-- The functions of `_ods_common` and `_ods_ir` that the statement templates
call.  They are not under src/ and are parameters of the meaning:
`_get_op_result_or_value`, `_get_op_results_or_values`, the test
`issubclass(type(x), _ods_ir.Attribute)`, the registry `_ods_ir.AttrBuilder`
(`contains` and `get`), `_ods_ir.UnitAttr.get(...)` and Python's `bool`. -/
structure BuilderHelpers (α : Type) where
  get_op_result_or_value : PyArg α → PyArg α
  get_op_results_or_values : PyArg α → PyArg α
  isAttribute : PyArg α → Bool
  attrBuilder : String → Option (PyArg α → PyArg α)
  unitAttr : PyArg α
  bool : PyArg α → Bool

/-- Runs an operand or result statement on its target list (`operands` or
`results`), the parameter named in the statement having the value `arg`.
The result is the list afterwards; `none` when Python raises (`extend` with a
value that is no list) and for the lines that are no such statement. -/
def BuilderLine.execAppend {α : Type} (h : BuilderHelpers α) (arg : PyArg α)
    (target : List (PyArg α)) : BuilderLine → Option (List (PyArg α))
  | BuilderLine.singleOperandAppendTemplate _ =>
    -- operands.append(_get_op_result_or_value({0}))
    some (target ++ [h.get_op_result_or_value arg])
  | BuilderLine.optionalAppendOperandTemplate _ =>
    -- if {0} is not None: operands.append(_get_op_result_or_value({0}))
    match arg with
    | PyArg.None => some target
    | _ => some (target ++ [h.get_op_result_or_value arg])
  | BuilderLine.optionalAppendAttrSizedOperandsTemplate _ =>
    -- operands.append(_get_op_result_or_value({0}) if {0} is not None else None)
    match arg with
    | PyArg.None => some (target ++ [PyArg.None])
    | _ => some (target ++ [h.get_op_result_or_value arg])
  | BuilderLine.multiOperandAppendTemplate _ =>
    -- operands.extend(_get_op_results_or_values({0}))
    match h.get_op_results_or_values arg with
    | PyArg.values vs => some (target ++ vs.map PyArg.value)
    | _ => none
  | BuilderLine.multiOperandAppendPackTemplate _ =>
    -- operands.append(_get_op_results_or_values({0}))
    some (target ++ [h.get_op_results_or_values arg])
  | BuilderLine.singleResultAppendTemplate _ =>
    -- results.append({0})
    some (target ++ [arg])
  | BuilderLine.optionalAppendResultTemplate _ =>
    -- if {0} is not None: results.append({0})
    match arg with
    | PyArg.None => some target
    | _ => some (target ++ [arg])
  | BuilderLine.multiResultAppendTemplate _ =>
    -- results.extend({0})
    match arg with
    | PyArg.values vs => some (target ++ vs.map PyArg.value)
    | _ => none
  | _ => none

/-- The value the two coercing templates store: the parameter itself when it is
an attribute object already or no builder is registered for the declared
type, and otherwise the registered builder applied to it. -/
def coerceAttribute {α : Type} (h : BuilderHelpers α) (attrDefName : String) (arg : PyArg α) :
    PyArg α :=
  if h.isAttribute arg then arg
  else
    match h.attrBuilder attrDefName with
    | none => arg
    | some build => build arg

/-- Runs an attribute statement on the dictionary `attributes` (the first
entry for a key is its value), the parameter named in the statement having the
value `arg`; `none` for the lines that are no attribute statement. -/
def BuilderLine.execAttr {α : Type} (h : BuilderHelpers α) (arg : PyArg α)
    (attributes : List (String × PyArg α)) : BuilderLine → Option (List (String × PyArg α))
  | BuilderLine.initAttributeWithBuilderTemplate _ attrName attrDefName =>
    some ((attrName, coerceAttribute h attrDefName arg) :: attributes)
  | BuilderLine.initOptionalAttributeWithBuilderTemplate _ attrName attrDefName =>
    -- if {0} is not None: ...
    match arg with
    | PyArg.None => some attributes
    | _ => some ((attrName, coerceAttribute h attrDefName arg) :: attributes)
  | BuilderLine.initUnitAttributeTemplate attrName _ =>
    -- if bool({1}): attributes["{0}"] = _ods_ir.UnitAttr.get(...)
    if h.bool arg then some ((attrName, h.unitAttr) :: attributes) else some attributes
  | _ => none

/-- The parameter a statement reads, for the statements of one parameter. -/
def BuilderLine.parameter : BuilderLine → Option String
  | BuilderLine.singleOperandAppendTemplate name => some name
  | BuilderLine.singleResultAppendTemplate name => some name
  | BuilderLine.optionalAppendOperandTemplate name => some name
  | BuilderLine.optionalAppendAttrSizedOperandsTemplate name => some name
  | BuilderLine.optionalAppendResultTemplate name => some name
  | BuilderLine.multiOperandAppendTemplate name => some name
  | BuilderLine.multiOperandAppendPackTemplate name => some name
  | BuilderLine.multiResultAppendTemplate name => some name
  | BuilderLine.initAttributeWithBuilderTemplate argName _ _ => some argName
  | BuilderLine.initOptionalAttributeWithBuilderTemplate argName _ _ => some argName
  | BuilderLine.initUnitAttributeTemplate _ argName => some argName
  | BuilderLine.addSuccessorTemplate _ argName => some argName
  | BuilderLine.regionsLine _ name => some name
  | _ => none

/-- Helpers that return their argument unchanged, with no registered attribute
builder. -/
def identityHelpers : BuilderHelpers Nat :=
  BuilderHelpers.mk id id (fun _ => false) (fun _ => none) (PyArg.value 0)
    (fun a => match a with
      | PyArg.None => false
      | _ => true)

/-- Operand slots and result slots `[a: Single, m: Optional, r: Variadic]`
(the results named `a0`, `m0`, `r0`) with both explicit-size-attribute
traits. -/
def exampleSizedOp : Operator :=
  Operator.mk "SizedOp" "test.sized" "test"
    [Argument.namedTypeConstraint (NamedTypeConstraint.mk "a" Multiplicity.Single),
     Argument.namedTypeConstraint (NamedTypeConstraint.mk "m" Multiplicity.Optional),
     Argument.namedTypeConstraint (NamedTypeConstraint.mk "r" Multiplicity.Variadic)]
    []
    [NamedTypeConstraint.mk "a0" Multiplicity.Single,
     NamedTypeConstraint.mk "m0" Multiplicity.Optional,
     NamedTypeConstraint.mk "r0" Multiplicity.Variadic] [] []
    ["::mlir::OpTrait::AttrSizedOperandSegments", "::mlir::OpTrait::AttrSizedResultSegments"]
    false

/-- Two Single operands and two Single results with the
`SameOperandsAndResultType` trait (Example 4 of the spec). -/
def exampleSameTypeOp : Operator :=
  Operator.mk "SameTypeOp" "test.same_type" "test"
    [Argument.namedTypeConstraint (NamedTypeConstraint.mk "lhs" Multiplicity.Single),
     Argument.namedTypeConstraint (NamedTypeConstraint.mk "rhs" Multiplicity.Single)]
    []
    [NamedTypeConstraint.mk "sum" Multiplicity.Single,
     NamedTypeConstraint.mk "carry" Multiplicity.Single] [] []
    ["::mlir::OpTrait::SameOperandsAndResultType"] false

/-! ## Region attributes and attribute accessors -/

/-- One `os << llvm::formatv(template, args...)` of `emitRegionAttributes` or
`emitAttributeAccessors`: the template and the arguments substituted into it.
In the attribute templates the first argument is the sanitized name, which
names the Python property, and the second the declared name, which is the key
in `self.operation.attributes`. -/
inductive ClassEmitted
  | opClassRegionSpecTemplate (minRegionCount : Nat) (hasNoVariadicRegions : String)
  | attributeGetterTemplate (sanitizedName name : String)
  | optionalAttributeGetterTemplate (sanitizedName name : String)
  | unitAttributeGetterTemplate (sanitizedName name : String)
  | attributeSetterTemplate (sanitizedName name : String)
  | optionalAttributeSetterTemplate (sanitizedName name : String)
  | unitAttributeSetterTemplate (sanitizedName name : String)
  | attributeDeleterTemplate (sanitizedName name : String)
  deriving DecidableEq, Repr

/-- The source's `emitRegionAttributes`. -/
def emitRegionAttributes (op : Operator) (os : List ClassEmitted) : List ClassEmitted :=
  let minRegionCount := op.getNumRegions - op.getNumVariadicRegions
  os ++ [ClassEmitted.opClassRegionSpecTemplate minRegionCount
    (if op.hasNoVariadicRegions then "True" else "False")]

/-- Body of the loop of `emitAttributeAccessors`. -/
def emitAttributeAccessorsBody (os : List ClassEmitted) (namedAttr : NamedAttribute) :
    List ClassEmitted :=
  -- Skip "derived" attributes because they are just C++ functions that we
  -- don't currently expose.
  if namedAttr.isDerivedAttr then os
  else if StringRef.empty namedAttr.name then os
  else
    let sanitizedName := sanitizeName namedAttr.name
    -- Unit attributes are handled specially.
    if namedAttr.isUnitAttr then
      os ++ [ClassEmitted.unitAttributeGetterTemplate sanitizedName namedAttr.name,
        ClassEmitted.unitAttributeSetterTemplate sanitizedName namedAttr.name,
        ClassEmitted.attributeDeleterTemplate sanitizedName namedAttr.name]
    else if namedAttr.isOptional then
      os ++ [ClassEmitted.optionalAttributeGetterTemplate sanitizedName namedAttr.name,
        ClassEmitted.optionalAttributeSetterTemplate sanitizedName namedAttr.name,
        ClassEmitted.attributeDeleterTemplate sanitizedName namedAttr.name]
    else
      -- Non-optional attributes cannot be deleted.
      os ++ [ClassEmitted.attributeGetterTemplate sanitizedName namedAttr.name,
        ClassEmitted.attributeSetterTemplate sanitizedName namedAttr.name]

/-- The source's `emitAttributeAccessors`. -/
def emitAttributeAccessors (op : Operator) (os : List ClassEmitted) : List ClassEmitted :=
  op.getAttributes.foldl emitAttributeAccessorsBody os

/-- What an attribute getter returns or raises. -/
inductive GetterResult (β : Type)
  | value (v : β)
  | None
  | bool (b : Bool)
  | KeyError (key : String)
  deriving DecidableEq, Repr

/-- Runs the body of a getter template on the attribute dictionary of the
operation (the first entry for a key is its value); `none` for a chunk that is
no getter. -/
def ClassEmitted.evalGetter {β : Type} (attributes : List (String × β)) :
    ClassEmitted → Option (GetterResult β)
  | ClassEmitted.attributeGetterTemplate _ name =>
    -- return self.operation.attributes["{1}"]
    match attributes.lookup name with
    | some v => some (GetterResult.value v)
    | none => some (GetterResult.KeyError name)
  | ClassEmitted.optionalAttributeGetterTemplate _ name =>
    -- if "{1}" not in self.operation.attributes: return None
    -- return self.operation.attributes["{1}"]
    match attributes.lookup name with
    | some v => some (GetterResult.value v)
    | none => some GetterResult.None
  | ClassEmitted.unitAttributeGetterTemplate _ name =>
    -- return "{1}" in self.operation.attributes
    some (GetterResult.bool (attributes.lookup name).isSome)
  | _ => none

/-- What a setter or deleter does: the dictionary afterwards, or the exception
raised. -/
inductive SetterResult (β : Type)
  | attributes (d : List (String × β))
  | ValueError
  | KeyError (key : String)
  deriving DecidableEq, Repr

/-- Runs the body of a setter template with the argument `value` (`none` is
Python's `None`); `unitAttr` is `_ods_ir.UnitAttr.get()` and `truthy` is
Python's `bool` on a value that is not `None`.  The result is `none` for a
chunk that is no setter. -/
def ClassEmitted.evalSetter {β : Type} (unitAttr : β) (truthy : β → Bool)
    (attributes : List (String × β)) (value : Option β) :
    ClassEmitted → Option (SetterResult β)
  | ClassEmitted.attributeSetterTemplate _ name =>
    -- if value is None: raise ValueError(...)
    -- self.operation.attributes["{1}"] = value
    match value with
    | none => some SetterResult.ValueError
    | some v => some (SetterResult.attributes ((name, v) :: attributes.filter (·.1 ≠ name)))
  | ClassEmitted.optionalAttributeSetterTemplate _ name =>
    -- if value is not None: self.operation.attributes["{1}"] = value
    -- elif "{1}" in self.operation.attributes: del self.operation.attributes["{1}"]
    match value with
    | some v => some (SetterResult.attributes ((name, v) :: attributes.filter (·.1 ≠ name)))
    | none => some (SetterResult.attributes (attributes.filter (·.1 ≠ name)))
  | ClassEmitted.unitAttributeSetterTemplate _ name =>
    -- if bool(value): self.operation.attributes["{1}"] = _ods_ir.UnitAttr.get()
    -- elif "{1}" in self.operation.attributes: del self.operation.attributes["{1}"]
    match value with
    | some v =>
      if truthy v then
        some (SetterResult.attributes ((name, unitAttr) :: attributes.filter (·.1 ≠ name)))
      else some (SetterResult.attributes (attributes.filter (·.1 ≠ name)))
    | none => some (SetterResult.attributes (attributes.filter (·.1 ≠ name)))
  | _ => none

/-- Runs the body of the deleter template, `del self.operation.attributes[key]`;
`none` for a chunk that is no deleter. -/
def ClassEmitted.evalDeleter {β : Type} (attributes : List (String × β)) :
    ClassEmitted → Option (SetterResult β)
  | ClassEmitted.attributeDeleterTemplate _ name =>
    match attributes.lookup name with
    | some _ => some (SetterResult.attributes (attributes.filter (·.1 ≠ name)))
    | none => some (SetterResult.KeyError name)
  | _ => none

/-- The chunks `emitAttributeAccessors` writes for one attribute. -/
def attributeAccessorChunks (namedAttr : NamedAttribute) : List ClassEmitted :=
  emitAttributeAccessorsBody [] namedAttr

/-- An operation with an optional attribute `opt`, a default-valued attribute
`width` that is not optional, and a mandatory attribute `kind`. -/
def exampleAttributesOp : Operator :=
  Operator.mk "AttributesOp" "test.attributes" "test"
    [Argument.namedAttribute
       (NamedAttribute.mk "opt" "::mlir::IntegerAttr" "I64Attr" true false false),
     Argument.namedAttribute
       (NamedAttribute.mk "width" "::mlir::IntegerAttr" "I64Attr" false true false),
     Argument.namedAttribute
       (NamedAttribute.mk "kind" "::mlir::StringAttr" "StrAttr" false false false)]
    [] [] [] [] [] false

/-- An operation with a unit attribute `flag`, a mandatory attribute `kind`,
an unnamed attribute, and a derived attribute `shape`. -/
def exampleUnitAttributesOp : Operator :=
  Operator.mk "UnitAttributesOp" "test.unit_attributes" "test"
    [Argument.namedAttribute
       (NamedAttribute.mk "flag" " ::mlir::UnitAttr " "UnitAttr" true false false),
     Argument.namedAttribute
       (NamedAttribute.mk "kind" "::mlir::StringAttr" "StrAttr" false false false),
     Argument.namedAttribute
       (NamedAttribute.mk "" "::mlir::StringAttr" "StrAttr" false false false)]
    [NamedAttribute.mk "shape" "::mlir::Attribute" "DerivedAttr" false false true]
    [] [] [] [] false

/-! ## Emission driver -/

/-- One `os << llvm::formatv(template, args...)` of `emitAllOps`,
`emitOpBindings`, `emitSegmentSpec`, `emitDefaultOpBuilder` or
`emitRegionAccessors` with the arguments substituted into the template, or a
chunk written by the accessor emitters (`emitted`) or by `emitRegionAttributes`
and `emitAttributeAccessors` (`classEmitted`). -/
inductive FileEmitted
  | fileHeader (name : String)
  | dialectClassTemplate (name : String)
  | dialectExtensionTemplate (name : String)
  | opClassTemplate (cppClassName operationName : String)
  | opClassSizedSegmentsTemplate (kind segmentSpec : String)
  | initTemplate (functionArgs builderLines initArgs : String)
  | regionAccessorTemplate (name index : String)
  | classEmitted (c : ClassEmitted)
  | emitted (e : Emitted)
  deriving DecidableEq, Repr

/-- The source's `emitSegmentSpec`. -/
def emitSegmentSpec (op : Operator) (kind : String) (getNumElements : Operator → Nat)
    (getElement : Operator → Nat → NamedTypeConstraint) (os : List FileEmitted) :
    List FileEmitted :=
  let segmentSpec := (List.range (getNumElements op)).foldl (fun segmentSpec i =>
    let element := getElement op i
    if element.isOptional then segmentSpec ++ "0,"
    else if element.isVariadic then segmentSpec ++ "-1,"
    else segmentSpec ++ "1,") "["
  let segmentSpec := segmentSpec ++ "]"
  os ++ [FileEmitted.opClassSizedSegmentsTemplate kind segmentSpec]

/-- The source's `emitRegionAccessors`; the error is the failure of its
assertion. -/
def emitRegionAccessors (op : Operator) (os : List FileEmitted) :
    Except String (List FileEmitted) :=
  (List.range op.getNumRegions).foldlM (fun os index =>
    let region := op.getRegion index
    if StringRef.empty region.name then Except.ok os
    else if !(!region.isVariadic || index == op.getNumRegions - 1) then
      Except.error "expected only the last region to be variadic"
    else
      Except.ok (os ++ [FileEmitted.regionAccessorTemplate (sanitizeName region.name)
        (toString index ++ (if region.isVariadic then ":" else ""))])) os

/-- The source's `emitOpBindings`: the binding block of one operation.  The
emitters it calls write to the same stream; the builder is written with
`initTemplate` and the three joined lists. -/
def emitOpBindings (op : Operator) (os : List FileEmitted) : Except String (List FileEmitted) := do
  let os := os ++ [FileEmitted.opClassTemplate op.cppClassName op.operationName]
  -- Sized segments.
  let os :=
    if op.getTrait (attrSizedTraitForKind "operand") then
      emitSegmentSpec op "OPERAND" Operator.getNumOperands Operator.getOperand os
    else os
  let os :=
    if op.getTrait (attrSizedTraitForKind "result") then
      emitSegmentSpec op "RESULT" Operator.getNumResults Operator.getResult os
    else os
  let os := os ++ (emitRegionAttributes op []).map FileEmitted.classEmitted
  let defaultBuilder ← emitDefaultOpBuilder op
  let os :=
    match defaultBuilder with
    | none => os
    | some b =>
      os ++ [FileEmitted.initTemplate (String.intercalate ", " b.functionArgs)
        (String.intercalate "\n    " b.builderLines) (String.intercalate ", " b.initArgs)]
  let operandAccessors ← emitOperandAccessors op []
  let os := os ++ operandAccessors.map FileEmitted.emitted
  let os := os ++ (emitAttributeAccessors op []).map FileEmitted.classEmitted
  let resultAccessors ← emitResultAccessors op []
  let os := os ++ resultAccessors.map FileEmitted.emitted
  emitRegionAccessors op os

/-- The source's `emitAllOps`; `clDialectName` and `clDialectExtensionName` are
the two command-line options and `records` the operations of the record
keeper.  The error is the message of `llvm::PrintFatalError`.  In the source
the loop over the records, which calls `emitOpBindings` for the operations of
the dialect, is commented out (lines 832-836), so the function does not read
`records`. -/
def emitAllOps (clDialectName clDialectExtensionName : String) (_records : List Operator)
    (os : List FileEmitted) : Except String (List FileEmitted × Bool) :=
  if StringRef.empty clDialectName then Except.error "dialect name not provided"
  else
    let isExtension := !StringRef.empty clDialectExtensionName
    let os := os ++ [FileEmitted.fileHeader
      (if isExtension then clDialectExtensionName else clDialectName)]
    let os :=
      if isExtension then os ++ [FileEmitted.dialectExtensionTemplate clDialectName]
      else os ++ [FileEmitted.dialectClassTemplate clDialectName]
    Except.ok (os, false)

/-- Two Single operands and two Single results, no regions, with both the
`SameOperandsAndResultType` trait and the `InferTypeOpInterface` trait. -/
def exampleSameTypeInferOp : Operator :=
  Operator.mk "SameTypeInferOp" "test.same_type_infer" "test"
    [Argument.namedTypeConstraint (NamedTypeConstraint.mk "lhs" Multiplicity.Single),
     Argument.namedTypeConstraint (NamedTypeConstraint.mk "rhs" Multiplicity.Single)]
    []
    [NamedTypeConstraint.mk "sum" Multiplicity.Single,
     NamedTypeConstraint.mk "carry" Multiplicity.Single] [] []
    ["::mlir::OpTrait::SameOperandsAndResultType", "::mlir::InferTypeOpInterface::Trait"] false

/-- The elements of the runtime sequence that the value returned by an accessor
holds: the element, none for `None`, or the elements of the sub-sequence. -/
def PyValue.toList {α : Type} : PyValue α → List α
  | PyValue.element x => [x]
  | PyValue.None => []
  | PyValue.sequence xs => xs

/-- The elements a one-chunk accessor reads from the operation `self`: those
its body returns, and none when the body raises. -/
def accessorReads {α : Type}
    (equally_sized_accessor : List α → Nat → Nat → Nat → Except PyError (Int × Int))
    (self : PyOperation α) (c : Emitted) : List α :=
  match evalAccessor equally_sized_accessor self [c] with
  | Except.ok v => v.toList
  | Except.error _ => []

theorem countInferred_fold (op : Operator) (kind : Kind) (getNumElements : Operator → Nat)
    (getElement : Operator → Nat → NamedTypeConstraint) (os : List Emitted) (n : Nat) :
    (List.range n).foldl (countInferredBody op kind getNumElements getElement) (os, false) =
      (os ++ (List.range n).filterMap
          (countInferredChunk kind (getNumElements op) (getElement op)),
        anyVariableLengthBefore (getElement op) n) := by
  induction n with
  | zero => simp [anyVariableLengthBefore]
  | succ n ih =>
    rw [List.range_succ, List.foldl_append, ih]
    simp only [List.foldl_cons, List.foldl_nil, List.filterMap_append,
      List.filterMap_cons, List.filterMap_nil]
    unfold countInferredBody countInferredChunk anyVariableLengthBefore
    simp only [List.range_succ, List.any_append, List.any_cons, List.any_nil, Bool.or_false]
    cases hv : (getElement op n).isVariableLength <;>
      cases hs : (List.range n).any (fun j => (getElement op j).isVariableLength) <;>
      cases he : StringRef.empty (getElement op n).name <;> simp [hv, hs, he]

theorem equalSize_fold (op : Operator) (kind : Kind) (numVariableLength : Nat)
    (getElement : Operator → Nat → NamedTypeConstraint) (os : List Emitted) (n : Nat) :
    (List.range n).foldl (equalSizeBody op kind numVariableLength getElement) (os, 0, 0) =
      (os ++ (List.range n).flatMap (equalSizeChunk kind numVariableLength (getElement op)),
        numSimpleBefore (getElement op) n, numVariadicBefore (getElement op) n) := by
  induction n with
  | zero => simp [numSimpleBefore, numVariadicBefore]
  | succ n ih =>
    rw [List.range_succ, List.foldl_append, ih]
    simp only [List.foldl_cons, List.foldl_nil, List.flatMap_append, List.flatMap_cons,
      List.flatMap_nil, List.append_nil]
    unfold equalSizeBody equalSizeChunk numSimpleBefore numVariadicBefore
    simp only [List.range_succ, List.countP_append, List.countP_cons, List.countP_nil]
    cases hv : (getElement op n).isVariableLength <;>
      cases he : StringRef.empty (getElement op n).name <;> simp [hv, he]

theorem attrSized_fold (op : Operator) (kind : Kind)
    (getElement : Operator → Nat → NamedTypeConstraint) (os : List Emitted) (n : Nat) :
    (List.range n).foldl (attrSizedBody op kind getElement) os =
      os ++ (List.range n).filterMap (attrSizedChunk kind (getElement op)) := by
  induction n with
  | zero => simp
  | succ n ih =>
    rw [List.range_succ, List.foldl_append, ih]
    simp only [List.foldl_cons, List.foldl_nil, List.filterMap_append,
      List.filterMap_cons, List.filterMap_nil]
    unfold attrSizedBody attrSizedChunk
    cases he : StringRef.empty (getElement op n).name <;> simp [he]

theorem emitAccessors_eq (kind : Kind) (op : Operator) (os : List Emitted) :
    emitAccessors kind op os =
      if op.numVariableLength kind ≤ 1 then
        Except.ok (os ++ (List.range (op.elements kind).length).filterMap
          (countInferredChunk kind (op.elements kind).length (op.getElement kind)))
      else if op.getTrait (sameSizeTraitForKind kind.str) then
        Except.ok (os ++ (List.range (op.elements kind).length).flatMap
          (equalSizeChunk kind (op.numVariableLength kind) (op.getElement kind)))
      else if op.getTrait (attrSizedTraitForKind kind.str) then
        Except.ok (os ++ (List.range (op.elements kind).length).filterMap
          (attrSizedChunk kind (op.getElement kind)))
      else Except.error ("unsupported " ++ kind.str ++ " structure") := by
  cases kind <;>
    simp only [emitAccessors, emitOperandAccessors, emitResultAccessors, emitElementAccessors,
      countInferred_fold, equalSize_fold, attrSized_fold, Operator.numVariableLength,
      Operator.elements, Operator.getElement, Operator.getNumOperands, Operator.getNumResults]

/-! ## Policy selection -/

theorem countInferredChunk_policy (kind : Kind) (numElements : Nat)
    (g : Nat → NamedTypeConstraint) (i : Nat) (c : Emitted)
    (h : countInferredChunk kind numElements g i = some c) : c.policy = Policy.countInferred := by
  unfold countInferredChunk at h
  simp only at h
  split_ifs at h <;> simp only [Option.some.injEq] at h <;> subst h <;> rfl

theorem equalSizeChunk_policy (kind : Kind) (numVariableLength : Nat)
    (g : Nat → NamedTypeConstraint) (i : Nat) (c : Emitted)
    (h : c ∈ equalSizeChunk kind numVariableLength g i) : c.policy = Policy.equalSize := by
  unfold equalSizeChunk at h
  simp only at h
  split_ifs at h <;> simp at h <;> rcases h with h | h <;> subst h <;> rfl

theorem attrSizedChunk_policy (kind : Kind) (g : Nat → NamedTypeConstraint) (i : Nat)
    (c : Emitted) (h : attrSizedChunk kind g i = some c) :
    c.policy = Policy.explicitSizeAttribute := by
  unfold attrSizedChunk at h
  simp only at h
  split_ifs at h <;> simp only [Option.some.injEq] at h <;> subst h <;> rfl

theorem emitElementAccessors_error_iff (op : Operator) (os : List Emitted) (kind : Kind)
    (getNumVariableLength getNumElements : Operator → Nat)
    (getElement : Operator → Nat → NamedTypeConstraint) :
    (∃ msg, emitElementAccessors op os kind getNumVariableLength getNumElements getElement =
          Except.error msg) ↔
      1 < getNumVariableLength op ∧ op.getTrait (sameSizeTraitForKind kind.str) = false ∧
        op.getTrait (attrSizedTraitForKind kind.str) = false := by
  unfold emitElementAccessors
  simp only
  by_cases h : getNumVariableLength op ≤ 1
  · simp only [h, ↓reduceIte]
    constructor
    · rintro ⟨msg, hm⟩
      cases hm
    · rintro ⟨h1, _⟩
      omega
  · cases hs : op.getTrait (sameSizeTraitForKind kind.str) <;>
      cases ha : op.getTrait (attrSizedTraitForKind kind.str) <;>
      first | (simp [h]; omega) | simp [h]

/-- C1: `emitElementAccessors` picks its policy by priority.  With at most one
variable-length slot it runs the count-inferred loop, whatever the traits;
otherwise with the `SameVariadic<Kind>Size` trait the equal-size loop, even
when `AttrSized<Kind>Segments` is set too; otherwise with
`AttrSized<Kind>Segments` the explicit-size-attribute loop; otherwise it
raises.  The chunks written are all templates of the selected policy, and the
call raises exactly when there are two or more variable-length slots and
neither trait is present. -/
theorem emitElementAccessors_policy_priority (op : Operator) (os : List Emitted) (kind : Kind)
    (getNumVariableLength getNumElements : Operator → Nat)
    (getElement : Operator → Nat → NamedTypeConstraint) :
    (sameSizeTraitForKind Kind.operand.str = "::mlir::OpTrait::SameVariadicOperandSize" ∧
      sameSizeTraitForKind Kind.result.str = "::mlir::OpTrait::SameVariadicResultSize" ∧
      attrSizedTraitForKind Kind.operand.str = "::mlir::OpTrait::AttrSizedOperandSegments" ∧
      attrSizedTraitForKind Kind.result.str = "::mlir::OpTrait::AttrSizedResultSegments") ∧
    (getNumVariableLength op ≤ 1 →
      ∃ out, emitElementAccessors op os kind getNumVariableLength getNumElements getElement =
          Except.ok (os ++ out) ∧
        out = (List.range (getNumElements op)).filterMap
          (countInferredChunk kind (getNumElements op) (getElement op)) ∧
        ∀ c ∈ out, c.policy = Policy.countInferred) ∧
    (1 < getNumVariableLength op → op.getTrait (sameSizeTraitForKind kind.str) = true →
      ∃ out, emitElementAccessors op os kind getNumVariableLength getNumElements getElement =
          Except.ok (os ++ out) ∧
        out = (List.range (getNumElements op)).flatMap
          (equalSizeChunk kind (getNumVariableLength op) (getElement op)) ∧
        ∀ c ∈ out, c.policy = Policy.equalSize) ∧
    (1 < getNumVariableLength op → op.getTrait (sameSizeTraitForKind kind.str) = false →
      op.getTrait (attrSizedTraitForKind kind.str) = true →
      ∃ out, emitElementAccessors op os kind getNumVariableLength getNumElements getElement =
          Except.ok (os ++ out) ∧
        out = (List.range (getNumElements op)).filterMap
          (attrSizedChunk kind (getElement op)) ∧
        ∀ c ∈ out, c.policy = Policy.explicitSizeAttribute) ∧
    ((∃ msg, emitElementAccessors op os kind getNumVariableLength getNumElements getElement =
          Except.error msg) ↔
      1 < getNumVariableLength op ∧ op.getTrait (sameSizeTraitForKind kind.str) = false ∧
        op.getTrait (attrSizedTraitForKind kind.str) = false) := by
  refine ⟨⟨by decide, by decide, by decide, by decide⟩, ?_, ?_, ?_, ?_⟩
  · intro h
    refine ⟨_, ?_, rfl, ?_⟩
    · simp only [emitElementAccessors, h, ↓reduceIte, countInferred_fold]
    · intro c hc
      obtain ⟨i, _, hi⟩ := List.mem_filterMap.mp hc
      exact countInferredChunk_policy _ _ _ _ _ hi
  · intro h hs
    refine ⟨_, ?_, rfl, ?_⟩
    · simp only [emitElementAccessors, Nat.not_le.mpr h, hs, ↓reduceIte, equalSize_fold]
    · intro c hc
      obtain ⟨i, _, hi⟩ := List.mem_flatMap.mp hc
      exact equalSizeChunk_policy _ _ _ _ _ hi
  · intro h hs ha
    refine ⟨_, ?_, rfl, ?_⟩
    · simp only [emitElementAccessors, Nat.not_le.mpr h, hs, ha, ↓reduceIte, attrSized_fold,
        Bool.false_eq_true]
    · intro c hc
      obtain ⟨i, _, hi⟩ := List.mem_filterMap.mp hc
      exact attrSizedChunk_policy _ _ _ _ hi
  · exact emitElementAccessors_error_iff op os kind getNumVariableLength getNumElements
      getElement

/-! ## Slots and counts -/

theorem Operator.getElement_eq (op : Operator) (kind : Kind) (j : Nat) :
    op.getElement kind j = (op.elements kind).getD j default := by
  cases kind <;> rfl

theorem Operator.numVariableLength_eq (op : Operator) (kind : Kind) :
    op.numVariableLength kind =
      (op.elements kind).countP NamedTypeConstraint.isVariableLength := by
  cases kind <;> rfl

theorem getD_isVariableLength_of_forall (l : List NamedTypeConstraint)
    (h : ∀ e ∈ l, e.isVariableLength = false) (j : Nat) :
    (l.getD j default).isVariableLength = false := by
  by_cases hj : j < l.length
  · rw [List.getD_eq_getElem l default hj]
    exact h _ (List.getElem_mem hj)
  · rw [List.getD_eq_default l default (Nat.le_of_not_lt hj)]
    rfl

theorem countP_le_one_of_unique {α : Type} (p : α → Bool) (l : List α) (v : Nat)
    (h : ∀ j (hj : j < l.length), j ≠ v → p l[j] = false) : l.countP p ≤ 1 := by
  induction l generalizing v with
  | nil => simp
  | cons a t ih =>
    cases v with
    | zero =>
      have ht : t.countP p = 0 := by
        rw [List.countP_eq_zero]
        intro x hx
        obtain ⟨k, hk, rfl⟩ := List.getElem_of_mem hx
        have := h (k + 1) (by simpa using hk) (by omega)
        simpa using this
      rw [List.countP_cons, ht]
      split <;> omega
    | succ v =>
      have ha : p a = false := by
        have := h 0 (by simp) (by omega)
        simpa using this
      have ht : t.countP p ≤ 1 := ih v (fun j hj hne => by
        have := h (j + 1) (by simpa using hj) (by omega)
        simpa using this)
      rw [List.countP_cons, ha]
      simpa using ht

theorem anyVariableLengthBefore_eq_false (g : Nat → NamedTypeConstraint) (n : Nat)
    (h : ∀ j, j < n → (g j).isVariableLength = false) : anyVariableLengthBefore g n = false := by
  unfold anyVariableLengthBefore
  rw [List.any_eq_false]
  intro j hj
  rw [h j (List.mem_range.mp hj)]
  simp

theorem anyVariableLengthBefore_eq_true (g : Nat → NamedTypeConstraint) (n v : Nat)
    (hv : v < n) (h : (g v).isVariableLength = true) : anyVariableLengthBefore g n = true := by
  unfold anyVariableLengthBefore
  rw [List.any_eq_true]
  exact ⟨v, List.mem_range.mpr hv, h⟩


/-! ## Python indexing and slicing inside the sequence -/

theorem pyGetItem_of_eq {α : Type} (xs : List α) (z : Int) (k : Nat) (hz : z = (k : Int))
    (hk : k < xs.length) : pyGetItem xs z = Except.ok xs[k] := by
  subst hz
  unfold pyGetItem
  have h1 : ¬ ((k : Int) < 0) := by omega
  simp [h1, hk]

theorem pySlice_of_eq {α : Type} (xs : List α) (lo hi : Int) (a b : Nat) (hlo : lo = (a : Int))
    (hhi : hi = (b : Int)) (hab : a ≤ b) (hb : b ≤ xs.length) :
    pySlice xs lo hi = (xs.drop a).take (b - a) := by
  subst hlo hhi
  unfold pySlice pySliceIndex
  have h1 : ¬ ((a : Int) < 0) := by omega
  have h2 : ¬ ((b : Int) < 0) := by omega
  have h3 : min a xs.length = a := by omega
  have h4 : min b xs.length = b := by omega
  simp [h1, h2, h3, h4]

/-! ## Count-inferred policy -/

/-- C2: with no variable-length slot, every named slot at declared position
`i` (unnamed slots are counted in the position) gets the fixed-index template
with index `i`, and that accessor returns element `i` of the runtime
sequence. -/
theorem fixed_index_accessors (kind : Kind) (op : Operator)
    (h : op.numVariableLength kind = 0) :
    emitAccessors kind op [] =
        Except.ok ((List.range (op.elements kind).length).filterMap fun i =>
          if StringRef.empty (op.getElement kind i).name then none
          else some (Emitted.opSingleTemplate (sanitizeName (op.getElement kind i).name) kind i)) ∧
      ∀ {α : Type} (esa : List α → Nat → Nat → Nat → Except PyError (Int × Int))
        (self : PyOperation α) (name : String) (i : Nat) (hi : i < (self.elements kind).length),
        evalAccessor esa self [Emitted.opSingleTemplate name kind i] =
          Except.ok (PyValue.element (self.elements kind)[i]) := by
  constructor
  · rw [emitAccessors_eq, if_pos (by omega), List.nil_append]
    congr 1
    apply List.filterMap_congr
    intro i _
    have hall : ∀ j, (op.getElement kind j).isVariableLength = false := by
      intro j
      rw [Operator.getElement_eq]
      apply getD_isVariableLength_of_forall
      rw [Operator.numVariableLength_eq, List.countP_eq_zero] at h
      intro e he
      simpa using h e he
    simp only [countInferredChunk, hall i,
      anyVariableLengthBefore_eq_false _ _ (fun j _ => hall j)]
    simp
  · intro α esa self name i hi
    simp only [evalAccessor, selfOperation, bind, Except.bind, pure, Except.pure,
      pyGetItem_of_eq _ _ i rfl hi]

theorem isVariableLength_of_single (e : NamedTypeConstraint)
    (h : e.multiplicity = Multiplicity.Single) : e.isVariableLength = false := by
  simp [NamedTypeConstraint.isVariableLength, NamedTypeConstraint.isOptional,
    NamedTypeConstraint.isVariadic, h]

theorem numVariableLength_le_one_of_unique (kind : Kind) (op : Operator) (v : Nat)
    (hothers : ∀ j, j < (op.elements kind).length → j ≠ v →
      (op.getElement kind j).multiplicity = Multiplicity.Single) :
    op.numVariableLength kind ≤ 1 := by
  rw [Operator.numVariableLength_eq]
  apply countP_le_one_of_unique _ _ v
  intro j hj hne
  have := hothers j hj hne
  rw [Operator.getElement_eq, List.getD_eq_getElem _ _ hj] at this
  exact isVariableLength_of_single _ this

theorem anyVariableLengthBefore_unique (kind : Kind) (op : Operator) (v : Nat)
    (hvar : (op.getElement kind v).isVariableLength = true)
    (hothers : ∀ j, j < (op.elements kind).length → j ≠ v →
      (op.getElement kind j).multiplicity = Multiplicity.Single)
    (j : Nat) (hj : j < (op.elements kind).length) :
    anyVariableLengthBefore (op.getElement kind) (j + 1) = decide (v ≤ j) := by
  by_cases hvj : v ≤ j
  · rw [anyVariableLengthBefore_eq_true _ _ v (by omega) hvar]
    simp [hvj]
  · rw [anyVariableLengthBefore_eq_false]
    · simp [hvj]
    · intro k hk
      exact isVariableLength_of_single _ (hothers k (by omega) (by omega))

/-- C3: a sequence of `N` slots whose only variable-length slot is a Variadic
slot at position `v`.  Named Single slots before `v` get the fixed-index
template, the Variadic slot the one-variadic template, named Single slots
after `v` the after-variable template.  On a runtime sequence of `R >= N - 1`
elements, with `L = R - N + 1 = R - (fixedBefore + fixedAfter)`, the Variadic
accessor returns the `L` elements from `v`, a Single slot at `j < v` reads
index `j`, and a Single slot at `j > v` reads index `j + L - 1`. -/
theorem one_variadic_accessors (kind : Kind) (op : Operator) (v : Nat)
    (hv : v < (op.elements kind).length)
    (hvar : (op.getElement kind v).multiplicity = Multiplicity.Variadic)
    (hothers : ∀ j, j < (op.elements kind).length → j ≠ v →
      (op.getElement kind j).multiplicity = Multiplicity.Single) :
    emitAccessors kind op [] =
        Except.ok ((List.range (op.elements kind).length).filterMap fun j =>
          if StringRef.empty (op.getElement kind j).name then none
          else some (
            if j < v then
              Emitted.opSingleTemplate (sanitizeName (op.getElement kind j).name) kind j
            else if j = v then
              Emitted.opOneVariadicTemplate (sanitizeName (op.getElement kind j).name) kind
                (op.elements kind).length v
            else
              Emitted.opSingleAfterVariableTemplate (sanitizeName (op.getElement kind j).name)
                kind (op.elements kind).length j)) ∧
      ∀ {α : Type} (esa : List α → Nat → Nat → Nat → Except PyError (Int × Int))
        (self : PyOperation α),
        (op.elements kind).length - 1 ≤ (self.elements kind).length →
        (self.elements kind).length + 1 - (op.elements kind).length =
            (self.elements kind).length - (v + ((op.elements kind).length - 1 - v)) ∧
          (∀ name : String,
            evalAccessor esa self
                [Emitted.opOneVariadicTemplate name kind (op.elements kind).length v] =
              Except.ok (PyValue.sequence (((self.elements kind).drop v).take
                ((self.elements kind).length + 1 - (op.elements kind).length))) ∧
            (((self.elements kind).drop v).take
                ((self.elements kind).length + 1 - (op.elements kind).length)).length =
              (self.elements kind).length + 1 - (op.elements kind).length) ∧
          (∀ (name : String) (j : Nat), j < v →
            ∃ x, (self.elements kind)[j]? = some x ∧
              evalAccessor esa self [Emitted.opSingleTemplate name kind j] =
                Except.ok (PyValue.element x)) ∧
          (∀ (name : String) (j : Nat), v < j → j < (op.elements kind).length →
            ∃ x, (self.elements kind)[j +
                  ((self.elements kind).length + 1 - (op.elements kind).length) - 1]? = some x ∧
              evalAccessor esa self
                  [Emitted.opSingleAfterVariableTemplate name kind (op.elements kind).length j] =
                Except.ok (PyValue.element x)) := by
  have hvl : (op.getElement kind v).isVariableLength = true := by
    simp [NamedTypeConstraint.isVariableLength, NamedTypeConstraint.isVariadic, hvar]
  have hopt : (op.getElement kind v).isOptional = false := by
    simp [NamedTypeConstraint.isOptional, hvar]
  constructor
  · rw [emitAccessors_eq, if_pos (numVariableLength_le_one_of_unique kind op v hothers),
      List.nil_append]
    congr 1
    apply List.filterMap_congr
    intro j hj
    have hj := List.mem_range.mp hj
    simp only [countInferredChunk, anyVariableLengthBefore_unique kind op v hvl hothers j hj]
    by_cases hjv : j = v
    · subst hjv
      simp [hvl, hopt]
    · have hs := isVariableLength_of_single _ (hothers j hj hjv)
      by_cases hlt : j < v
      · have : ¬ v ≤ j := by omega
        simp [hs, hlt, this]
      · have : v ≤ j := by omega
        simp [hs, hlt, hjv, this]
  · intro α esa self hR
    refine ⟨by omega, ?_, ?_, ?_⟩
    · intro name
      constructor
      · simp only [evalAccessor, selfOperation, bind, Except.bind, pure, Except.pure]
        rw [pySlice_of_eq _ _ _ v
          (v + ((self.elements kind).length + 1 - (op.elements kind).length)) rfl
          (by push_cast; omega) (by omega) (by omega)]
        simp
      · simp only [List.length_take, List.length_drop]
        omega
    · intro name j hj
      have hjR : j < (self.elements kind).length := by omega
      refine ⟨(self.elements kind)[j], by simp [hjR], ?_⟩
      simp only [evalAccessor, selfOperation, bind, Except.bind, pure, Except.pure,
        pyGetItem_of_eq _ _ j rfl hjR]
    · intro name j hvj hjN
      have hk : j + ((self.elements kind).length + 1 - (op.elements kind).length) - 1 <
          (self.elements kind).length := by omega
      refine ⟨(self.elements kind)[j +
        ((self.elements kind).length + 1 - (op.elements kind).length) - 1], by simp [hk], ?_⟩
      simp only [evalAccessor, selfOperation, bind, Except.bind, pure, Except.pure]
      rw [pyGetItem_of_eq _ _ (j +
        ((self.elements kind).length + 1 - (op.elements kind).length) - 1) (by omega) hk]

/-- C4: a sequence of `N` slots whose only variable-length slot is a named
Optional slot at position `i`.  The slot gets the one-optional template with
`N` and `i`; on a runtime sequence of `R` elements that accessor returns
`None` exactly when `R < N`, and otherwise the element at index `i`. -/
theorem one_optional_accessor (kind : Kind) (op : Operator) (i : Nat)
    (hi : i < (op.elements kind).length)
    (hopt : (op.getElement kind i).multiplicity = Multiplicity.Optional)
    (hname : StringRef.empty (op.getElement kind i).name = false)
    (hothers : ∀ j, j < (op.elements kind).length → j ≠ i →
      (op.getElement kind j).multiplicity = Multiplicity.Single) :
    emitAccessors kind op [] =
        Except.ok ((List.range (op.elements kind).length).filterMap fun j =>
          if j = i then
            some (Emitted.opOneOptionalTemplate (sanitizeName (op.getElement kind i).name) kind
              (op.elements kind).length i)
          else if StringRef.empty (op.getElement kind j).name then none
          else some (
            if j < i then
              Emitted.opSingleTemplate (sanitizeName (op.getElement kind j).name) kind j
            else
              Emitted.opSingleAfterVariableTemplate (sanitizeName (op.getElement kind j).name)
                kind (op.elements kind).length j)) ∧
      ∀ {α : Type} (esa : List α → Nat → Nat → Nat → Except PyError (Int × Int))
        (self : PyOperation α) (name : String),
        ((self.elements kind).length < (op.elements kind).length →
          evalAccessor esa self
              [Emitted.opOneOptionalTemplate name kind (op.elements kind).length i] =
            Except.ok PyValue.None) ∧
        ((op.elements kind).length ≤ (self.elements kind).length →
          ∃ x, (self.elements kind)[i]? = some x ∧
            evalAccessor esa self
                [Emitted.opOneOptionalTemplate name kind (op.elements kind).length i] =
              Except.ok (PyValue.element x)) ∧
        (evalAccessor esa self
              [Emitted.opOneOptionalTemplate name kind (op.elements kind).length i] =
            Except.ok PyValue.None ↔
          (self.elements kind).length < (op.elements kind).length) := by
  have hvl : (op.getElement kind i).isVariableLength = true := by
    simp [NamedTypeConstraint.isVariableLength, NamedTypeConstraint.isOptional, hopt]
  have hop : (op.getElement kind i).isOptional = true := by
    simp [NamedTypeConstraint.isOptional, hopt]
  constructor
  · rw [emitAccessors_eq, if_pos (numVariableLength_le_one_of_unique kind op i hothers),
      List.nil_append]
    congr 1
    apply List.filterMap_congr
    intro j hj
    have hj := List.mem_range.mp hj
    simp only [countInferredChunk, anyVariableLengthBefore_unique kind op i hvl hothers j hj]
    by_cases hji : j = i
    · subst hji
      simp [hvl, hop, hname]
    · have hs := isVariableLength_of_single _ (hothers j hj hji)
      by_cases hlt : j < i
      · have : ¬ i ≤ j := by omega
        simp [hs, hlt, hji, this]
      · have : i ≤ j := by omega
        simp [hs, hlt, hji, this]
  · intro α esa self name
    have hlt : (self.elements kind).length < (op.elements kind).length →
        evalAccessor esa self
            [Emitted.opOneOptionalTemplate name kind (op.elements kind).length i] =
          Except.ok PyValue.None := by
      intro h
      have h1 : ((self.elements kind).length : Int) < ((op.elements kind).length : Int) := by
        omega
      simp only [evalAccessor, selfOperation, bind, Except.bind, pure, Except.pure, h1, if_true]
    by_cases h : (self.elements kind).length < (op.elements kind).length
    · exact ⟨fun _ => hlt h, fun h2 => absurd h2 (by omega), fun _ => h, fun _ => hlt h⟩
    · have hiR : i < (self.elements kind).length := by omega
      have h1 : ¬ (((self.elements kind).length : Int) < ((op.elements kind).length : Int)) := by
        omega
      have hev : evalAccessor esa self
            [Emitted.opOneOptionalTemplate name kind (op.elements kind).length i] =
          Except.ok (PyValue.element (self.elements kind)[i]) := by
        simp only [evalAccessor, selfOperation, bind, Except.bind, pure, Except.pure, h1,
          if_false, pyGetItem_of_eq _ _ i rfl hiR]
      refine ⟨fun h2 => absurd h2 h, fun _ => ⟨_, by simp [hiR], hev⟩, ?_⟩
      rw [hev]
      constructor
      · intro h2
        cases h2
      · intro h2
        exact absurd h2 h

/-- C1 at concrete operations: one variable-length slot, both traits, the
explicit-size trait alone, and neither trait. -/
theorem emitElementAccessors_policy_priority_witness :
    emitOperandAccessors exampleOneVariadicOp [] =
        Except.ok [Emitted.opSingleTemplate "a" Kind.operand 0,
          Emitted.opOneVariadicTemplate "b" Kind.operand 3 1,
          Emitted.opSingleAfterVariableTemplate "c" Kind.operand 3 2] ∧
      emitOperandAccessors exampleBothTraitsOp [] =
        Except.ok [Emitted.opVariadicEqualPrefixTemplate "x" Kind.operand 2 0 0,
          Emitted.opVariadicEqualVariadicTemplate Kind.operand,
          Emitted.opVariadicEqualPrefixTemplate "y" Kind.operand 2 0 1,
          Emitted.opVariadicEqualVariadicTemplate Kind.operand] ∧
      emitResultAccessors exampleSegmentsOp [] =
        Except.ok [Emitted.opVariadicSegmentTemplate "p" Kind.result 0
            (Trailing.opVariadicSegmentOptionalTrailingTemplate Kind.result),
          Emitted.opVariadicSegmentTemplate "q" Kind.result 1 Trailing.firstElement,
          Emitted.opVariadicSegmentTemplate "r" Kind.result 3 Trailing.empty] ∧
      ∃ msg, emitOperandAccessors exampleUnsupportedOp [] = Except.error msg := by
  refine ⟨by decide, by decide, by decide, ?_⟩
  exact ((emitElementAccessors_policy_priority exampleUnsupportedOp [] Kind.operand
    Operator.getNumVariableLengthOperands Operator.getNumOperands
    Operator.getOperand).2.2.2.2).mpr (by decide)

/-- C2 at result slots `[a, (unnamed), c]`, all Single. -/
theorem fixed_index_accessors_witness :
    exampleFixedOp.numVariableLength Kind.result = 0 ∧
      emitAccessors Kind.result exampleFixedOp [] =
        Except.ok [Emitted.opSingleTemplate "a" Kind.result 0,
          Emitted.opSingleTemplate "c" Kind.result 2] ∧
      evalAccessor exampleEquallySizedAccessor (PyOperation.mk [] [10, 11, 12] [])
          [Emitted.opSingleTemplate "c" Kind.result 2] =
        Except.ok (PyValue.element 12) :=
  ⟨by decide,
    (fixed_index_accessors Kind.result exampleFixedOp (by decide)).1.trans (by decide),
    (fixed_index_accessors Kind.result exampleFixedOp (by decide)).2
      exampleEquallySizedAccessor (PyOperation.mk [] [10, 11, 12] []) "c" 2 (by decide)⟩

/-- C3 at operand slots `[a: Single, b: Variadic, c: Single]` with five runtime
operands, and at Example 1 of the spec, `[a: Single, b: Variadic]`, with four
runtime operands: `a` is read at index 0 and `b` is the slice `[1, 4)`. -/
theorem one_variadic_accessors_witness :
    emitAccessors Kind.operand exampleOneVariadicOp [] =
        Except.ok [Emitted.opSingleTemplate "a" Kind.operand 0,
          Emitted.opOneVariadicTemplate "b" Kind.operand 3 1,
          Emitted.opSingleAfterVariableTemplate "c" Kind.operand 3 2] ∧
      evalAccessor exampleEquallySizedAccessor (PyOperation.mk [10, 11, 12, 13, 14] [] [])
          [Emitted.opOneVariadicTemplate "b" Kind.operand 3 1] =
        Except.ok (PyValue.sequence [11, 12, 13]) ∧
      evalAccessor exampleEquallySizedAccessor (PyOperation.mk [10, 11, 12, 13, 14] [] [])
          [Emitted.opSingleAfterVariableTemplate "c" Kind.operand 3 2] =
        Except.ok (PyValue.element 14) ∧
      emitAccessors Kind.operand exampleVariadicTailOp [] =
        Except.ok [Emitted.opSingleTemplate "a" Kind.operand 0,
          Emitted.opOneVariadicTemplate "b" Kind.operand 2 1] ∧
      evalAccessor exampleEquallySizedAccessor (PyOperation.mk [10, 11, 12, 13] [] [])
          [Emitted.opOneVariadicTemplate "b" Kind.operand 2 1] =
        Except.ok (PyValue.sequence [11, 12, 13]) :=
  ⟨(one_variadic_accessors Kind.operand exampleOneVariadicOp 1 (by decide) (by decide)
      (by decide)).1.trans (by decide),
    (((one_variadic_accessors Kind.operand exampleOneVariadicOp 1 (by decide) (by decide)
      (by decide)).2 exampleEquallySizedAccessor (PyOperation.mk [10, 11, 12, 13, 14] [] [])
      (by decide)).2.1 "b").1.trans (by decide),
    by decide,
    (one_variadic_accessors Kind.operand exampleVariadicTailOp 1 (by decide) (by decide)
      (by decide)).1.trans (by decide),
    (((one_variadic_accessors Kind.operand exampleVariadicTailOp 1 (by decide) (by decide)
      (by decide)).2 exampleEquallySizedAccessor (PyOperation.mk [10, 11, 12, 13] [] [])
      (by decide)).2.1 "b").1.trans (by decide)⟩

/-- C4 at operand slots `[p: Single, q: Optional, r: Single]` and two runtime
operands. -/
theorem one_optional_accessor_witness :
    emitAccessors Kind.operand exampleOneOptionalOp [] =
        Except.ok [Emitted.opSingleTemplate "p" Kind.operand 0,
          Emitted.opOneOptionalTemplate "q" Kind.operand 3 1,
          Emitted.opSingleAfterVariableTemplate "r" Kind.operand 3 2] ∧
      evalAccessor exampleEquallySizedAccessor (PyOperation.mk [10, 12] [] [])
          [Emitted.opOneOptionalTemplate "q" Kind.operand 3 1] =
        Except.ok PyValue.None :=
  ⟨(one_optional_accessor Kind.operand exampleOneOptionalOp 1 (by decide) (by decide)
      (by decide) (by decide)).1.trans (by decide),
    ((one_optional_accessor Kind.operand exampleOneOptionalOp 1 (by decide) (by decide)
      (by decide) (by decide)).2 exampleEquallySizedAccessor (PyOperation.mk [10, 12] [] [])
      "q").1 (by decide)⟩

/-! ## Equal-size policy -/

/-- C5, as the code behaves: under the equal-size policy every named slot at
position `i` gets the prefix template with `g = numVariableLength`, the number
of Single slots before `i` and the number of variable-length slots before `i`
(unnamed slots counted), followed by the return line of its multiplicity.  The
prefix line passes `operation.<kind>s` to the helper, without `self.`; the
name `operation` is unbound in the accessor body, so on every runtime
operation, whatever the helper computes, the accessor raises `NameError` and
reads neither the element at `start` nor the slice from `start`. -/
theorem equal_size_accessor_raises_NameError (kind : Kind) (op : Operator)
    (h1 : 1 < op.numVariableLength kind)
    (hs : op.getTrait (sameSizeTraitForKind kind.str) = true) :
    emitAccessors kind op [] =
        Except.ok ((List.range (op.elements kind).length).flatMap fun i =>
          if StringRef.empty (op.getElement kind i).name then []
          else
            [Emitted.opVariadicEqualPrefixTemplate (sanitizeName (op.getElement kind i).name)
                kind (op.numVariableLength kind)
                ((List.range i).countP fun j => !(op.getElement kind j).isVariableLength)
                ((List.range i).countP fun j => (op.getElement kind j).isVariableLength),
              if (op.getElement kind i).isVariableLength then
                Emitted.opVariadicEqualVariadicTemplate kind
              else Emitted.opVariadicEqualSimpleTemplate kind]) ∧
      ∀ {α : Type} (esa : List α → Nat → Nat → Nat → Except PyError (Int × Int))
        (self : PyOperation α) (name : String) (g nps npv : Nat) (tail : Emitted),
        evalAccessor esa self
            [Emitted.opVariadicEqualPrefixTemplate name kind g nps npv, tail] =
          Except.error (PyError.NameError "operation") := by
  constructor
  · rw [emitAccessors_eq, if_neg (by omega), if_pos hs, List.nil_append]
    rfl
  · intro α esa self name g nps npv tail
    rfl

/-- C5 at Example 2 of the spec: operand slots `[x: Variadic, y: Variadic]`
with the equal-size trait and six runtime operands.  Both accessors raise
`NameError`; the claim expects the slices `[0,3)` and `[3,6)`. -/
theorem equal_size_accessor_raises_NameError_witness :
    emitAccessors Kind.operand exampleEqualSizeOp [] =
        Except.ok [Emitted.opVariadicEqualPrefixTemplate "x" Kind.operand 2 0 0,
          Emitted.opVariadicEqualVariadicTemplate Kind.operand,
          Emitted.opVariadicEqualPrefixTemplate "y" Kind.operand 2 0 1,
          Emitted.opVariadicEqualVariadicTemplate Kind.operand] ∧
      evalAccessor (fun _ _ _ _ => Except.ok (0, 3))
          (PyOperation.mk [10, 11, 12, 13, 14, 15] [] [])
          [Emitted.opVariadicEqualPrefixTemplate "x" Kind.operand 2 0 0,
            Emitted.opVariadicEqualVariadicTemplate Kind.operand] =
        Except.error (PyError.NameError "operation") ∧
      evalAccessor (fun _ _ _ _ => Except.ok (3, 3))
          (PyOperation.mk [10, 11, 12, 13, 14, 15] [] [])
          [Emitted.opVariadicEqualPrefixTemplate "y" Kind.operand 2 0 1,
            Emitted.opVariadicEqualVariadicTemplate Kind.operand] =
        Except.error (PyError.NameError "operation") :=
  ⟨(equal_size_accessor_raises_NameError Kind.operand exampleEqualSizeOp (by decide)
      (by decide)).1.trans (by decide),
    (equal_size_accessor_raises_NameError Kind.operand exampleEqualSizeOp (by decide)
      (by decide)).2 _ _ "x" 2 0 0 _,
    (equal_size_accessor_raises_NameError Kind.operand exampleEqualSizeOp (by decide)
      (by decide)).2 _ _ "y" 2 0 1 _⟩

/-! ## Explicit-size-attribute policy -/

theorem segmented_accessor_eq {α : Type} (elements : List α) (raw_segments : List Nat)
    (idx : Nat) (hidx : idx < raw_segments.length)
    (hsum : raw_segments.sum = elements.length) :
    segmented_accessor elements raw_segments idx =
        Except.ok ((elements.drop (raw_segments.take idx).sum).take raw_segments[idx]) ∧
      ((elements.drop (raw_segments.take idx).sum).take raw_segments[idx]).length =
        raw_segments[idx] ∧
      (raw_segments.take idx).sum + raw_segments[idx] ≤ elements.length ∧
      (idx + 1 = raw_segments.length →
        (raw_segments.take idx).sum + raw_segments[idx] = elements.length) := by
  have hsplit : (raw_segments.take (idx + 1)).sum =
      (raw_segments.take idx).sum + raw_segments[idx] := by
    rw [List.take_succ, List.getElem?_eq_getElem hidx, List.sum_append]
    simp
  have hle : (raw_segments.take (idx + 1)).sum ≤ raw_segments.sum := by
    conv_rhs => rw [← List.take_append_drop (idx + 1) raw_segments]
    rw [List.sum_append]
    omega
  have hbound : (raw_segments.take idx).sum + raw_segments[idx] ≤ elements.length := by
    omega
  refine ⟨?_, ?_, hbound, ?_⟩
  · unfold segmented_accessor
    rw [List.getElem?_eq_getElem hidx]
    simp only
    rw [pySlice_of_eq elements _ _ (raw_segments.take idx).sum
      ((raw_segments.take idx).sum + raw_segments[idx]) rfl (by push_cast; rfl) (by omega) hbound]
    simp
  · simp only [List.length_take, List.length_drop]
    omega
  · intro hlast
    rw [← hsplit, hlast, List.take_length]
    exact hsum

/-- C6: under the explicit-size-attribute policy every named slot gets the
segment template with index `i`, its declared position among all slots of the
kind (unnamed ones counted); the accessor reads the attribute
`<kind>SegmentSizes`.  For a size array with one entry per declared slot that
sums to the runtime count `R`, the range of slot `i` starts at the sum of the
entries before `i` and has `sizes[i]` elements, and the range of the last slot
ends at `R`. -/
theorem segment_accessors_prefix_sums (kind : Kind) (op : Operator)
    (h1 : 1 < op.numVariableLength kind)
    (hs : op.getTrait (sameSizeTraitForKind kind.str) = false)
    (ha : op.getTrait (attrSizedTraitForKind kind.str) = true) :
    (Kind.operand.str ++ "SegmentSizes" = "operandSegmentSizes" ∧
        Kind.result.str ++ "SegmentSizes" = "resultSegmentSizes") ∧
      emitAccessors kind op [] =
        Except.ok ((List.range (op.elements kind).length).filterMap fun i =>
          if StringRef.empty (op.getElement kind i).name then none
          else
            some (Emitted.opVariadicSegmentTemplate (sanitizeName (op.getElement kind i).name)
              kind i
              (if !(op.getElement kind i).isVariableLength then Trailing.firstElement
               else if (op.getElement kind i).isOptional then
                 Trailing.opVariadicSegmentOptionalTrailingTemplate kind
               else Trailing.empty))) ∧
      ∀ {α : Type} (esa : List α → Nat → Nat → Nat → Except PyError (Int × Int))
        (self : PyOperation α) (name : String) (i : Nat),
        (∀ (trailing : Trailing) (e : PyError),
          self.getAttr (kind.str ++ "SegmentSizes") = Except.error e →
          evalAccessor esa self [Emitted.opVariadicSegmentTemplate name kind i trailing] =
            Except.error e) ∧
        ∀ (sizes : List Nat), self.getAttr (kind.str ++ "SegmentSizes") = Except.ok sizes →
          sizes.length = (op.elements kind).length →
          sizes.sum = (self.elements kind).length → ∀ (hi : i < sizes.length),
          evalAccessor esa self [Emitted.opVariadicSegmentTemplate name kind i Trailing.empty] =
              Except.ok (PyValue.sequence
                (((self.elements kind).drop (sizes.take i).sum).take sizes[i])) ∧
            (((self.elements kind).drop (sizes.take i).sum).take sizes[i]).length = sizes[i] ∧
            (i + 1 = (op.elements kind).length →
              (sizes.take i).sum + sizes[i] = (self.elements kind).length) := by
  refine ⟨⟨by decide, by decide⟩, ?_, ?_⟩
  · rw [emitAccessors_eq, if_neg (by omega), hs, if_neg (by simp), if_pos ha, List.nil_append]
    rfl
  · intro α esa self name i
    constructor
    · intro trailing e he
      simp only [evalAccessor, selfOperation, bind, Except.bind, pure, Except.pure, he]
    · intro sizes hsz hlen hsum hi
      obtain ⟨h1, h2, _, h4⟩ := segmented_accessor_eq (self.elements kind) sizes i hi hsum
      refine ⟨?_, h2, fun hl => h4 (by omega)⟩
      simp only [evalAccessor, selfOperation, bind, Except.bind, pure, Except.pure, hsz, h1]

/-- C6 at result slots `[p: Optional, q: Single, (unnamed), r: Variadic]` with
sizes `[1, 1, 1, 2]`: the last slot has index 3 and reads the range `[3, 5)`. -/
theorem segment_accessors_prefix_sums_witness :
    emitAccessors Kind.result exampleSegmentsOp [] =
        Except.ok [Emitted.opVariadicSegmentTemplate "p" Kind.result 0
            (Trailing.opVariadicSegmentOptionalTrailingTemplate Kind.result),
          Emitted.opVariadicSegmentTemplate "q" Kind.result 1 Trailing.firstElement,
          Emitted.opVariadicSegmentTemplate "r" Kind.result 3 Trailing.empty] ∧
      evalAccessor exampleEquallySizedAccessor
          (PyOperation.mk [] [10, 11, 12, 13, 14] [("resultSegmentSizes", [1, 1, 1, 2])])
          [Emitted.opVariadicSegmentTemplate "r" Kind.result 3 Trailing.empty] =
        Except.ok (PyValue.sequence [13, 14]) :=
  ⟨(segment_accessors_prefix_sums Kind.result exampleSegmentsOp (by decide) (by decide)
      (by decide)).2.1.trans (by decide),
    ((((segment_accessors_prefix_sums Kind.result exampleSegmentsOp (by decide) (by decide)
      (by decide)).2.2 exampleEquallySizedAccessor
      (PyOperation.mk [] [10, 11, 12, 13, 14] [("resultSegmentSizes", [1, 1, 1, 2])])
      "r" 3).2 [1, 1, 1, 2] (by decide) (by decide) (by decide) (by decide)).1).trans
      (by decide)⟩

/-- C7: under the explicit-size-attribute policy the text after the range is
chosen by the slot's multiplicity: `[0]` for Single, the optional-trailing
template for Optional, nothing for Variadic.  So a Single accessor returns the
first element of its range (not a one-element sequence), an Optional accessor
returns `None` exactly when its range is empty and the first element
otherwise, and a Variadic accessor returns the whole range.  At result slots
`[p: Optional, q: Single]` with sizes `[0, 1]` and one runtime result, `p` is
`None` and `q` is that result: through the segment templates, and also
through the accessors the code writes for that operation, which has a single
variable-length slot. -/
theorem segment_accessor_unwrapping (kind : Kind) (op : Operator)
    (h1 : 1 < op.numVariableLength kind)
    (hs : op.getTrait (sameSizeTraitForKind kind.str) = false)
    (ha : op.getTrait (attrSizedTraitForKind kind.str) = true) :
    emitAccessors kind op [] =
        Except.ok ((List.range (op.elements kind).length).filterMap fun i =>
          if StringRef.empty (op.getElement kind i).name then none
          else
            some (Emitted.opVariadicSegmentTemplate (sanitizeName (op.getElement kind i).name)
              kind i
              (match (op.getElement kind i).multiplicity with
               | Multiplicity.Single => Trailing.firstElement
               | Multiplicity.Optional => Trailing.opVariadicSegmentOptionalTrailingTemplate kind
               | Multiplicity.Variadic => Trailing.empty))) ∧
      (∀ {α : Type} (esa : List α → Nat → Nat → Nat → Except PyError (Int × Int))
        (self : PyOperation α) (name : String) (i : Nat) (sizes : List Nat) (range : List α),
        self.getAttr (kind.str ++ "SegmentSizes") = Except.ok sizes →
        segmented_accessor (self.elements kind) sizes i = Except.ok range →
        evalAccessor esa self
            [Emitted.opVariadicSegmentTemplate name kind i Trailing.firstElement] =
          (match range with
           | x :: _ => Except.ok (PyValue.element x)
           | [] => Except.error PyError.IndexError) ∧
        evalAccessor esa self
            [Emitted.opVariadicSegmentTemplate name kind i
              (Trailing.opVariadicSegmentOptionalTrailingTemplate kind)] =
          (match range with
           | x :: _ => Except.ok (PyValue.element x)
           | [] => Except.ok PyValue.None) ∧
        (evalAccessor esa self
            [Emitted.opVariadicSegmentTemplate name kind i
              (Trailing.opVariadicSegmentOptionalTrailingTemplate kind)] =
          Except.ok PyValue.None ↔ range = []) ∧
        evalAccessor esa self
            [Emitted.opVariadicSegmentTemplate name kind i Trailing.empty] =
          Except.ok (PyValue.sequence range)) ∧
      (evalAccessor exampleEquallySizedAccessor
            (PyOperation.mk [] [7] [("resultSegmentSizes", [0, 1])])
            [Emitted.opVariadicSegmentTemplate "p" Kind.result 0
              (Trailing.opVariadicSegmentOptionalTrailingTemplate Kind.result)] =
          Except.ok PyValue.None ∧
        evalAccessor exampleEquallySizedAccessor
            (PyOperation.mk [] [7] [("resultSegmentSizes", [0, 1])])
            [Emitted.opVariadicSegmentTemplate "q" Kind.result 1 Trailing.firstElement] =
          Except.ok (PyValue.element 7) ∧
        (emitAccessors Kind.result exampleAttrSizedOp []).map
            (fun os => (accessorsOf os).map
              (evalAccessor exampleEquallySizedAccessor
                (PyOperation.mk [] [7] [("resultSegmentSizes", [0, 1])]))) =
          Except.ok [Except.ok PyValue.None, Except.ok (PyValue.element 7)]) := by
  refine ⟨?_, ?_, by decide, by decide, by decide⟩
  · rw [emitAccessors_eq, if_neg (by omega), hs, if_neg (by simp), if_pos ha, List.nil_append]
    congr 1
    apply List.filterMap_congr
    intro i _
    simp only [attrSizedChunk]
    generalize op.getElement kind i = e
    obtain ⟨nm, m⟩ := e
    cases m <;>
      simp [NamedTypeConstraint.isVariableLength, NamedTypeConstraint.isOptional,
        NamedTypeConstraint.isVariadic]
  · intro α esa self name i sizes range hsz hrange
    have hget : ∀ (x : α) (rest : List α), pyGetItem (x :: rest) 0 = Except.ok x := by
      intro x rest
      exact pyGetItem_of_eq (x :: rest) 0 0 rfl (by simp)
    cases range with
    | nil =>
      refine ⟨?_, ?_, ?_, ?_⟩
      · simp only [evalAccessor, selfOperation, bind, Except.bind, pure, Except.pure, hsz, hrange]
        rfl
      · simp only [evalAccessor, selfOperation, bind, Except.bind, pure, Except.pure, hsz, hrange,
          if_true]
        rfl
      · simp only [evalAccessor, selfOperation, bind, Except.bind, pure, Except.pure, hsz, hrange,
          if_true]
        simp
      · simp only [evalAccessor, selfOperation, bind, Except.bind, pure, Except.pure, hsz, hrange]
    | cons x rest =>
      refine ⟨?_, ?_, ?_, ?_⟩
      · simp only [evalAccessor, selfOperation, bind, Except.bind, pure, Except.pure, hsz, hrange,
          hget]
      · simp only [evalAccessor, selfOperation, bind, Except.bind, pure, Except.pure, hsz, hrange,
          if_true, hget]
        simp
      · simp only [evalAccessor, selfOperation, bind, Except.bind, pure, Except.pure, hsz, hrange,
          if_true, hget]
        simp
      · simp only [evalAccessor, selfOperation, bind, Except.bind, pure, Except.pure, hsz, hrange]

/-- C7 at result slots `[p: Optional, q: Single, (unnamed), r: Variadic]` with
sizes `[0, 1, 1, 2]`. -/
theorem segment_accessor_unwrapping_witness :
    (emitAccessors Kind.result exampleSegmentsOp []).map
        (fun os => (accessorsOf os).map
          (evalAccessor exampleEquallySizedAccessor
            (PyOperation.mk [] [11, 12, 13, 14] [("resultSegmentSizes", [0, 1, 1, 2])]))) =
      Except.ok [Except.ok PyValue.None, Except.ok (PyValue.element 11),
        Except.ok (PyValue.sequence [13, 14])] := by
  rw [(segment_accessor_unwrapping Kind.result exampleSegmentsOp (by decide) (by decide)
    (by decide)).1]
  decide

/-! ## One accessor per named slot -/

theorem accessorsOf_cons_append (rest : List Emitted) (J : List Emitted)
    (gs : List (List Emitted)) (hJ : accessorsOf J = gs)
    (hgs : ∀ g ∈ gs, ∃ d ds, g = d :: ds ∧ d.startsProperty = true)
    (hrest : ∀ d ∈ rest, d.startsProperty = false) (c : Emitted) :
    accessorsOf (c :: (rest ++ J)) = (c :: rest) :: gs := by
  induction rest generalizing c with
  | nil =>
    simp only [List.nil_append, accessorsOf, hJ]
    cases gs with
    | nil => rfl
    | cons g gs' =>
      obtain ⟨d, ds, rfl, hd⟩ := hgs g (List.mem_cons_self _ _)
      simp [hd]
  | cons r rest' ih =>
    have hr : r.startsProperty = false := hrest r (List.mem_cons_self _ _)
    have := ih (fun d hd => hrest d (List.mem_cons_of_mem _ hd)) r
    rw [List.cons_append, accessorsOf, this]
    simp [hr]

theorem accessorsOf_flatten (groups : List (List Emitted))
    (h : ∀ g ∈ groups, ∃ c rest, g = c :: rest ∧ c.startsProperty = true ∧
      ∀ d ∈ rest, d.startsProperty = false) :
    accessorsOf groups.flatten = groups := by
  induction groups with
  | nil => rfl
  | cons g gs ih =>
    obtain ⟨c, rest, rfl, _, hrest⟩ := h _ (List.mem_cons_self _ _)
    have ih := ih (fun g hg => h g (List.mem_cons_of_mem _ hg))
    rw [List.flatten_cons, List.cons_append]
    exact accessorsOf_cons_append rest gs.flatten gs ih
      (fun g hg => by
        obtain ⟨d, ds, hd, hp, _⟩ := h g (List.mem_cons_of_mem _ hg)
        exact ⟨d, ds, hd, hp⟩) hrest c

theorem flatMap_filter_of_nil {α β : Type} (l : List α) (p : α → Bool) (f : α → List β)
    (h : ∀ a, p a = false → f a = []) : l.flatMap f = ((l.filter p).map f).flatten := by
  induction l with
  | nil => rfl
  | cons a t ih =>
    rw [List.flatMap_cons, ih]
    cases hp : p a
    · rw [h a hp, List.filter_cons_of_neg (by simp [hp])]
      rfl
    · rw [List.filter_cons_of_pos hp]
      rfl

theorem filterMap_eq_flatMap_toList {α β : Type} (l : List α) (f : α → Option β) :
    l.filterMap f = l.flatMap fun a => (f a).toList := by
  induction l with
  | nil => rfl
  | cons a t ih =>
    rw [List.flatMap_cons, ← ih]
    cases h : f a <;> simp [List.filterMap_cons, h]

theorem emitAccessors_eq_flatMap (kind : Kind) (op : Operator) (out : List Emitted)
    (h : emitAccessors kind op [] = Except.ok out) :
    out = (List.range (op.elements kind).length).flatMap (slotAccessor kind op) := by
  rw [emitAccessors_eq] at h
  unfold slotAccessor
  split_ifs at h with h1 h2 h3
  · simp only [h1, if_true]
    rw [← filterMap_eq_flatMap_toList]
    simpa using h.symm
  · simp only [h1, h2, if_true, if_false]
    simpa using h.symm
  · simp only [h1, h2, if_true, if_false, Bool.false_eq_true]
    rw [← filterMap_eq_flatMap_toList]
    simpa using h.symm

theorem range_map_getElement (kind : Kind) (op : Operator) :
    (List.range (op.elements kind).length).map (op.getElement kind) = op.elements kind := by
  apply List.ext_getElem
  · simp
  · intro n h1 h2
    rw [List.getElem_map, List.getElem_range, Operator.getElement_eq,
      List.getD_eq_getElem _ _ h2]

theorem slotAccessor_named (kind : Kind) (op : Operator) (i : Nat)
    (hname : StringRef.empty (op.getElement kind i).name = false) :
    (op.numVariableLength kind ≤ 1 →
      slotAccessor kind op i =
          [Emitted.opSingleTemplate (sanitizeName (op.getElement kind i).name) kind i] ∨
        slotAccessor kind op i =
          [Emitted.opSingleAfterVariableTemplate (sanitizeName (op.getElement kind i).name) kind
            (op.elements kind).length i] ∨
        slotAccessor kind op i =
          [Emitted.opOneOptionalTemplate (sanitizeName (op.getElement kind i).name) kind
            (op.elements kind).length i] ∨
        slotAccessor kind op i =
          [Emitted.opOneVariadicTemplate (sanitizeName (op.getElement kind i).name) kind
            (op.elements kind).length i]) ∧
      (1 < op.numVariableLength kind → op.getTrait (sameSizeTraitForKind kind.str) = true →
        slotAccessor kind op i =
          [Emitted.opVariadicEqualPrefixTemplate (sanitizeName (op.getElement kind i).name) kind
              (op.numVariableLength kind)
              ((List.range i).countP fun j => !(op.getElement kind j).isVariableLength)
              ((List.range i).countP fun j => (op.getElement kind j).isVariableLength),
            if (op.getElement kind i).isVariableLength then
              Emitted.opVariadicEqualVariadicTemplate kind
            else Emitted.opVariadicEqualSimpleTemplate kind]) ∧
      (1 < op.numVariableLength kind → op.getTrait (sameSizeTraitForKind kind.str) = false →
        ∃ trailing, slotAccessor kind op i =
          [Emitted.opVariadicSegmentTemplate (sanitizeName (op.getElement kind i).name) kind i
            trailing]) := by
  refine ⟨?_, ?_, ?_⟩
  · intro h
    simp only [slotAccessor, h, if_true, countInferredChunk, hname, Bool.false_eq_true, if_false]
    cases (op.getElement kind i).isVariableLength <;>
      cases (op.getElement kind i).isOptional <;>
      cases anyVariableLengthBefore (op.getElement kind) (i + 1) <;> simp
  · intro h hs
    simp only [slotAccessor, Nat.not_le.mpr h, hs, if_true, if_false, equalSizeChunk, hname,
      Bool.false_eq_true, numSimpleBefore, numVariadicBefore]
  · intro h hs
    simp only [slotAccessor, Nat.not_le.mpr h, hs, if_false, attrSizedChunk, hname,
      Bool.false_eq_true, Option.toList]
    exact ⟨_, rfl⟩

theorem slotAccessor_shape (kind : Kind) (op : Operator) (i : Nat)
    (hname : StringRef.empty (op.getElement kind i).name = false) :
    ∃ c rest, slotAccessor kind op i = c :: rest ∧ c.startsProperty = true ∧
      (∀ d ∈ rest, d.startsProperty = false) ∧
      c.propertyName = some (sanitizeName (op.getElement kind i).name) := by
  obtain ⟨h1, h2, h3⟩ := slotAccessor_named kind op i hname
  by_cases hn : op.numVariableLength kind ≤ 1
  · rcases h1 hn with h | h | h | h <;> exact ⟨_, _, h, rfl, by simp, rfl⟩
  · cases hs : op.getTrait (sameSizeTraitForKind kind.str)
    · obtain ⟨t, ht⟩ := h3 (by omega) hs
      exact ⟨_, _, ht, rfl, by simp, rfl⟩
    · refine ⟨_, _, h2 (by omega) hs, rfl, ?_, rfl⟩
      intro d hd
      simp only [List.mem_singleton] at hd
      subst hd
      split <;> rfl

/-- C8: whenever `emitElementAccessors` succeeds, in each of the three
policies, the accessors in its output are exactly the accessors of the named
slots, one for each, in declaration order: a slot with an empty name gets
none.  Each accessor opens one Python property, named by the sanitized slot
name.  Positions, segment indices and the two preceding counters are taken
over all slots, unnamed ones included. -/
theorem one_accessor_per_named_slot (kind : Kind) (op : Operator) (out : List Emitted)
    (h : emitAccessors kind op [] = Except.ok out) :
    accessorsOf out =
        ((List.range (op.elements kind).length).filter fun i =>
          !StringRef.empty (op.getElement kind i).name).map (slotAccessor kind op) ∧
      (accessorsOf out).length =
        ((op.elements kind).filter fun e => !StringRef.empty e.name).length ∧
      (accessorsOf out).map (fun a => a.head?.bind Emitted.propertyName) =
        ((op.elements kind).filter fun e => !StringRef.empty e.name).map
          (fun e => some (sanitizeName e.name)) ∧
      (∀ a ∈ accessorsOf out, a.countP Emitted.startsProperty = 1) ∧
      ∀ i, i < (op.elements kind).length →
        StringRef.empty (op.getElement kind i).name = false →
        (op.numVariableLength kind ≤ 1 →
          slotAccessor kind op i =
              [Emitted.opSingleTemplate (sanitizeName (op.getElement kind i).name) kind i] ∨
            slotAccessor kind op i =
              [Emitted.opSingleAfterVariableTemplate (sanitizeName (op.getElement kind i).name)
                kind (op.elements kind).length i] ∨
            slotAccessor kind op i =
              [Emitted.opOneOptionalTemplate (sanitizeName (op.getElement kind i).name) kind
                (op.elements kind).length i] ∨
            slotAccessor kind op i =
              [Emitted.opOneVariadicTemplate (sanitizeName (op.getElement kind i).name) kind
                (op.elements kind).length i]) ∧
          (1 < op.numVariableLength kind →
            op.getTrait (sameSizeTraitForKind kind.str) = true →
            slotAccessor kind op i =
              [Emitted.opVariadicEqualPrefixTemplate (sanitizeName (op.getElement kind i).name)
                  kind (op.numVariableLength kind)
                  ((List.range i).countP fun j => !(op.getElement kind j).isVariableLength)
                  ((List.range i).countP fun j => (op.getElement kind j).isVariableLength),
                if (op.getElement kind i).isVariableLength then
                  Emitted.opVariadicEqualVariadicTemplate kind
                else Emitted.opVariadicEqualSimpleTemplate kind]) ∧
          (1 < op.numVariableLength kind →
            op.getTrait (sameSizeTraitForKind kind.str) = false →
            ∃ trailing, slotAccessor kind op i =
              [Emitted.opVariadicSegmentTemplate (sanitizeName (op.getElement kind i).name) kind
                i trailing]) := by
  have hacc : accessorsOf out =
      ((List.range (op.elements kind).length).filter fun i =>
        !StringRef.empty (op.getElement kind i).name).map (slotAccessor kind op) := by
    rw [emitAccessors_eq_flatMap kind op out h,
      flatMap_filter_of_nil _ (fun i => !StringRef.empty (op.getElement kind i).name)]
    · apply accessorsOf_flatten
      intro g hg
      obtain ⟨i, hi, rfl⟩ := List.mem_map.mp hg
      have hn : StringRef.empty (op.getElement kind i).name = false := by
        simpa using (List.mem_filter.mp hi).2
      obtain ⟨c, rest, h1, h2, h3, _⟩ := slotAccessor_shape kind op i hn
      exact ⟨c, rest, h1, h2, h3⟩
    · intro i hi
      have hn : StringRef.empty (op.getElement kind i).name = true := by simpa using hi
      simp only [slotAccessor, countInferredChunk, equalSizeChunk, attrSizedChunk, hn, if_true,
        Option.toList]
      split_ifs <;> rfl
  have hnames : ((op.elements kind).filter fun e => !StringRef.empty e.name) =
      ((List.range (op.elements kind).length).filter fun i =>
        !StringRef.empty (op.getElement kind i).name).map (op.getElement kind) := by
    conv_lhs => rw [← range_map_getElement kind op]
    rw [List.filter_map]
    rfl
  refine ⟨hacc, ?_, ?_, ?_, fun i _ hn => slotAccessor_named kind op i hn⟩
  · rw [hacc, hnames, List.length_map, List.length_map]
  · rw [hacc, hnames, List.map_map, List.map_map]
    apply List.map_congr_left
    intro i hi
    have hn : StringRef.empty (op.getElement kind i).name = false := by
      simpa using (List.mem_filter.mp hi).2
    obtain ⟨c, rest, h1, _, _, h4⟩ := slotAccessor_shape kind op i hn
    simp [h1, h4]
  · intro a ha
    rw [hacc] at ha
    obtain ⟨i, hi, rfl⟩ := List.mem_map.mp ha
    have hn : StringRef.empty (op.getElement kind i).name = false := by
      simpa using (List.mem_filter.mp hi).2
    obtain ⟨c, rest, h1, h2, h3, _⟩ := slotAccessor_shape kind op i hn
    rw [h1, List.countP_cons, h2, List.countP_eq_zero.mpr (fun d hd => by simp [h3 d hd])]
    rfl

/-- C8 at operand slots `[x: Variadic, (unnamed): Single, y: Variadic]` with the
equal-size trait: two accessors, and `y` is given one preceding Single slot
and one preceding variable-length slot. -/
theorem one_accessor_per_named_slot_witness :
    emitAccessors Kind.operand exampleUnnamedOp [] =
        Except.ok [Emitted.opVariadicEqualPrefixTemplate "x" Kind.operand 2 0 0,
          Emitted.opVariadicEqualVariadicTemplate Kind.operand,
          Emitted.opVariadicEqualPrefixTemplate "y" Kind.operand 2 1 1,
          Emitted.opVariadicEqualVariadicTemplate Kind.operand] ∧
      accessorsOf [Emitted.opVariadicEqualPrefixTemplate "x" Kind.operand 2 0 0,
          Emitted.opVariadicEqualVariadicTemplate Kind.operand,
          Emitted.opVariadicEqualPrefixTemplate "y" Kind.operand 2 1 1,
          Emitted.opVariadicEqualVariadicTemplate Kind.operand] =
        [[Emitted.opVariadicEqualPrefixTemplate "x" Kind.operand 2 0 0,
            Emitted.opVariadicEqualVariadicTemplate Kind.operand],
          [Emitted.opVariadicEqualPrefixTemplate "y" Kind.operand 2 1 1,
            Emitted.opVariadicEqualVariadicTemplate Kind.operand]] :=
  ⟨by decide,
    (one_accessor_per_named_slot Kind.operand exampleUnnamedOp
      [Emitted.opVariadicEqualPrefixTemplate "x" Kind.operand 2 0 0,
        Emitted.opVariadicEqualVariadicTemplate Kind.operand,
        Emitted.opVariadicEqualPrefixTemplate "y" Kind.operand 2 1 1,
        Emitted.opVariadicEqualVariadicTemplate Kind.operand] (by decide)).1.trans (by decide)⟩

/-! ## Fatal error -/

/-- C9, where the claim fails: two operations with different class names and
operation names, each with two variable-length operand slots and neither
trait, fail with one and the same message; the message is the text
"unsupported operand structure", in which neither name occurs. -/
theorem fatal_error_does_not_name_operation :
    emitOperandAccessors exampleUnsupportedOp [] =
        Except.error "unsupported operand structure" ∧
      emitOperandAccessors exampleUnsupportedOp2 [] =
        Except.error "unsupported operand structure" ∧
      exampleUnsupportedOp.cppClassName ≠ exampleUnsupportedOp2.cppClassName ∧
      exampleUnsupportedOp.operationName ≠ exampleUnsupportedOp2.operationName ∧
      ¬ (exampleUnsupportedOp.cppClassName.data <:+: "unsupported operand structure".data) ∧
      ¬ (exampleUnsupportedOp.operationName.data <:+: "unsupported operand structure".data) := by
  decide

/-- C9 as amended: when `emitElementAccessors` fails, there are two or more
variable-length slots and neither trait, and the message is the text
"unsupported <kind> structure".  It names the slot kind (the messages of the
two kinds differ), and it is the same for every operation. -/
theorem fatal_error_names_kind_only (op : Operator) (os : List Emitted) (kind : Kind)
    (getNumVariableLength getNumElements : Operator → Nat)
    (getElement : Operator → Nat → NamedTypeConstraint) (msg : String)
    (h : emitElementAccessors op os kind getNumVariableLength getNumElements getElement =
      Except.error msg) :
    msg = "unsupported " ++ kind.str ++ " structure" ∧
      (1 < getNumVariableLength op ∧ op.getTrait (sameSizeTraitForKind kind.str) = false ∧
        op.getTrait (attrSizedTraitForKind kind.str) = false) ∧
      ("unsupported " ++ Kind.operand.str ++ " structure" = "unsupported operand structure" ∧
        "unsupported " ++ Kind.result.str ++ " structure" = "unsupported result structure" ∧
        "unsupported operand structure" ≠ "unsupported result structure") ∧
      ∀ (op2 : Operator) (os2 : List Emitted)
        (getNumVariableLength2 getNumElements2 : Operator → Nat)
        (getElement2 : Operator → Nat → NamedTypeConstraint) (msg2 : String),
        emitElementAccessors op2 os2 kind getNumVariableLength2 getNumElements2 getElement2 =
          Except.error msg2 → msg2 = msg := by
  have key : ∀ (op : Operator) (os : List Emitted)
      (getNumVariableLength getNumElements : Operator → Nat)
      (getElement : Operator → Nat → NamedTypeConstraint) (msg : String),
      emitElementAccessors op os kind getNumVariableLength getNumElements getElement =
        Except.error msg → msg = "unsupported " ++ kind.str ++ " structure" := by
    intro op os gnv gne ge msg h
    unfold emitElementAccessors at h
    simp only at h
    split_ifs at h
    exact (Except.error.inj h).symm
  refine ⟨key _ _ _ _ _ _ h, ?_, ⟨by decide, by decide, by decide⟩, ?_⟩
  · exact (emitElementAccessors_error_iff op os kind getNumVariableLength getNumElements
      getElement).mp ⟨msg, h⟩
  · intro op2 os2 gnv2 gne2 ge2 msg2 h2
    rw [key _ _ _ _ _ _ h, key _ _ _ _ _ _ h2]

/-- C9 as amended, at operand slots `[x: Variadic, y: Optional]` with no
trait. -/
theorem fatal_error_names_kind_only_witness :
    emitElementAccessors exampleUnsupportedOp [] Kind.operand
        Operator.getNumVariableLengthOperands Operator.getNumOperands Operator.getOperand =
        Except.error "unsupported operand structure" ∧
      "unsupported operand structure" = "unsupported " ++ Kind.operand.str ++ " structure" :=
  ⟨by decide,
    (fatal_error_names_kind_only exampleUnsupportedOp [] Kind.operand
      Operator.getNumVariableLengthOperands Operator.getNumOperands Operator.getOperand
      "unsupported operand structure" (by decide)).1⟩

/-! ## Default builder: keyword and positional parameters -/

theorem foldl_range_fst_length {β : Type} (step : List String × β → Nat → List String × β)
    (hstep : ∀ st i, (step st i).1.length = st.1.length + 1) (init : List String × β)
    (n : Nat) : ((List.range n).foldl step init).1.length = init.1.length + n := by
  induction n with
  | zero => simp
  | succ n ih =>
    rw [List.range_succ, List.foldl_append, List.foldl_cons, List.foldl_nil, hstep, ih]
    omega

theorem foldl_range_append_if (c : Nat → Bool) (f : Nat → String) (init : List String)
    (n : Nat) :
    (List.range n).foldl (fun acc i => if c i then acc ++ [f i] else acc) init =
      init ++ ((List.range n).filter c).map f := by
  induction n with
  | zero => simp
  | succ n ih =>
    rw [List.range_succ, List.foldl_append, List.foldl_cons, List.foldl_nil, ih,
      List.filter_append, List.map_append]
    cases h : c n <;> simp [h]

theorem populateBuilderArgsResults_length (op : Operator) (builderArgs : List String) :
    (populateBuilderArgsResults op builderArgs).length =
      builderArgs.length + (if canInferType op then 0 else op.getNumResults) := by
  unfold populateBuilderArgsResults
  split
  · simp
  · have := foldl_range_fst_length (β := Unit)
      (fun st i => (st.1 ++ [sanitizeName
        (if StringRef.empty (op.getResultName i) then
          if op.getNumResults = 1 then "result" else "_gen_res_" ++ toString i
        else op.getResultName i)], ())) (fun st i => by simp) (builderArgs, ()) op.getNumResults
    have hfst : ∀ (n : Nat) (init : List String),
        ((List.range n).foldl (fun (st : List String × Unit) i => (st.1 ++ [sanitizeName
          (if StringRef.empty (op.getResultName i) then
            if op.getNumResults = 1 then "result" else "_gen_res_" ++ toString i
          else op.getResultName i)], ())) (init, ())).1 =
        (List.range n).foldl (fun builderArgs i => builderArgs ++ [sanitizeName
          (if StringRef.empty (op.getResultName i) then
            if op.getNumResults = 1 then "result" else "_gen_res_" ++ toString i
          else op.getResultName i)]) init := by
      intro n init
      induction n with
      | zero => simp
      | succ n ih => simp only [List.range_succ, List.foldl_append, List.foldl_cons,
          List.foldl_nil, ← ih]
    rw [hfst] at this
    exact this

theorem populateBuilderArgs_length (op : Operator) (builderArgs operandNames : List String) :
    (populateBuilderArgs op builderArgs operandNames).1.length =
      builderArgs.length + op.getNumArgs := by
  unfold populateBuilderArgs
  exact foldl_range_fst_length _ (fun st i => by simp) (builderArgs, operandNames) op.getNumArgs

theorem populateBuilderArgsSuccessors_length (op : Operator)
    (builderArgs successorArgNames : List String) :
    (populateBuilderArgsSuccessors op builderArgs successorArgNames).1.length =
      builderArgs.length + op.getNumSuccessors := by
  unfold populateBuilderArgsSuccessors
  exact foldl_range_fst_length _ (fun st i => by simp) (builderArgs, successorArgNames)
    op.getNumSuccessors

theorem populateBuilderRegions_length (op : Operator) (builderArgs builderLines : List String) :
    (populateBuilderRegions op builderArgs builderLines).1.length =
      builderArgs.length + (if op.hasNoVariadicRegions then 0 else 1) := by
  unfold populateBuilderRegions
  split <;> simp

theorem isKeywordArgFn_iff (op : Operator) (numResultArgs k : Nat) :
    isKeywordArgFn op numResultArgs op.getNumArgs k = true ↔
      ∃ j, j < op.getNumArgs ∧ k = numResultArgs + j ∧
        ((∃ a, op.getArg j = Argument.namedAttribute a ∧
            (a.isOptional = true ∨ a.hasDefaultValue = true)) ∨
          ∃ o, op.getArg j = Argument.namedTypeConstraint o ∧ o.multiplicity = Multiplicity.Optional) := by
  unfold isKeywordArgFn
  constructor
  · intro h
    split_ifs at h with hc
    have hk : numResultArgs ≤ k ∧ k < numResultArgs + op.getNumArgs := by omega
    refine ⟨k - numResultArgs, by omega, by omega, ?_⟩
    rcases harg : op.getArg (k - numResultArgs) with a | o | n
    · rw [harg] at h
      exact Or.inl ⟨a, rfl, by simpa using h⟩
    · rw [harg] at h
      refine Or.inr ⟨o, rfl, ?_⟩
      simp only [NamedTypeConstraint.isOptional] at h
      cases hm : o.multiplicity <;> simp_all
    · rw [harg] at h
      cases h
  · rintro ⟨j, hj, rfl, h⟩
    have hc : ¬ (numResultArgs + j < numResultArgs ∨
        numResultArgs + j ≥ numResultArgs + op.getNumArgs) := by omega
    rw [if_neg hc, Nat.add_sub_cancel_left]
    rcases h with ⟨a, ha, h⟩ | ⟨o, ho, h⟩
    · rw [ha]
      simpa using h
    · rw [ho]
      simp [NamedTypeConstraint.isOptional, h]

theorem emitDefaultOpBuilderParameters_eq (op : Operator) (p : BuilderParameters)
    (h : emitDefaultOpBuilderParameters op = some p) :
    op.skipDefaultBuilders = false ∧
      p.numResultArgs = (populateBuilderArgsResults op []).length ∧
      p.numOperandAttrArgs =
        (populateBuilderArgs op (populateBuilderArgsResults op []) []).1.length -
          (populateBuilderArgsResults op []).length ∧
      p.builderArgs =
        (populateBuilderRegions op
          (populateBuilderArgsSuccessors op
            (populateBuilderArgs op (populateBuilderArgsResults op []) []).1 []).1 []).1 ∧
      p.functionArgs =
        (List.range p.builderArgs.length).foldl (fun functionArgs i =>
            if isKeywordArgFn op p.numResultArgs p.numOperandAttrArgs i then
              functionArgs ++ [p.builderArgs.getD i "" ++ "=None"]
            else functionArgs)
          ((List.range p.builderArgs.length).foldl (fun functionArgs i =>
            if !isKeywordArgFn op p.numResultArgs p.numOperandAttrArgs i then
              functionArgs ++ [p.builderArgs.getD i ""]
            else functionArgs) [] ++ ["*"]) ++ ["loc=None", "ip=None"] := by
  unfold emitDefaultOpBuilderParameters at h
  cases hskip : op.skipDefaultBuilders
  · rw [hskip] at h
    simp only [Bool.false_eq_true, if_false, Option.some.injEq] at h
    subst h
    exact ⟨rfl, rfl, rfl, rfl, rfl⟩
  · rw [hskip] at h
    simp at h

/-- C10: in the default builder, the parameter at index `k` of `builderArgs` is
keyword-only exactly when it is the parameter of an attribute argument that is
optional or has a default value, or of an operand argument that is Optional.
The result parameters come first, then one parameter per argument, then the
successor parameters and the region count; result, successor and region-count
parameters, mandatory attributes and Single or Variadic operands are
positional.  In the signature the positional parameters stand before the `*`
and the keyword-only ones after it. -/
theorem keyword_classification (op : Operator) (p : BuilderParameters)
    (h : emitDefaultOpBuilderParameters op = some p) :
    p.numResultArgs = (if canInferType op then 0 else op.getNumResults) ∧
      p.numOperandAttrArgs = op.getNumArgs ∧
      p.builderArgs.length =
        p.numResultArgs + op.getNumArgs + op.getNumSuccessors +
          (if op.hasNoVariadicRegions then 0 else 1) ∧
      (∀ k, isKeywordArgFn op p.numResultArgs p.numOperandAttrArgs k = true ↔
        ∃ j, j < op.getNumArgs ∧ k = p.numResultArgs + j ∧
          ((∃ a, op.getArg j = Argument.namedAttribute a ∧
              (a.isOptional = true ∨ a.hasDefaultValue = true)) ∨
            ∃ o, op.getArg j = Argument.namedTypeConstraint o ∧
              o.multiplicity = Multiplicity.Optional)) ∧
      (∀ k, k < p.numResultArgs →
        isKeywordArgFn op p.numResultArgs p.numOperandAttrArgs k = false) ∧
      (∀ k, p.numResultArgs + op.getNumArgs ≤ k →
        isKeywordArgFn op p.numResultArgs p.numOperandAttrArgs k = false) ∧
      (∀ j a, j < op.getNumArgs → op.getArg j = Argument.namedAttribute a →
        a.isOptional = false → a.hasDefaultValue = false →
        isKeywordArgFn op p.numResultArgs p.numOperandAttrArgs (p.numResultArgs + j) = false) ∧
      (∀ j o, j < op.getNumArgs → op.getArg j = Argument.namedTypeConstraint o →
        o.multiplicity ≠ Multiplicity.Optional →
        isKeywordArgFn op p.numResultArgs p.numOperandAttrArgs (p.numResultArgs + j) = false) ∧
      p.functionArgs =
        ((List.range p.builderArgs.length).filter fun k =>
            !isKeywordArgFn op p.numResultArgs p.numOperandAttrArgs k).map
            (fun k => p.builderArgs.getD k "") ++ ["*"] ++
          ((List.range p.builderArgs.length).filter fun k =>
            isKeywordArgFn op p.numResultArgs p.numOperandAttrArgs k).map
            (fun k => p.builderArgs.getD k "" ++ "=None") ++ ["loc=None", "ip=None"] := by
  obtain ⟨_, hres, hoa, hargs, hfn⟩ := emitDefaultOpBuilderParameters_eq op p h
  have hres2 : p.numResultArgs = (if canInferType op then 0 else op.getNumResults) := by
    rw [hres, populateBuilderArgsResults_length]
    simp
  have hoa2 : p.numOperandAttrArgs = op.getNumArgs := by
    rw [hoa, populateBuilderArgs_length]
    omega
  have hfalse : ∀ k, (¬ ∃ j, j < op.getNumArgs ∧ k = p.numResultArgs + j ∧
      ((∃ a, op.getArg j = Argument.namedAttribute a ∧
          (a.isOptional = true ∨ a.hasDefaultValue = true)) ∨
        ∃ o, op.getArg j = Argument.namedTypeConstraint o ∧
          o.multiplicity = Multiplicity.Optional)) →
      isKeywordArgFn op p.numResultArgs p.numOperandAttrArgs k = false := by
    intro k hk
    rw [hoa2]
    cases hb : isKeywordArgFn op p.numResultArgs op.getNumArgs k
    · rfl
    · exact absurd ((isKeywordArgFn_iff op p.numResultArgs k).mp hb) hk
  refine ⟨hres2, hoa2, ?_, ?_, ?_, ?_, ?_, ?_, ?_⟩
  · rw [hargs, populateBuilderRegions_length, populateBuilderArgsSuccessors_length,
      populateBuilderArgs_length, ← hres]
  · intro k
    rw [hoa2]
    exact isKeywordArgFn_iff op p.numResultArgs k
  · intro k hk
    apply hfalse
    rintro ⟨j, _, hj, _⟩
    omega
  · intro k hk
    apply hfalse
    rintro ⟨j, hj, hkj, _⟩
    omega
  · intro j a hj ha hopt hdef
    apply hfalse
    rintro ⟨j2, _, hj2, h2⟩
    have : j2 = j := by omega
    subst this
    rcases h2 with ⟨a2, ha2, h2⟩ | ⟨o, ho, _⟩
    · rw [ha] at ha2
      cases ha2
      rcases h2 with h2 | h2
      · rw [hopt] at h2
        cases h2
      · rw [hdef] at h2
        cases h2
    · rw [ha] at ho
      cases ho
  · intro j o hj ho hm
    apply hfalse
    rintro ⟨j2, _, hj2, h2⟩
    have : j2 = j := by omega
    subst this
    rcases h2 with ⟨a, ha, _⟩ | ⟨o2, ho2, h2⟩
    · rw [ho] at ha
      cases ha
    · rw [ho] at ho2
      cases ho2
      exact hm h2
  · rw [hfn, foldl_range_append_if, foldl_range_append_if]
    simp

/-- C10 at an operation with one result, operands `lhs` (Single), `mask`
(Optional), `rest` (Variadic), attributes `kind` (mandatory), `flag`
(optional), `width` (default-valued), one successor and a variadic region. -/
theorem keyword_classification_witness :
    (emitDefaultOpBuilderParameters exampleBuilderOp).map BuilderParameters.builderArgs =
        some ["result", "lhs", "kind", "mask", "flag", "rest", "width", "dest", "num_cases"] ∧
      (emitDefaultOpBuilderParameters exampleBuilderOp).map BuilderParameters.functionArgs =
        some ["result", "lhs", "kind", "rest", "dest", "num_cases", "*", "mask=None",
          "flag=None", "width=None", "loc=None", "ip=None"] ∧
      (List.range 9).map (isKeywordArgFn exampleBuilderOp 1 6) =
        [false, false, false, true, true, false, true, false, false] ∧
      (1 = (if canInferType exampleBuilderOp then 0 else exampleBuilderOp.getNumResults) ∧
        6 = exampleBuilderOp.getNumArgs) :=
  ⟨by decide, by decide, by decide,
    (keyword_classification exampleBuilderOp
      (BuilderParameters.mk
        ["result", "lhs", "kind", "mask", "flag", "rest", "width", "dest", "num_cases"] 1 6
        ["lhs", "mask", "rest"] ["dest"]
        ["result", "lhs", "kind", "rest", "dest", "num_cases", "*", "mask=None",
          "flag=None", "width=None", "loc=None", "ip=None"]) (by decide)).1,
    (keyword_classification exampleBuilderOp
      (BuilderParameters.mk
        ["result", "lhs", "kind", "mask", "flag", "rest", "width", "dest", "num_cases"] 1 6
        ["lhs", "mask", "rest"] ["dest"]
        ["result", "lhs", "kind", "rest", "dest", "num_cases", "*", "mask=None",
          "flag=None", "width=None", "loc=None", "ip=None"]) (by decide)).2.1⟩

/-! ## Names that `sanitizeName` leaves unchanged -/

theorem toDigitsCore_suffix (b fuel n : Nat) (ds : List Char) :
    ∃ pre, Nat.toDigitsCore b fuel n ds = pre ++ ds := by
  induction fuel generalizing n ds with
  | zero => exact ⟨[], by simp [Nat.toDigitsCore]⟩
  | succ fuel ih =>
    unfold Nat.toDigitsCore
    simp only
    split
    · exact ⟨[(n % b).digitChar], rfl⟩
    · obtain ⟨pre, h⟩ := ih (n / b) ((n % b).digitChar :: ds)
      exact ⟨pre ++ [(n % b).digitChar], by rw [h]; simp⟩

theorem toString_data_last (i : Nat) :
    ∃ pre, (toString i).data = pre ++ [(i % 10).digitChar] := by
  show ∃ pre, (Nat.toDigits 10 i).asString.data = pre ++ [(i % 10).digitChar]
  unfold Nat.toDigits Nat.toDigitsCore
  simp only [List.asString]
  split
  · exact ⟨[], rfl⟩
  · exact toDigitsCore_suffix 10 i (i / 10) [(i % 10).digitChar]

theorem sanitizeName_of_underscore_g (s : String) (rest : List Char)
    (hhead : s.data = '_' :: 'g' :: rest)
    (hlast : ∃ pre c, s.data = pre ++ [c] ∧ c ≠ 's') : sanitizeName s = s := by
  have hpy : isPythonReserved s = false := by
    cases h : isPythonReserved s
    · rfl
    · exfalso
      have hmem := List.elem_iff.mp h
      have hall : ∀ w ∈ ["and", "as", "assert", "break", "callable", "class",
          "continue", "def", "del", "elif", "else", "except",
          "finally", "for", "from", "global", "if", "import",
          "in", "is", "lambda", "nonlocal", "not", "or",
          "pass", "raise", "return", "issubclass", "try", "type",
          "while", "with", "yield"], w.data.head? ≠ some '_' := by decide
      exact hall s hmem (by rw [hhead]; rfl)
  have hods : isODSReserved s = false := by
    unfold isODSReserved StringRef.startswith StringRef.endswith
    have h1 : ("_ods_".data.isPrefixOf s.data) = false := by
      rw [hhead]
      show List.isPrefixOf ['_', 'o', 'd', 's', '_'] ('_' :: 'g' :: rest) = false
      simp [List.isPrefixOf]
    have h2 : ("_ods".data.isSuffixOf s.data) = false := by
      cases h : "_ods".data.isSuffixOf s.data
      · rfl
      · exfalso
        obtain ⟨t, ht⟩ := List.isSuffixOf_iff_suffix.mp h
        obtain ⟨pre, c, hc, hne⟩ := hlast
        have h3 : s.data.getLast? = some 's' := by
          rw [← ht]
          simp [List.getLast?_append]
        rw [hc] at h3
        simp at h3
        exact hne h3
    have h3 : (["attributes", "create", "context", "ip", "operands", "print", "get_asm",
        "loc", "verify", "regions", "results", "self", "operation",
        "DIALECT_NAMESPACE", "OPERATION_NAME"].contains s) = false := by
      cases h : ["attributes", "create", "context", "ip", "operands", "print", "get_asm",
        "loc", "verify", "regions", "results", "self", "operation",
        "DIALECT_NAMESPACE", "OPERATION_NAME"].contains s
      · rfl
      · exfalso
        have hmem := List.elem_iff.mp h
        have hall : ∀ w ∈ ["attributes", "create", "context", "ip", "operands", "print",
            "get_asm", "loc", "verify", "regions", "results", "self", "operation",
            "DIALECT_NAMESPACE", "OPERATION_NAME"], w.data.head? ≠ some '_' := by decide
        exact hall s hmem (by rw [hhead]; rfl)
    rw [h1, h2, h3]
    rfl
  unfold sanitizeName
  rw [hpy, hods]
  rfl

theorem sanitizeName_gen_res (i : Nat) :
    sanitizeName ("_gen_res_" ++ toString i) = "_gen_res_" ++ toString i := by
  obtain ⟨pre, hpre⟩ := toString_data_last i
  have hd : ("_gen_res_" ++ toString i).data = "_gen_res_".data ++ (toString i).data := by
    simp [String.data_append]
  apply sanitizeName_of_underscore_g _ ("en_res_".data ++ (toString i).data)
  · rw [hd]
    rfl
  · refine ⟨"_gen_res_".data ++ pre, (i % 10).digitChar, ?_, ?_⟩
    · rw [hd, hpre, List.append_assoc]
    · have : ∀ k, k < 10 → Nat.digitChar k ≠ 's' := by decide
      exact this _ (Nat.mod_lt _ (by omega))

/-! ## The builder loops in closed form -/

theorem foldl_range_append_map {β : Type} (f : Nat → β) (init : List β) (n : Nat) :
    (List.range n).foldl (fun acc i => acc ++ [f i]) init = init ++ (List.range n).map f := by
  induction n with
  | zero => simp
  | succ n ih =>
    rw [List.range_succ, List.foldl_append, List.foldl_cons, List.foldl_nil, ih,
      List.map_append, List.append_assoc]
    rfl

theorem populateBuilderArgsResults_eq (op : Operator) (builderArgs : List String) :
    populateBuilderArgsResults op builderArgs =
      builderArgs ++
        (if canInferType op then []
         else (List.range op.getNumResults).map (resultParameterName op)) := by
  unfold populateBuilderArgsResults
  split
  · simp
  · exact foldl_range_append_map (resultParameterName op) builderArgs op.getNumResults

theorem populateBuilderArgs_eq (op : Operator) (builderArgs operandNames : List String) :
    populateBuilderArgs op builderArgs operandNames =
      (builderArgs ++ (List.range op.getNumArgs).map (argParameterName op),
        operandNames ++ ((List.range op.getNumArgs).filter fun i =>
          !(op.getArg i).isNamedAttribute).map (argParameterName op)) := by
  unfold populateBuilderArgs
  generalize op.getNumArgs = n
  induction n with
  | zero => simp
  | succ n ih =>
    rw [List.range_succ, List.foldl_append, ih]
    simp only [List.foldl_cons, List.foldl_nil, List.map_append, List.filter_append,
      List.map_cons, List.map_nil, List.append_assoc]
    cases h : op.getArg n <;>
      simp [argParameterName, Argument.isNamedAttribute, h]

theorem populateBuilderArgsSuccessors_eq (op : Operator)
    (builderArgs successorArgNames : List String) :
    populateBuilderArgsSuccessors op builderArgs successorArgNames =
      (builderArgs ++ (List.range op.getNumSuccessors).map (successorParameterName op),
        successorArgNames ++ (List.range op.getNumSuccessors).map (successorParameterName op)) := by
  unfold populateBuilderArgsSuccessors
  generalize op.getNumSuccessors = n
  induction n with
  | zero => simp
  | succ n ih =>
    rw [List.range_succ, List.foldl_append, ih]
    simp [successorParameterName]

theorem populateBuilderRegions_eq (op : Operator) (builderArgs builderLines : List String) :
    populateBuilderRegions op builderArgs builderLines =
      if op.hasNoVariadicRegions then (builderArgs, builderLines)
      else
        (builderArgs ++ [regionParameterName op],
          builderLines ++
            [(BuilderLine.regionsLine (op.getNumRegions - 1) (regionParameterName op)).str]) := by
  rfl

/-! ## Result parameters -/

/-- C12: `populateBuilderArgsResults` adds no parameter when result types are
inferable, that is with `SameOperandsAndResultType` and no variable-length
result, or `FirstAttrDerivedResultType` and no variable-length result, or
`InferTypeOpInterface` and no region.  Otherwise it adds one parameter per
result slot, in order: the sanitized declared name of a named slot, "result"
for the unnamed slot of a one-result operation, and `_gen_res_<i>` for an
unnamed slot at index `i` otherwise. -/
theorem result_parameters (op : Operator) (builderArgs : List String) :
    (canInferType op = true ↔
        (op.getTrait "::mlir::OpTrait::SameOperandsAndResultType" = true ∧
            op.getNumVariableLengthResults = 0) ∨
          (op.getTrait "::mlir::OpTrait::FirstAttrDerivedResultType" = true ∧
            op.getNumVariableLengthResults = 0) ∨
          (op.getTrait "::mlir::InferTypeOpInterface::Trait" = true ∧ op.getNumRegions = 0)) ∧
      (canInferType op = true → populateBuilderArgsResults op builderArgs = builderArgs) ∧
      (canInferType op = false →
        populateBuilderArgsResults op builderArgs =
          builderArgs ++ (List.range op.results.length).map fun i =>
            if StringRef.empty (op.getResult i).name then
              if op.results.length = 1 then "result" else "_gen_res_" ++ toString i
            else sanitizeName (op.getResult i).name) := by
  refine ⟨?_, ?_, ?_⟩
  · simp only [canInferType, hasSameArgumentAndResultTypes, hasFirstAttrDerivedResultTypes,
      hasInferTypeInterface, Bool.or_eq_true, Bool.and_eq_true, beq_iff_eq]
    tauto
  · intro h
    rw [populateBuilderArgsResults_eq, h]
    simp
  · intro h
    rw [populateBuilderArgsResults_eq, h]
    simp only [Bool.false_eq_true, if_false]
    congr 1
    apply List.map_congr_left
    intro i _
    simp only [resultParameterName, Operator.getResultName, Operator.getNumResults]
    split
    · split
      · decide
      · exact sanitizeName_gen_res i
    · rfl

/-- C12 at an operation with three results, the second unnamed and the third
named by a reserved word, at a one-result operation with an unnamed result,
and at an operation whose result types are inferable. -/
theorem result_parameters_witness :
    populateBuilderArgsResults
        (Operator.mk "ROp" "test.r" "test" [] []
          [NamedTypeConstraint.mk "out" Multiplicity.Single,
           NamedTypeConstraint.mk "" Multiplicity.Variadic,
           NamedTypeConstraint.mk "type" Multiplicity.Single] [] [] [] false) [] =
        ["out", "_gen_res_1", "type_"] ∧
      populateBuilderArgsResults exampleBuilderOp [] = ["result"] ∧
      populateBuilderArgsResults
        (Operator.mk "SOp" "test.s" "test" [] []
          [NamedTypeConstraint.mk "a" Multiplicity.Single,
           NamedTypeConstraint.mk "b" Multiplicity.Single] [] []
          ["::mlir::OpTrait::SameOperandsAndResultType"] false) [] = [] :=
  ⟨((result_parameters _ []).2.2 (by decide)).trans (by decide),
    ((result_parameters exampleBuilderOp []).2.2 (by decide)).trans (by decide),
    (result_parameters _ []).2.1 (by decide)⟩

/-! ## Builder signature -/

theorem selectByIndex_append (c : Nat → Bool) (l1 l2 : List String) :
    selectByIndex c (l1 ++ l2) =
      selectByIndex c l1 ++ selectByIndex (fun j => c (l1.length + j)) l2 := by
  unfold selectByIndex
  rw [List.length_append, List.range_add, List.filter_append, List.map_append, List.filter_map,
    List.map_map]
  congr 1
  · apply List.map_congr_left
    intro k hk
    exact List.getD_append l1 l2 "" k (List.mem_range.mp (List.mem_filter.mp hk).1)
  · apply List.map_congr_left
    intro k _
    simp only [Function.comp]
    rw [List.getD_append_right l1 l2 "" (l1.length + k) (by omega), Nat.add_sub_cancel_left]

theorem selectByIndex_all (c : Nat → Bool) (l : List String) (h : ∀ k, k < l.length → c k = true) :
    selectByIndex c l = l := by
  unfold selectByIndex
  rw [List.filter_eq_self.mpr (fun k hk => h k (List.mem_range.mp hk))]
  apply List.ext_getElem
  · simp
  · intro n h1 h2
    rw [List.getElem_map, List.getElem_range, List.getD_eq_getElem _ _ h2]

theorem selectByIndex_none (c : Nat → Bool) (l : List String)
    (h : ∀ k, k < l.length → c k = false) : selectByIndex c l = [] := by
  unfold selectByIndex
  rw [List.filter_eq_nil_iff.mpr (fun k hk => by simp [h k (List.mem_range.mp hk)])]
  rfl

theorem selectByIndex_map (c : Nat → Bool) (f : Nat → String) (n : Nat) :
    selectByIndex c ((List.range n).map f) = ((List.range n).filter c).map f := by
  unfold selectByIndex
  rw [List.length_map, List.length_range]
  apply List.map_congr_left
  intro k hk
  have hk := List.mem_range.mp (List.mem_filter.mp hk).1
  rw [List.getD_eq_getElem _ _ (by simpa using hk)]
  simp

theorem isKeywordArgFn_arg (op : Operator) (numResultArgs j : Nat) (hj : j < op.getNumArgs) :
    isKeywordArgFn op numResultArgs op.getNumArgs (numResultArgs + j) = (op.getArg j).isKeyword := by
  unfold isKeywordArgFn
  rw [if_neg (by omega), Nat.add_sub_cancel_left]
  cases op.getArg j <;> rfl

theorem isKeywordArgFn_outside (op : Operator) (numResultArgs k : Nat)
    (hk : k < numResultArgs ∨ numResultArgs + op.getNumArgs ≤ k) :
    isKeywordArgFn op numResultArgs op.getNumArgs k = false := by
  unfold isKeywordArgFn
  rw [if_pos (by omega)]

theorem builderParameters_closed (op : Operator) (p : BuilderParameters)
    (h : emitDefaultOpBuilderParameters op = some p) :
    p.numResultArgs = (resultParameters op).length ∧
      p.numOperandAttrArgs = op.getNumArgs ∧
      p.builderArgs =
        resultParameters op ++ (argParameters op ++ (successorParameters op ++
          regionParameters op)) ∧
      p.functionArgs =
        selectByIndex (fun k => !isKeywordArgFn op p.numResultArgs p.numOperandAttrArgs k)
            p.builderArgs ++ ["*"] ++
          (selectByIndex (fun k => isKeywordArgFn op p.numResultArgs p.numOperandAttrArgs k)
            p.builderArgs).map (fun s => s ++ "=None") ++ ["loc=None", "ip=None"] := by
  obtain ⟨_, hres, hoa, hargs, hfn⟩ := emitDefaultOpBuilderParameters_eq op p h
  have hR : populateBuilderArgsResults op [] = resultParameters op := by
    rw [populateBuilderArgsResults_eq]
    rfl
  refine ⟨by rw [hres, hR], ?_, ?_, ?_⟩
  · rw [hoa, populateBuilderArgs_length]
    omega
  · rw [hargs, populateBuilderRegions_eq, populateBuilderArgsSuccessors_eq,
      populateBuilderArgs_eq, hR]
    simp only [regionParameters, argParameters, successorParameters]
    split <;> simp
  · rw [hfn, foldl_range_append_if, foldl_range_append_if]
    simp [selectByIndex, List.map_map, Function.comp]

theorem builderParameters_select (op : Operator) (c : Bool) :
    selectByIndex
        (fun k => isKeywordArgFn op (resultParameters op).length op.getNumArgs k == c)
        (resultParameters op ++ (argParameters op ++ (successorParameters op ++
          regionParameters op))) =
      (if c then [] else resultParameters op) ++
        (((List.range op.getNumArgs).filter fun j => (op.getArg j).isKeyword == c).map
          (argParameterName op) ++
        (if c then [] else successorParameters op ++ regionParameters op)) := by
  have hA : (argParameters op).length = op.getNumArgs := by simp [argParameters]
  rw [selectByIndex_append, selectByIndex_append]
  have h2 : selectByIndex (fun j => (fun j => isKeywordArgFn op (resultParameters op).length
        op.getNumArgs j == c) ((resultParameters op).length + j)) (argParameters op) =
      ((List.range op.getNumArgs).filter fun j => (op.getArg j).isKeyword == c).map
        (argParameterName op) := by
    unfold argParameters
    rw [selectByIndex_map]
    congr 1
    apply List.filter_congr
    intro j hj
    simp only
    rw [isKeywordArgFn_arg op _ j (List.mem_range.mp hj)]
  rw [h2]
  cases c
  · rw [selectByIndex_all, selectByIndex_all]
    · rfl
    · intro k _
      show (isKeywordArgFn op (resultParameters op).length op.getNumArgs
        ((resultParameters op).length + ((argParameters op).length + k)) == _) = _
      rw [isKeywordArgFn_outside op _ _ (Or.inr (by omega))]
      rfl
    · intro k hk
      show (isKeywordArgFn op (resultParameters op).length op.getNumArgs k == _) = _
      rw [isKeywordArgFn_outside op _ _ (Or.inl hk)]
      rfl
  · rw [selectByIndex_none, selectByIndex_none]
    · rfl
    · intro k _
      show (isKeywordArgFn op (resultParameters op).length op.getNumArgs
        ((resultParameters op).length + ((argParameters op).length + k)) == _) = _
      rw [isKeywordArgFn_outside op _ _ (Or.inr (by omega))]
      rfl
    · intro k hk
      show (isKeywordArgFn op (resultParameters op).length op.getNumArgs k == _) = _
      rw [isKeywordArgFn_outside op _ _ (Or.inl hk)]
      rfl

/-! ## Builder statements in closed form -/

theorem populateBuilderLinesOperand_eq (op : Operator) (names builderLines : List String) :
    populateBuilderLinesOperand op names builderLines =
      builderLines ++ (operandLines op names).map BuilderLine.str := by
  unfold populateBuilderLinesOperand operandLines
  simp only
  rw [List.map_map, ← foldl_range_append_map]
  congr 1
  funext acc i
  simp only [operandAppendLine, Function.comp]
  split_ifs <;> rfl

theorem populateBuilderLinesAttr_eq (op : Operator) (argNames builderLines : List String) :
    populateBuilderLinesAttr op argNames builderLines =
      builderLines ++ BuilderLine.contextLine.str ::
        (attrLines op argNames).map BuilderLine.str := by
  unfold populateBuilderLinesAttr attrLines
  simp only
  generalize op.getNumArgs = n
  induction n with
  | zero => simp
  | succ n ih =>
    rw [List.range_succ, List.foldl_append, ih]
    simp only [List.foldl_cons, List.foldl_nil, List.filterMap_append, List.filterMap_cons,
      List.filterMap_nil, List.map_append]
    cases h : op.getArg n with
    | namedAttribute nattr =>
      simp only [attrInitLine]
      split_ifs <;> simp
    | namedTypeConstraint o => simp
    | other name => simp

theorem populateBuilderLinesResult_eq (op : Operator) (names builderLines : List String) :
    populateBuilderLinesResult op names builderLines =
      match resultLinesError op with
      | some message => Except.error message
      | none => Except.ok (builderLines ++ resultLines op names) := by
  unfold populateBuilderLinesResult resultLinesError resultLines appendLineByLine
  simp only
  by_cases h1 : hasSameArgumentAndResultTypes op = true
  · simp [h1]
  · by_cases h2 : hasFirstAttrDerivedResultTypes op = true
    · by_cases h3 : op.getAttributes.length = 0
      · simp [h1, h2, h3]
      · by_cases h4 : StringRef.empty (op.getAttribute 0).name = true
        · simp [h1, h2, h3, h4]
        · simp [h1, h2, h3, h4]
    · by_cases h5 : hasInferTypeInterface op = true
      · simp [h1, h2, h5]
      · simp only [h1, h2, h5, Bool.false_eq_true, if_false]
        rw [← foldl_range_append_map]
        congr 2
        funext acc i
        simp only [resultAppendLine]
        split_ifs <;> rfl

theorem populateBuilderLinesResult_ok (op : Operator) (names builderLines : List String)
    (h : resultLinesError op = none) :
    populateBuilderLinesResult op names builderLines =
      Except.ok (builderLines ++ resultLines op names) := by
  rw [populateBuilderLinesResult_eq, h]

theorem populateBuilderLinesResult_error (op : Operator) (names builderLines : List String)
    (message : String) (h : resultLinesError op = some message) :
    populateBuilderLinesResult op names builderLines = Except.error message := by
  rw [populateBuilderLinesResult_eq, h]

theorem populateBuilderLinesSuccessors_eq (op : Operator)
    (successorArgNames builderLines : List String) :
    populateBuilderLinesSuccessors op successorArgNames builderLines =
      builderLines ++ (successorLines op successorArgNames).map BuilderLine.str := by
  unfold populateBuilderLinesSuccessors successorLines
  split
  · rfl
  · simp only [List.map_cons, List.map_map]
    rw [foldl_range_append_map, List.append_assoc]
    rfl

theorem attrLines_append (op : Operator) (argNames rest : List String)
    (hlen : argNames.length = op.getNumArgs) :
    attrLines op (argNames ++ rest) = attrLines op argNames := by
  unfold attrLines
  apply List.filterMap_congr
  intro i hi
  rw [List.getD_append argNames rest "" i (by rw [hlen]; exact List.mem_range.mp hi)]

theorem populateBuilderRegions_fst (op : Operator) (builderArgs builderLines : List String) :
    (populateBuilderRegions op builderArgs builderLines).1 =
      builderArgs ++ regionParameters op := by
  rw [populateBuilderRegions_eq]
  unfold regionParameters
  split <;> simp

theorem populateBuilderRegions_snd (op : Operator) (builderArgs builderLines : List String) :
    (populateBuilderRegions op builderArgs builderLines).2 =
      builderLines ++ (regionLines op).map BuilderLine.str := by
  rw [populateBuilderRegions_eq]
  unfold regionLines
  split <;> simp

theorem eq_ok_some_of_isSome {α : Type} (e : Except String (Option α))
    (h : e.toOption.join.isSome = true) : e = Except.ok (some (e.toOption.join.get h)) := by
  cases e with
  | error message => cases h
  | ok o =>
    cases o with
    | none => cases h
    | some a => rfl

theorem ok_some_congr {α : Type} {a b : α} (h : a = b) :
    (Except.ok (some a) : Except String (Option α)) = Except.ok (some b) := by
  rw [h]

theorem emitDefaultOpBuilder_skip (op : Operator) (h : op.skipDefaultBuilders = true) :
    emitDefaultOpBuilder op = Except.ok none := by
  unfold emitDefaultOpBuilder
  rw [if_pos h]

theorem emitDefaultOpBuilder_error (op : Operator) (message : String)
    (hskip : op.skipDefaultBuilders = false) (h : resultLinesError op = some message) :
    emitDefaultOpBuilder op = Except.error message := by
  unfold emitDefaultOpBuilder
  simp only [hskip, Bool.false_eq_true, if_false, populateBuilderLinesResult_error _ _ _ _ h]

theorem emitDefaultOpBuilder_returns (op : Operator) (hskip : op.skipDefaultBuilders = false)
    (h : resultLinesError op = none) :
    ∃ b, emitDefaultOpBuilder op = Except.ok (some b) := by
  unfold emitDefaultOpBuilder
  simp only [hskip, Bool.false_eq_true, if_false, populateBuilderLinesResult_ok _ _ _ h]
  exact ⟨_, rfl⟩

theorem emitDefaultOpBuilder_ok (op : Operator) (b : DefaultBuilder)
    (h : emitDefaultOpBuilder op = Except.ok (some b)) :
    op.skipDefaultBuilders = false ∧ resultLinesError op = none := by
  cases hskip : op.skipDefaultBuilders
  · refine ⟨rfl, ?_⟩
    cases he : resultLinesError op with
    | none => rfl
    | some message =>
      rw [emitDefaultOpBuilder_error op message hskip he] at h
      cases h
  · rw [emitDefaultOpBuilder_skip op hskip] at h
    cases h

theorem emitDefaultOpBuilder_closed (op : Operator) (b : DefaultBuilder)
    (h : emitDefaultOpBuilder op = Except.ok (some b)) :
    op.skipDefaultBuilders = false ∧
      (emitDefaultOpBuilderParameters op).map BuilderParameters.functionArgs =
        some b.functionArgs ∧
      b.builderLines =
        (operandLines op (operandArgNames op)).map BuilderLine.str ++
          (BuilderLine.contextLine.str ::
            (attrLines op (argParameters op)).map BuilderLine.str ++
          (resultLines op (resultParameters op) ++
          ((successorLines op (successorParameters op)).map BuilderLine.str ++
          (regionLines op).map BuilderLine.str))) ∧
      b.initArgs =
        "attributes=attributes" ::
          ((if hasInferTypeInterface op then [] else ["results=results"]) ++
            ["operands=operands", "successors=_ods_successors", "regions=regions", "loc=loc",
              "ip=ip"]) := by
  obtain ⟨hskip0, herr⟩ := emitDefaultOpBuilder_ok op b h
  unfold emitDefaultOpBuilder at h
  cases hskip : op.skipDefaultBuilders
  · rw [hskip] at h
    simp only [Bool.false_eq_true, if_false, populateBuilderLinesResult_ok _ _ _ herr,
      Except.ok.injEq, Option.some.injEq] at h
    have hfn : (emitDefaultOpBuilderParameters op).map BuilderParameters.functionArgs =
        some b.functionArgs := by
      unfold emitDefaultOpBuilderParameters
      rw [hskip, ← h]
      simp only [Bool.false_eq_true, if_false, Option.map_some', populateBuilderRegions_fst]
    subst h
    have hR : populateBuilderArgsResults op [] = resultParameters op := by
      rw [populateBuilderArgsResults_eq]
      rfl
    refine ⟨rfl, hfn, ?_, ?_⟩
    · simp only [populateBuilderRegions_snd, populateBuilderArgsSuccessors_eq,
        populateBuilderArgs_eq, hR, populateBuilderLinesSuccessors_eq,
        populateBuilderLinesAttr_eq,
        populateBuilderLinesOperand_eq, List.nil_append]
      have hdrop : List.drop (resultParameters op).length
          (resultParameters op ++ (List.range op.getNumArgs).map (argParameterName op) ++
            (List.range op.getNumSuccessors).map (successorParameterName op)) =
          argParameters op ++ successorParameters op := by
        rw [List.append_assoc, List.drop_left]
        rfl
      have htake : List.take (resultParameters op).length
          (resultParameters op ++ (List.range op.getNumArgs).map (argParameterName op) ++
            (List.range op.getNumSuccessors).map (successorParameterName op)) =
          resultParameters op := by
        rw [List.append_assoc, List.take_left]
      rw [hdrop, htake, attrLines_append op _ _ (by simp [argParameters])]
      simp [operandArgNames, successorParameters]
    · cases hasInferTypeInterface op <;> rfl
  · rw [hskip] at h
    simp at h

/-- C11: the signature of the default builder.  The parameter list is the
result parameters, then one parameter per argument in declaration order, then
the successor parameters, then the region count.  The signature lists the
parameters that are not keyword-only in that order, then `*`, then the
keyword-only parameters (all of them argument parameters) in declaration order
with `=None`, then `loc=None` and `ip=None`.  Its length is the number of
parameters plus 3, and the parameters before and after the `*` are a
rearrangement of the parameter list. -/
theorem builder_signature (op : Operator) (b : DefaultBuilder)
    (h : emitDefaultOpBuilder op = Except.ok (some b)) :
    (∃ p, emitDefaultOpBuilderParameters op = some p ∧
        p.builderArgs =
          resultParameters op ++ argParameters op ++ successorParameters op ++
            regionParameters op) ∧
      b.functionArgs =
        resultParameters op ++
          ((List.range op.getNumArgs).filter fun j => !(op.getArg j).isKeyword).map
            (argParameterName op) ++
          successorParameters op ++ regionParameters op ++ ["*"] ++
          ((List.range op.getNumArgs).filter fun j => (op.getArg j).isKeyword).map
            (fun j => argParameterName op j ++ "=None") ++
          ["loc=None", "ip=None"] ∧
      b.functionArgs.length =
        (resultParameters op ++ argParameters op ++ successorParameters op ++
          regionParameters op).length + 3 ∧
      (resultParameters op ++
          ((List.range op.getNumArgs).filter fun j => !(op.getArg j).isKeyword).map
            (argParameterName op) ++
          successorParameters op ++ regionParameters op ++
          ((List.range op.getNumArgs).filter fun j => (op.getArg j).isKeyword).map
            (argParameterName op)).Perm
        (resultParameters op ++ argParameters op ++ successorParameters op ++
          regionParameters op) := by
  obtain ⟨_, hfn, _, _⟩ := emitDefaultOpBuilder_closed op b h
  obtain ⟨p, hp, hpf⟩ := Option.map_eq_some'.mp hfn
  obtain ⟨hres, hoa, hargs, hpfn⟩ := builderParameters_closed op p hp
  have hpos := builderParameters_select op false
  have hkw := builderParameters_select op true
  have e1 : (fun k => !isKeywordArgFn op p.numResultArgs p.numOperandAttrArgs k) =
      fun k => isKeywordArgFn op (resultParameters op).length op.getNumArgs k == false := by
    funext k
    rw [hres, hoa]
    cases isKeywordArgFn op (resultParameters op).length op.getNumArgs k <;> rfl
  have e2 : (fun k => isKeywordArgFn op p.numResultArgs p.numOperandAttrArgs k) =
      fun k => isKeywordArgFn op (resultParameters op).length op.getNumArgs k == true := by
    funext k
    rw [hres, hoa]
    cases isKeywordArgFn op (resultParameters op).length op.getNumArgs k <;> rfl
  have e3 : (fun j => (op.getArg j).isKeyword == false) = fun j => !(op.getArg j).isKeyword := by
    funext j
    cases (op.getArg j).isKeyword <;> rfl
  have e4 : (fun j => (op.getArg j).isKeyword == true) = fun j => (op.getArg j).isKeyword := by
    funext j
    cases (op.getArg j).isKeyword <;> rfl
  have hfun : b.functionArgs =
      resultParameters op ++
        ((List.range op.getNumArgs).filter fun j => !(op.getArg j).isKeyword).map
          (argParameterName op) ++
        successorParameters op ++ regionParameters op ++ ["*"] ++
        ((List.range op.getNumArgs).filter fun j => (op.getArg j).isKeyword).map
          (fun j => argParameterName op j ++ "=None") ++
        ["loc=None", "ip=None"] := by
    rw [← hpf, hpfn, e1, e2, hargs, hpos, hkw, e3, e4]
    simp [List.map_map, Function.comp]
  have hperm : (resultParameters op ++
        ((List.range op.getNumArgs).filter fun j => !(op.getArg j).isKeyword).map
          (argParameterName op) ++
        successorParameters op ++ regionParameters op ++
        ((List.range op.getNumArgs).filter fun j => (op.getArg j).isKeyword).map
          (argParameterName op)).Perm
      (resultParameters op ++ argParameters op ++ successorParameters op ++
        regionParameters op) := by
    have hA : (((List.range op.getNumArgs).filter fun j => (op.getArg j).isKeyword).map
          (argParameterName op) ++
        ((List.range op.getNumArgs).filter fun j => !(op.getArg j).isKeyword).map
          (argParameterName op)).Perm (argParameters op) := by
      rw [← List.map_append]
      exact (List.filter_append_perm _ _).map _
    rw [List.perm_iff_count]
    intro a
    have := List.perm_iff_count.mp hA a
    simp only [List.count_append] at this ⊢
    omega
  refine ⟨⟨p, hp, by rw [hargs]; simp only [List.append_assoc]⟩, hfun, ?_, hperm⟩
  rw [← hperm.length_eq, hfun]
  simp only [List.length_append, List.length_map, List.length_cons, List.length_nil]
  omega

/-- C11 at the example operation of C10: nine parameters, twelve entries in
the signature. -/
theorem builder_signature_witness :
    (emitDefaultOpBuilder exampleBuilderOp).map (Option.map DefaultBuilder.functionArgs) =
        Except.ok (some ["result", "lhs", "kind", "rest", "dest", "num_cases", "*", "mask=None",
          "flag=None", "width=None", "loc=None", "ip=None"]) ∧
      resultParameters exampleBuilderOp ++ argParameters exampleBuilderOp ++
          successorParameters exampleBuilderOp ++ regionParameters exampleBuilderOp =
        ["result", "lhs", "kind", "mask", "flag", "rest", "width", "dest", "num_cases"] ∧
      (emitDefaultOpBuilder exampleBuilderOp).map (Option.map fun b => b.functionArgs.length) =
        Except.ok (some ((resultParameters exampleBuilderOp ++ argParameters exampleBuilderOp ++
          successorParameters exampleBuilderOp ++
            regionParameters exampleBuilderOp).length + 3)) :=
  ⟨by decide, by decide,
    (congrArg (Except.map (Option.map fun b => b.functionArgs.length))
      (eq_ok_some_of_isSome (emitDefaultOpBuilder exampleBuilderOp) (by decide))).trans
      (ok_some_congr
        (builder_signature exampleBuilderOp _
          (eq_ok_some_of_isSome (emitDefaultOpBuilder exampleBuilderOp) (by decide))).2.2.1)⟩

/-! ## Classification and reordering -/

theorem builderArgs_getD_arg (op : Operator) (p : BuilderParameters)
    (h : emitDefaultOpBuilderParameters op = some p) (j : Nat) (hj : j < op.getNumArgs) :
    p.builderArgs.getD (p.numResultArgs + j) "" = argParameterName op j := by
  obtain ⟨hres, _, hargs, _⟩ := builderParameters_closed op p h
  have hA : (argParameters op).length = op.getNumArgs := by simp [argParameters]
  rw [hargs, hres, List.getD_append_right _ _ _ _ (by omega), Nat.add_sub_cancel_left,
    List.getD_append _ _ _ _ (by omega), List.getD_eq_getElem _ _ (by omega)]
  simp [argParameters]

/-- C13: the classification of a parameter depends on its argument alone.
When the arguments of one operation are a rearrangement of those of another,
every argument of the first occurs in the second, and wherever the same
argument stands in the two lists its parameter is keyword-only in both or
positional in both; the classification is that of the argument's own
optionality, and a named argument keeps its parameter name. -/
theorem classification_stable_under_reordering (op op2 : Operator)
    (p p2 : BuilderParameters) (h : emitDefaultOpBuilderParameters op = some p)
    (h2 : emitDefaultOpBuilderParameters op2 = some p2)
    (hperm : op2.arguments.Perm op.arguments) :
    (∀ j, j < op.getNumArgs → ∃ j2, j2 < op2.getNumArgs ∧ op2.getArg j2 = op.getArg j) ∧
      ∀ j j2, j < op.getNumArgs → j2 < op2.getNumArgs → op2.getArg j2 = op.getArg j →
        isKeywordArgFn op2 p2.numResultArgs p2.numOperandAttrArgs (p2.numResultArgs + j2) =
            isKeywordArgFn op p.numResultArgs p.numOperandAttrArgs (p.numResultArgs + j) ∧
          isKeywordArgFn op p.numResultArgs p.numOperandAttrArgs (p.numResultArgs + j) =
            (op.getArg j).isKeyword ∧
          (StringRef.empty (op.getArgName j) = false →
            p2.builderArgs.getD (p2.numResultArgs + j2) "" =
                p.builderArgs.getD (p.numResultArgs + j) "" ∧
              p.builderArgs.getD (p.numResultArgs + j) "" = sanitizeName (op.getArgName j)) := by
  constructor
  · intro j hj
    have hmem : op.getArg j ∈ op2.arguments := by
      apply hperm.mem_iff.mpr
      unfold Operator.getArg
      rw [List.getD_eq_getElem _ _ hj]
      exact List.getElem_mem hj
    obtain ⟨j2, hj2, he⟩ := List.getElem_of_mem hmem
    refine ⟨j2, hj2, ?_⟩
    unfold Operator.getArg
    rw [List.getD_eq_getElem _ _ hj2]
    exact he
  · intro j j2 hj hj2 hsame
    obtain ⟨_, hoa, _, _⟩ := builderParameters_closed op p h
    obtain ⟨_, hoa2, _, _⟩ := builderParameters_closed op2 p2 h2
    have hk : isKeywordArgFn op p.numResultArgs p.numOperandAttrArgs (p.numResultArgs + j) =
        (op.getArg j).isKeyword := by
      rw [hoa]
      exact isKeywordArgFn_arg op _ j hj
    have hk2 : isKeywordArgFn op2 p2.numResultArgs p2.numOperandAttrArgs
        (p2.numResultArgs + j2) = (op2.getArg j2).isKeyword := by
      rw [hoa2]
      exact isKeywordArgFn_arg op2 _ j2 hj2
    refine ⟨by rw [hk, hk2, hsame], hk, ?_⟩
    intro hname
    have hn : op2.getArgName j2 = op.getArgName j := by
      unfold Operator.getArgName
      rw [hsame]
    rw [builderArgs_getD_arg op p h j hj, builderArgs_getD_arg op2 p2 h2 j2 hj2]
    unfold argParameterName
    rw [hn, hname]
    exact ⟨rfl, rfl⟩

/-- C13 at the example operation of C10 and at the same operation with its
attributes moved before its operands: `mask` is keyword-only at index 2 of
the one and at index 4 of the other. -/
theorem classification_stable_under_reordering_witness :
    exampleReorderedOp.getArg 4 = exampleBuilderOp.getArg 2 ∧
      isKeywordArgFn exampleReorderedOp 1 6 (1 + 4) = isKeywordArgFn exampleBuilderOp 1 6 (1 + 2) ∧
      isKeywordArgFn exampleBuilderOp 1 6 (1 + 2) = true :=
  ⟨by decide,
    ((classification_stable_under_reordering exampleBuilderOp exampleReorderedOp
      (BuilderParameters.mk
        ["result", "lhs", "kind", "mask", "flag", "rest", "width", "dest", "num_cases"] 1 6
        ["lhs", "mask", "rest"] ["dest"]
        ["result", "lhs", "kind", "rest", "dest", "num_cases", "*", "mask=None",
          "flag=None", "width=None", "loc=None", "ip=None"])
      (BuilderParameters.mk
        ["result", "width", "flag", "kind", "rest", "mask", "lhs", "dest", "num_cases"] 1 6
        ["rest", "mask", "lhs"] ["dest"]
        ["result", "kind", "rest", "lhs", "dest", "num_cases", "*", "width=None",
          "flag=None", "mask=None", "loc=None", "ip=None"])
      (by decide) (by decide) (by decide)).2 2 4 (by decide) (by decide) (by decide)).1,
    by decide⟩

/-! ## Order of the builder statements -/

/-- C14, where the claim fails: for the example operation of C10, with three
operands, the first statement of the builder is the append of the operand
`lhs`; the context-derivation statement is the fourth statement, after the
three operand statements. -/
theorem context_statement_is_not_first :
    (emitDefaultOpBuilder exampleBuilderOp).map (Option.map fun b => b.builderLines.take 4) =
        Except.ok (some ["operands.append(_get_op_result_or_value(lhs))",
          "if mask is not None: operands.append(_get_op_result_or_value(mask))",
          "operands.extend(_get_op_results_or_values(rest))",
          "_ods_context = _ods_get_default_loc_context(loc)"]) ∧
      BuilderLine.contextLine.str = "_ods_context = _ods_get_default_loc_context(loc)" ∧
      (emitDefaultOpBuilder exampleBuilderOp).map (Option.map fun b => b.builderLines.head?) ≠
        Except.ok (some (some BuilderLine.contextLine.str)) := by
  decide

/-- C14 as amended: the builder statements are the operand statements, then
the context-derivation statement, then the attribute statements, then the
result-population statements, then the successor statements, then the
region-count statement.  There is one operand statement per operand slot, so
the context-derivation statement stands at index `numOperands`, after every
operand statement and before every attribute statement. -/
theorem builder_statement_order (op : Operator) (b : DefaultBuilder)
    (h : emitDefaultOpBuilder op = Except.ok (some b)) :
    b.builderLines =
        (operandLines op (operandArgNames op)).map BuilderLine.str ++
          [BuilderLine.contextLine.str] ++
          (attrLines op (argParameters op)).map BuilderLine.str ++
          resultLines op (resultParameters op) ++
          (successorLines op (successorParameters op)).map BuilderLine.str ++
          (regionLines op).map BuilderLine.str ∧
      (operandLines op (operandArgNames op)).length = op.getNumOperands ∧
      b.builderLines.getD op.getNumOperands "" = BuilderLine.contextLine.str ∧
      ∀ i, i < op.getNumOperands →
        b.builderLines.getD i "" =
          (operandAppendLine (op.getTrait (attrSizedTraitForKind "operand")) (op.getOperand i)
            ((operandArgNames op).getD i "")).str := by
  obtain ⟨_, _, hlines, _⟩ := emitDefaultOpBuilder_closed op b h
  have hlen : (operandLines op (operandArgNames op)).length = op.getNumOperands := by
    simp [operandLines]
  refine ⟨by rw [hlines]; simp, hlen, ?_, ?_⟩
  · rw [hlines, List.getD_append_right _ _ _ _ (by simp [hlen])]
    simp [hlen]
  · intro i hi
    rw [hlines, List.getD_append _ _ _ _ (by simp [hlen, hi]),
      List.getD_eq_getElem _ _ (by simp [hlen, hi])]
    simp [operandLines]

/-- C14 as amended, at the example operation of C10: the context-derivation
statement stands at index 3. -/
theorem builder_statement_order_witness :
    exampleBuilderOp.getNumOperands = 3 ∧
      (emitDefaultOpBuilder exampleBuilderOp).map
          (Option.map fun b => b.builderLines.getD 3 "") =
        Except.ok (some "_ods_context = _ods_get_default_loc_context(loc)") :=
  ⟨by decide,
    (congrArg (Except.map (Option.map fun b => b.builderLines.getD 3 ""))
      (eq_ok_some_of_isSome (emitDefaultOpBuilder exampleBuilderOp) (by decide))).trans
      (ok_some_congr
        (builder_statement_order exampleBuilderOp _
          (eq_ok_some_of_isSome (emitDefaultOpBuilder exampleBuilderOp) (by decide))).2.2.1)⟩

/-! ## Operand statements -/

/-- C16: after the context statement, `populateBuilderLinesAttr` pushes one
statement per attribute argument, in declaration order, and none for the other
arguments.  A unit attribute (storage type `::mlir::UnitAttr`) gets the
statement that stores the unit attribute when `bool` of the parameter holds;
another attribute that is optional or has a default value gets the coercing
assignment that runs only when the parameter is not `None`; a mandatory
attribute gets the coercing assignment.  Each statement stores under the
declared name of the attribute and reads `argNames[i]` for the argument at
index `i`, which in `emitDefaultOpBuilder` is the sanitized parameter name of
that argument.  The text of each statement is the template of the source with
the parameter name, the attribute name and the name of the attribute
definition substituted. -/
theorem attribute_statements (op : Operator) (argNames builderLines : List String) :
    populateBuilderLinesAttr op argNames builderLines =
        builderLines ++ ["_ods_context = _ods_get_default_loc_context(loc)"] ++
          (List.range op.arguments.length).filterMap (fun i =>
            match op.getArg i with
            | Argument.namedAttribute nattr =>
              some
                (if StringRef.trim nattr.storageType = "::mlir::UnitAttr" then
                  "if bool(" ++ argNames.getD i "" ++ "): attributes[\"" ++ nattr.name ++
                    "\"] = _ods_ir.UnitAttr.get(\n" ++
                    "      _ods_get_default_loc_context(loc))"
                else if nattr.isOptional = true ∨ nattr.hasDefaultValue = true then
                  "if " ++ argNames.getD i "" ++ " is not None: attributes[\"" ++ nattr.name ++
                    "\"] = (" ++ argNames.getD i "" ++ " if (\n" ++
                    "        issubclass(type(" ++ argNames.getD i "" ++
                    "), _ods_ir.Attribute) or\n" ++
                    "        not _ods_ir.AttrBuilder.contains('" ++ nattr.attrDefName ++
                    "')) else\n" ++
                    "          _ods_ir.AttrBuilder.get('" ++ nattr.attrDefName ++ "')(" ++
                    argNames.getD i "" ++ ", context=_ods_context))"
                else
                  "attributes[\"" ++ nattr.name ++ "\"] = (" ++ argNames.getD i "" ++
                    " if (\n" ++
                    "    issubclass(type(" ++ argNames.getD i "" ++
                    "), _ods_ir.Attribute) or\n" ++
                    "    not _ods_ir.AttrBuilder.contains('" ++ nattr.attrDefName ++
                    "')) else\n" ++
                    "      _ods_ir.AttrBuilder.get('" ++ nattr.attrDefName ++ "')(" ++
                    argNames.getD i "" ++ ", context=_ods_context))")
            | _ => none) ∧
      (∀ argName attrName attrDefName : String,
        (BuilderLine.initUnitAttributeTemplate attrName argName).str =
            "if bool(" ++ argName ++ "): attributes[\"" ++ attrName ++
              "\"] = _ods_ir.UnitAttr.get(\n" ++
              "      _ods_get_default_loc_context(loc))" ∧
          (BuilderLine.initOptionalAttributeWithBuilderTemplate argName attrName
              attrDefName).str =
            "if " ++ argName ++ " is not None: attributes[\"" ++ attrName ++
              "\"] = (" ++ argName ++ " if (\n" ++
              "        issubclass(type(" ++ argName ++ "), _ods_ir.Attribute) or\n" ++
              "        not _ods_ir.AttrBuilder.contains('" ++ attrDefName ++ "')) else\n" ++
              "          _ods_ir.AttrBuilder.get('" ++ attrDefName ++ "')(" ++
              argName ++ ", context=_ods_context))" ∧
          (BuilderLine.initAttributeWithBuilderTemplate argName attrName attrDefName).str =
            "attributes[\"" ++ attrName ++ "\"] = (" ++ argName ++ " if (\n" ++
              "    issubclass(type(" ++ argName ++ "), _ods_ir.Attribute) or\n" ++
              "    not _ods_ir.AttrBuilder.contains('" ++ attrDefName ++ "')) else\n" ++
              "      _ods_ir.AttrBuilder.get('" ++ attrDefName ++ "')(" ++
              argName ++ ", context=_ods_context))") ∧
      (∀ b, emitDefaultOpBuilder op = Except.ok (some b) →
        ∃ pre post, b.builderLines =
          pre ++ populateBuilderLinesAttr op (argParameters op) [] ++ post) ∧
      (∀ i, i < op.arguments.length →
        (argParameters op).getD i "" =
          sanitizeName (if StringRef.empty (op.getArgName i) then "_gen_arg_" ++ toString i
            else op.getArgName i)) ∧
      ∀ {α : Type} (h : BuilderHelpers α) (arg : PyArg α)
        (attributes : List (String × PyArg α)) (argName attrName attrDefName : String),
        (BuilderLine.initUnitAttributeTemplate attrName argName).execAttr h arg attributes =
            (if h.bool arg then some ((attrName, h.unitAttr) :: attributes)
             else some attributes) ∧
          (BuilderLine.initOptionalAttributeWithBuilderTemplate argName attrName
              attrDefName).execAttr h arg attributes =
            (match arg with
             | PyArg.None => some attributes
             | _ => some ((attrName, coerceAttribute h attrDefName arg) :: attributes)) ∧
          (BuilderLine.initAttributeWithBuilderTemplate argName attrName
              attrDefName).execAttr h arg attributes =
            some ((attrName, coerceAttribute h attrDefName arg) :: attributes) ∧
          (h.isAttribute arg = true → coerceAttribute h attrDefName arg = arg) ∧
          (h.attrBuilder attrDefName = none → coerceAttribute h attrDefName arg = arg) ∧
          (∀ build, h.isAttribute arg = false → h.attrBuilder attrDefName = some build →
            coerceAttribute h attrDefName arg = build arg) := by
  refine ⟨?_, ?_, ?_, ?_, ?_⟩
  · rw [populateBuilderLinesAttr_eq]
    simp only [attrLines, Operator.getNumArgs, List.append_assoc, List.singleton_append,
      List.map_filterMap]
    congr 2
    apply List.filterMap_congr
    intro i _
    cases op.getArg i with
    | namedAttribute nattr =>
      simp only [Option.map, attrInitLine, NamedAttribute.isUnitAttr, beq_iff_eq,
        Bool.or_eq_true]
      split_ifs <;> rfl
    | namedTypeConstraint o => rfl
    | other name => rfl
  · intro argName attrName attrDefName
    exact ⟨rfl, rfl, rfl⟩
  · intro b hb
    obtain ⟨_, _, hlines, _⟩ := emitDefaultOpBuilder_closed op b hb
    refine ⟨(operandLines op (operandArgNames op)).map BuilderLine.str,
      resultLines op (resultParameters op) ++
        ((successorLines op (successorParameters op)).map BuilderLine.str ++
          (regionLines op).map BuilderLine.str), ?_⟩
    rw [hlines, populateBuilderLinesAttr_eq]
    simp
  · intro i hi
    rw [List.getD_eq_getElem _ _ (by simpa [argParameters] using hi)]
    simp [argParameters, argParameterName]
  · intro α h arg attributes argName attrName attrDefName
    refine ⟨rfl, ?_, rfl, ?_, ?_, ?_⟩
    · cases arg <;> rfl
    · intro ha
      simp [coerceAttribute, ha]
    · intro hb
      simp [coerceAttribute, hb]
    · intro build ha hb
      simp [coerceAttribute, ha, hb]

/-- C16 at the example operation of C10, with the mandatory attribute `kind`,
the unit attribute `flag` and the default-valued attribute `width`. -/
theorem attribute_statements_witness :
    populateBuilderLinesAttr exampleBuilderOp (argParameters exampleBuilderOp) [] =
        ["_ods_context = _ods_get_default_loc_context(loc)",
          "attributes[\"kind\"] = (kind if (\n" ++
            "    issubclass(type(kind), _ods_ir.Attribute) or\n" ++
            "    not _ods_ir.AttrBuilder.contains('StrAttr')) else\n" ++
            "      _ods_ir.AttrBuilder.get('StrAttr')(kind, context=_ods_context))",
          "if bool(flag): attributes[\"flag\"] = _ods_ir.UnitAttr.get(\n" ++
            "      _ods_get_default_loc_context(loc))",
          "if width is not None: attributes[\"width\"] = (width if (\n" ++
            "        issubclass(type(width), _ods_ir.Attribute) or\n" ++
            "        not _ods_ir.AttrBuilder.contains('I64Attr')) else\n" ++
            "          _ods_ir.AttrBuilder.get('I64Attr')(width, context=_ods_context))"] ∧
      (BuilderLine.initOptionalAttributeWithBuilderTemplate "width" "width"
          "I64Attr").execAttr identityHelpers PyArg.None [] = some [] ∧
      (BuilderLine.initOptionalAttributeWithBuilderTemplate "width" "width"
          "I64Attr").execAttr identityHelpers (PyArg.value 8) [] =
        some [("width", PyArg.value 8)] :=
  ⟨((attribute_statements exampleBuilderOp (argParameters exampleBuilderOp) []).1).trans
      (by rfl),
    by decide, by decide⟩

/-! ## Result population -/

/-- C18, as the code behaves: with helpers that return their argument (no
coercion), the statement of a result slot has the same effect on `results` as
the statement of an operand slot of the same multiplicity has on `operands`,
under the same sized-segments setting, in every case but one.  For an
Optional slot under sized segments the operand statement appends one entry in
every case, `None` for an absent value, while the result statement is the
conditional append: for an absent value it appends nothing.  The last part
shows the two statement lists for slots `[Single, Optional, Variadic]` with
both `AttrSized` traits. -/
theorem optional_result_under_sized_segments_differs :
    (∀ {α : Type} (h : BuilderHelpers α), (∀ a, h.get_op_result_or_value a = a) →
        (∀ a, h.get_op_results_or_values a = a) →
        ∀ (sizedSegments : Bool) (element : NamedTypeConstraint) (name : String) (arg : PyArg α)
          (target : List (PyArg α)),
          ¬ (element.multiplicity = Multiplicity.Optional ∧ sizedSegments = true) →
          (resultAppendLine sizedSegments element name).execAppend h arg target =
            (operandAppendLine sizedSegments element name).execAppend h arg target) ∧
      (∀ {α : Type} (h : BuilderHelpers α) (slotName name : String) (target : List (PyArg α)),
        resultAppendLine true (NamedTypeConstraint.mk slotName Multiplicity.Optional) name =
            BuilderLine.optionalAppendResultTemplate name ∧
          operandAppendLine true (NamedTypeConstraint.mk slotName Multiplicity.Optional) name =
            BuilderLine.optionalAppendAttrSizedOperandsTemplate name ∧
          (BuilderLine.optionalAppendResultTemplate name).execAppend h PyArg.None target =
            some target ∧
          (BuilderLine.optionalAppendAttrSizedOperandsTemplate name).execAppend h PyArg.None
              target =
            some (target ++ [PyArg.None])) ∧
      populateBuilderLinesOperand exampleSizedOp ["a", "m", "r"] [] =
        ["operands.append(_get_op_result_or_value(a))",
          "operands.append(_get_op_result_or_value(m) if m is not None else None)",
          "operands.append(_get_op_results_or_values(r))"] ∧
      populateBuilderLinesResult exampleSizedOp ["a0", "m0", "r0"] [] =
        Except.ok ["results.append(a0)", "if m0 is not None: results.append(m0)",
          "results.append(r0)"] := by
  refine ⟨?_, ?_, by decide, by decide⟩
  · intro α h hget hgets sized element name arg target hne
    obtain ⟨nm, m⟩ := element
    cases m <;> cases sized <;> cases arg <;>
      first
      | (simp [resultAppendLine, operandAppendLine, NamedTypeConstraint.isVariableLength,
          NamedTypeConstraint.isOptional, NamedTypeConstraint.isVariadic,
          BuilderLine.execAppend, hget, hgets]; done)
      | exact absurd (And.intro rfl rfl) hne
  · intro α h slotName name target
    exact ⟨rfl, rfl, rfl, rfl⟩

/-! ## Region count -/

/-- C19: for an operation with at most one variadic region, which is then the
last region.  With a variadic region `populateBuilderRegions` adds one
parameter, `num_` followed by the name of that region with its first letter in
lower case, and one statement `regions = <numRegions - 1> + <parameter>`; the
fixed count `numRegions - 1` is the minimum region count
`numRegions - numVariadicRegions` that `emitRegionAttributes` writes; in the
builder the parameter is the last one, after the successor parameters, and it
is positional.  Without a variadic region nothing is added. -/
theorem region_count_parameter (op : Operator) (builderArgs builderLines : List String)
    (hone : op.getNumVariadicRegions ≤ 1)
    (hlast : ∀ i, i < op.getNumRegions → (op.getRegion i).isVariadic = true →
      i + 1 = op.getNumRegions) :
    emitRegionAttributes op [] =
        [ClassEmitted.opClassRegionSpecTemplate (op.getNumRegions - op.getNumVariadicRegions)
          (if op.hasNoVariadicRegions then "True" else "False")] ∧
      (op.hasNoVariadicRegions = true →
        populateBuilderRegions op builderArgs builderLines = (builderArgs, builderLines)) ∧
      (op.hasNoVariadicRegions = false →
        populateBuilderRegions op builderArgs builderLines =
            (builderArgs ++ [regionParameterName op],
              builderLines ++
                ["regions = " ++ toString (op.getNumRegions - 1) ++ " + " ++
                  regionParameterName op]) ∧
          (op.getRegion (op.getNumRegions - 1)).isVariadic = true ∧
          regionParameterName op =
            "num_" ++
              StringRef.lower (StringRef.take_front (op.getRegion (op.getNumRegions - 1)).name) ++
              StringRef.drop_front (op.getRegion (op.getNumRegions - 1)).name ∧
          op.getNumRegions - 1 = op.getNumRegions - op.getNumVariadicRegions ∧
          ∀ p, emitDefaultOpBuilderParameters op = some p →
            p.builderArgs =
                resultParameters op ++ argParameters op ++ successorParameters op ++
                  [regionParameterName op] ∧
              isKeywordArgFn op p.numResultArgs p.numOperandAttrArgs
                (p.builderArgs.length - 1) = false) := by
  refine ⟨rfl, ?_, ?_⟩
  · intro h
    rw [populateBuilderRegions_eq, h]
    rfl
  · intro h
    have hne : op.getNumVariadicRegions ≠ 0 := by
      simpa [Operator.hasNoVariadicRegions] using h
    have hpos : 0 < op.regions.countP NamedRegion.isVariadic := Nat.pos_of_ne_zero hne
    obtain ⟨r, hr, hrv⟩ := List.countP_pos_iff.mp hpos
    obtain ⟨i, hi, rfl⟩ := List.getElem_of_mem hr
    have hget : op.getRegion i = op.regions[i] := by
      unfold Operator.getRegion
      exact List.getD_eq_getElem _ _ hi
    have hi2 := hlast i hi (by rw [hget]; exact hrv)
    have hidx : op.getNumRegions - 1 = i := by omega
    refine ⟨?_, ?_, rfl, ?_, ?_⟩
    · rw [populateBuilderRegions_eq, h]
      rfl
    · rw [hidx, hget]
      exact hrv
    · omega
    · intro p hp
      obtain ⟨hres, hoa, hargs, _⟩ := builderParameters_closed op p hp
      have hreg : regionParameters op = [regionParameterName op] := by
        simp [regionParameters, h]
      have hargs2 : p.builderArgs =
          resultParameters op ++ argParameters op ++ successorParameters op ++
            [regionParameterName op] := by
        rw [hargs, hreg]
        simp
      refine ⟨hargs2, ?_⟩
      rw [hoa]
      apply isKeywordArgFn_outside
      right
      rw [hargs2, hres]
      simp [argParameters]
      omega

/-- C19 at the example operation of C10, whose second and last region `cases`
is variadic. -/
theorem region_count_parameter_witness :
    populateBuilderRegions exampleBuilderOp ["dest"] [] =
        (["dest", "num_cases"], ["regions = 1 + num_cases"]) ∧
      emitRegionAttributes exampleBuilderOp [] =
        [ClassEmitted.opClassRegionSpecTemplate 1 "False"] :=
  ⟨(((region_count_parameter exampleBuilderOp ["dest"] [] (by decide) (by decide)).2.2
      (by decide)).1).trans (by decide),
    ((region_count_parameter exampleBuilderOp ["dest"] [] (by decide) (by decide)).1).trans
      (by decide)⟩

/-! ## Attribute accessors -/

theorem emitAttributeAccessors_eq (op : Operator) (os : List ClassEmitted) :
    emitAttributeAccessors op os = os ++ op.getAttributes.flatMap attributeAccessorChunks := by
  unfold emitAttributeAccessors
  generalize op.getAttributes = l
  induction l generalizing os with
  | nil => simp
  | cons a t ih =>
    rw [List.foldl_cons, ih, List.flatMap_cons, ← List.append_assoc]
    congr 1
    unfold attributeAccessorChunks emitAttributeAccessorsBody
    simp only
    split_ifs <;> simp

theorem lookup_filter_ne {β : Type} (name : String) (d : List (String × β)) :
    (d.filter (·.1 ≠ name)).lookup name = none := by
  induction d with
  | nil => rfl
  | cons e t ih =>
    obtain ⟨k, v⟩ := e
    by_cases hk : k = name
    · simp [List.filter_cons, hk, ih]
      exact fun a b _ h1 h2 => h1 h2.symm
    · have hne : (name == k) = false := by
        simp [beq_eq_false_iff_ne]
        exact fun h => hk h.symm
      simp [List.filter_cons, hk, List.lookup_cons, hne, ih]
      exact fun a b _ h1 h2 => h1 h2.symm

/-- C20, where the claim fails: the attribute `width` of the example operation
is named, not derived, not a unit attribute, and has a default value without
being optional.  It gets the mandatory getter and the mandatory setter and no
deleter; its getter raises `KeyError` when the key is missing, and its setter
raises `ValueError` for `None`. -/
theorem default_valued_attribute_gets_mandatory_accessors :
    exampleAttributesOp.getAttribute 1 =
        NamedAttribute.mk "width" "::mlir::IntegerAttr" "I64Attr" false true false ∧
      emitAttributeAccessors exampleAttributesOp [] =
        [ClassEmitted.optionalAttributeGetterTemplate "opt" "opt",
          ClassEmitted.optionalAttributeSetterTemplate "opt" "opt",
          ClassEmitted.attributeDeleterTemplate "opt" "opt",
          ClassEmitted.attributeGetterTemplate "width" "width",
          ClassEmitted.attributeSetterTemplate "width" "width",
          ClassEmitted.attributeGetterTemplate "kind" "kind",
          ClassEmitted.attributeSetterTemplate "kind" "kind"] ∧
      ClassEmitted.optionalAttributeGetterTemplate "width" "width" ∉
        emitAttributeAccessors exampleAttributesOp [] ∧
      ClassEmitted.optionalAttributeSetterTemplate "width" "width" ∉
        emitAttributeAccessors exampleAttributesOp [] ∧
      ClassEmitted.attributeDeleterTemplate "width" "width" ∉
        emitAttributeAccessors exampleAttributesOp [] ∧
      (ClassEmitted.attributeGetterTemplate "width" "width").evalGetter
          ([] : List (String × Nat)) = some (GetterResult.KeyError "width") ∧
      (ClassEmitted.attributeSetterTemplate "width" "width").evalSetter 0 (fun _ => true)
          ([("width", 8)] : List (String × Nat)) none = some SetterResult.ValueError := by
  decide

/-- C20 as amended: `emitAttributeAccessors` writes, for each attribute in
order, nothing when it is derived or unnamed; for a named, non-derived
attribute that is not a unit attribute, the optional getter, the optional
setter and the deleter when the attribute is optional, and the mandatory
getter and setter with no deleter when it is not optional, whether or not it
has a default value.  The optional getter returns `None` for a missing key;
the optional setter stores a value and removes the key for `None`; the
deleter removes the key. -/
theorem attribute_accessors (op : Operator) (os : List ClassEmitted) :
    emitAttributeAccessors op os = os ++ op.getAttributes.flatMap attributeAccessorChunks ∧
      (∀ a : NamedAttribute, a.isDerivedAttr = true ∨ StringRef.empty a.name = true →
        attributeAccessorChunks a = []) ∧
      (∀ a : NamedAttribute, a.isDerivedAttr = false → StringRef.empty a.name = false →
        a.isUnitAttr = false →
        (a.isOptional = true →
          attributeAccessorChunks a =
            [ClassEmitted.optionalAttributeGetterTemplate (sanitizeName a.name) a.name,
              ClassEmitted.optionalAttributeSetterTemplate (sanitizeName a.name) a.name,
              ClassEmitted.attributeDeleterTemplate (sanitizeName a.name) a.name]) ∧
        (a.isOptional = false →
          attributeAccessorChunks a =
            [ClassEmitted.attributeGetterTemplate (sanitizeName a.name) a.name,
              ClassEmitted.attributeSetterTemplate (sanitizeName a.name) a.name])) ∧
      ∀ {β : Type} (unitAttr : β) (truthy : β → Bool) (attributes : List (String × β))
        (sanitizedName name : String),
        (attributes.lookup name = none →
          (ClassEmitted.optionalAttributeGetterTemplate sanitizedName name).evalGetter
            attributes = some GetterResult.None) ∧
        (∀ v, attributes.lookup name = some v →
          (ClassEmitted.optionalAttributeGetterTemplate sanitizedName name).evalGetter
            attributes = some (GetterResult.value v)) ∧
        (∀ v, ∃ d,
          (ClassEmitted.optionalAttributeSetterTemplate sanitizedName name).evalSetter unitAttr
              truthy attributes (some v) = some (SetterResult.attributes d) ∧
            d.lookup name = some v) ∧
        (∃ d,
          (ClassEmitted.optionalAttributeSetterTemplate sanitizedName name).evalSetter unitAttr
              truthy attributes none = some (SetterResult.attributes d) ∧
            d.lookup name = none) ∧
        (∀ v, attributes.lookup name = some v → ∃ d,
          (ClassEmitted.attributeDeleterTemplate sanitizedName name).evalDeleter attributes =
              some (SetterResult.attributes d) ∧
            d.lookup name = none) := by
  refine ⟨emitAttributeAccessors_eq op os, ?_, ?_, ?_⟩
  · intro a ha
    unfold attributeAccessorChunks emitAttributeAccessorsBody
    rcases ha with ha | ha
    · simp [ha]
    · simp [ha]
  · intro a hd hn hu
    constructor
    · intro ho
      simp [attributeAccessorChunks, emitAttributeAccessorsBody, hd, hn, hu, ho]
    · intro ho
      simp [attributeAccessorChunks, emitAttributeAccessorsBody, hd, hn, hu, ho]
  · intro β unitAttr truthy attributes sanitizedName name
    refine ⟨?_, ?_, ?_, ?_, ?_⟩
    · intro h
      simp [ClassEmitted.evalGetter, h]
    · intro v h
      simp [ClassEmitted.evalGetter, h]
    · intro v
      exact ⟨_, rfl, by simp [List.lookup_cons]⟩
    · exact ⟨_, rfl, lookup_filter_ne name attributes⟩
    · intro v h
      exact ⟨_, by simp [ClassEmitted.evalDeleter, h], lookup_filter_ne name attributes⟩

/-- C20 as amended, at the example operation: the optional attribute `opt`
and the default-valued attribute `width`. -/
theorem attribute_accessors_witness :
    attributeAccessorChunks
        (NamedAttribute.mk "opt" "::mlir::IntegerAttr" "I64Attr" true false false) =
        [ClassEmitted.optionalAttributeGetterTemplate "opt" "opt",
          ClassEmitted.optionalAttributeSetterTemplate "opt" "opt",
          ClassEmitted.attributeDeleterTemplate "opt" "opt"] ∧
      attributeAccessorChunks
        (NamedAttribute.mk "width" "::mlir::IntegerAttr" "I64Attr" false true false) =
        [ClassEmitted.attributeGetterTemplate "width" "width",
          ClassEmitted.attributeSetterTemplate "width" "width"] :=
  ⟨((attribute_accessors exampleAttributesOp []).2.2.1 _ (by decide) (by decide)
      (by decide)).1 (by decide),
    ((attribute_accessors exampleAttributesOp []).2.2.1 _ (by decide) (by decide)
      (by decide)).2 (by decide)⟩

/-! ## Unit and mandatory attributes -/

/-- C21: `emitAttributeAccessors` writes, for each attribute in order, nothing
when the attribute is derived or unnamed; for a named, non-derived unit
attribute the unit getter (whether the key is present), the unit setter (a
truthy value stores `UnitAttr`, a falsy value or `None` removes the key) and
the deleter; for a named mandatory attribute exactly the getter and the setter
that raises `ValueError` for `None`, and no deleter. -/
theorem unit_and_mandatory_attribute_accessors (op : Operator) (os : List ClassEmitted) :
    emitAttributeAccessors op os = os ++ op.getAttributes.flatMap attributeAccessorChunks ∧
      (∀ a : NamedAttribute, a.isDerivedAttr = true ∨ StringRef.empty a.name = true →
        attributeAccessorChunks a = []) ∧
      (∀ a : NamedAttribute, a.isDerivedAttr = false → StringRef.empty a.name = false →
        (StringRef.trim a.storageType = "::mlir::UnitAttr" →
          attributeAccessorChunks a =
            [ClassEmitted.unitAttributeGetterTemplate (sanitizeName a.name) a.name,
              ClassEmitted.unitAttributeSetterTemplate (sanitizeName a.name) a.name,
              ClassEmitted.attributeDeleterTemplate (sanitizeName a.name) a.name]) ∧
        (StringRef.trim a.storageType ≠ "::mlir::UnitAttr" → a.isOptional = false →
          a.hasDefaultValue = false →
          attributeAccessorChunks a =
              [ClassEmitted.attributeGetterTemplate (sanitizeName a.name) a.name,
                ClassEmitted.attributeSetterTemplate (sanitizeName a.name) a.name] ∧
            ∀ sanitizedName name : String,
              ClassEmitted.attributeDeleterTemplate sanitizedName name ∉
                attributeAccessorChunks a)) ∧
      ∀ {β : Type} (unitAttr : β) (truthy : β → Bool) (attributes : List (String × β))
        (sanitizedName name : String),
        (ClassEmitted.unitAttributeGetterTemplate sanitizedName name).evalGetter attributes =
            some (GetterResult.bool (attributes.lookup name).isSome) ∧
        (∀ v, truthy v = true → ∃ d,
          (ClassEmitted.unitAttributeSetterTemplate sanitizedName name).evalSetter unitAttr
              truthy attributes (some v) = some (SetterResult.attributes d) ∧
            d.lookup name = some unitAttr) ∧
        (∀ value : Option β, (∀ v, value = some v → truthy v = false) → ∃ d,
          (ClassEmitted.unitAttributeSetterTemplate sanitizedName name).evalSetter unitAttr
              truthy attributes value = some (SetterResult.attributes d) ∧
            d.lookup name = none) ∧
        (∀ v, attributes.lookup name = some v → ∃ d,
          (ClassEmitted.attributeDeleterTemplate sanitizedName name).evalDeleter attributes =
              some (SetterResult.attributes d) ∧
            d.lookup name = none) ∧
        (∀ v, attributes.lookup name = some v →
          (ClassEmitted.attributeGetterTemplate sanitizedName name).evalGetter attributes =
            some (GetterResult.value v)) ∧
        (attributes.lookup name = none →
          (ClassEmitted.attributeGetterTemplate sanitizedName name).evalGetter attributes =
            some (GetterResult.KeyError name)) ∧
        (ClassEmitted.attributeSetterTemplate sanitizedName name).evalSetter unitAttr truthy
            attributes none = some SetterResult.ValueError ∧
        (∀ v, ∃ d,
          (ClassEmitted.attributeSetterTemplate sanitizedName name).evalSetter unitAttr truthy
              attributes (some v) = some (SetterResult.attributes d) ∧
            d.lookup name = some v) := by
  refine ⟨emitAttributeAccessors_eq op os, ?_, ?_, ?_⟩
  · intro a ha
    unfold attributeAccessorChunks emitAttributeAccessorsBody
    rcases ha with ha | ha
    · simp [ha]
    · simp [ha]
  · intro a hd hn
    constructor
    · intro hu
      simp [attributeAccessorChunks, emitAttributeAccessorsBody, hd, hn,
        NamedAttribute.isUnitAttr, hu]
    · intro hu ho _
      simp [attributeAccessorChunks, emitAttributeAccessorsBody, hd, hn,
        NamedAttribute.isUnitAttr, hu, ho]
  · intro β unitAttr truthy attributes sanitizedName name
    refine ⟨rfl, ?_, ?_, ?_, ?_, ?_, rfl, ?_⟩
    · intro v hv
      exact ⟨_, by simp [ClassEmitted.evalSetter, hv]; rfl, by simp [List.lookup_cons]⟩
    · intro value hvalue
      refine ⟨attributes.filter (·.1 ≠ name), ?_, lookup_filter_ne name attributes⟩
      cases value with
      | none => rfl
      | some v => simp [ClassEmitted.evalSetter, hvalue v rfl]
    · intro v h
      exact ⟨_, by simp [ClassEmitted.evalDeleter, h], lookup_filter_ne name attributes⟩
    · intro v h
      simp [ClassEmitted.evalGetter, h]
    · intro h
      simp [ClassEmitted.evalGetter, h]
    · intro v
      exact ⟨_, rfl, by simp [List.lookup_cons]⟩

/-- C21 at the example operation: its four attributes are a unit attribute, a
mandatory attribute, an unnamed attribute and a derived attribute. -/
theorem unit_and_mandatory_attribute_accessors_witness :
    emitAttributeAccessors exampleUnitAttributesOp [] =
        [ClassEmitted.unitAttributeGetterTemplate "flag" "flag",
          ClassEmitted.unitAttributeSetterTemplate "flag" "flag",
          ClassEmitted.attributeDeleterTemplate "flag" "flag",
          ClassEmitted.attributeGetterTemplate "kind" "kind",
          ClassEmitted.attributeSetterTemplate "kind" "kind"] ∧
      (ClassEmitted.unitAttributeGetterTemplate "flag" "flag").evalGetter
          [("kind", 7), ("flag", 0)] = some (GetterResult.bool true) :=
  ⟨(unit_and_mandatory_attribute_accessors exampleUnitAttributesOp []).1.trans (by decide),
    (unit_and_mandatory_attribute_accessors exampleUnitAttributesOp []).2.2.2 0
      (fun _ => true) [("kind", 7), ("flag", 0)] "flag" "flag" |>.1.trans (by decide)⟩

/-! ## The name resolver -/

theorem isPythonReserved_iff (str : String) :
    isPythonReserved str = true ↔
      str ∈ ["and", "as", "assert", "break", "callable", "class",
        "continue", "def", "del", "elif", "else", "except",
        "finally", "for", "from", "global", "if", "import",
        "in", "is", "lambda", "nonlocal", "not", "or",
        "pass", "raise", "return", "issubclass", "try", "type",
        "while", "with", "yield"] := by
  unfold isPythonReserved
  exact List.elem_iff

theorem isODSReserved_iff (str : String) :
    isODSReserved str = true ↔
      "_ods_".data <+: str.data ∨ "_ods".data <:+ str.data ∨
        str ∈ ["attributes", "create", "context", "ip", "operands", "print", "get_asm",
          "loc", "verify", "regions", "results", "self", "operation",
          "DIALECT_NAMESPACE", "OPERATION_NAME"] := by
  unfold isODSReserved StringRef.startswith StringRef.endswith
  rw [Bool.or_eq_true, Bool.or_eq_true, List.isPrefixOf_iff_prefix, List.isSuffixOf_iff_suffix,
    List.elem_iff, or_assoc]

/-- C22: `sanitizeName n` is `n` followed by `_` when `n` is in the list of
Python keywords and builtins, in the list of ODS member names, starts with
`_ods_` or ends with `_ods`; otherwise it is `n`. -/
theorem sanitizeName_appends_suffix_iff_reserved (n : String) :
    ((n ∈ ["and", "as", "assert", "break", "callable", "class",
          "continue", "def", "del", "elif", "else", "except",
          "finally", "for", "from", "global", "if", "import",
          "in", "is", "lambda", "nonlocal", "not", "or",
          "pass", "raise", "return", "issubclass", "try", "type",
          "while", "with", "yield"] ∨
        n ∈ ["attributes", "create", "context", "ip", "operands", "print", "get_asm",
          "loc", "verify", "regions", "results", "self", "operation",
          "DIALECT_NAMESPACE", "OPERATION_NAME"] ∨
        "_ods_".data <+: n.data ∨ "_ods".data <:+ n.data) →
        sanitizeName n = n ++ "_") ∧
      (¬(n ∈ ["and", "as", "assert", "break", "callable", "class",
          "continue", "def", "del", "elif", "else", "except",
          "finally", "for", "from", "global", "if", "import",
          "in", "is", "lambda", "nonlocal", "not", "or",
          "pass", "raise", "return", "issubclass", "try", "type",
          "while", "with", "yield"] ∨
        n ∈ ["attributes", "create", "context", "ip", "operands", "print", "get_asm",
          "loc", "verify", "regions", "results", "self", "operation",
          "DIALECT_NAMESPACE", "OPERATION_NAME"] ∨
        "_ods_".data <+: n.data ∨ "_ods".data <:+ n.data) →
        sanitizeName n = n) ∧
      (sanitizeName n = n ++ "_" ∨ sanitizeName n = n) ∧
      sanitizeName "type" = "type_" ∧ sanitizeName "operands" = "operands_" ∧
      sanitizeName "lhs" = "lhs" := by
  have hres : (isPythonReserved n || isODSReserved n) = true ↔
      (n ∈ ["and", "as", "assert", "break", "callable", "class",
          "continue", "def", "del", "elif", "else", "except",
          "finally", "for", "from", "global", "if", "import",
          "in", "is", "lambda", "nonlocal", "not", "or",
          "pass", "raise", "return", "issubclass", "try", "type",
          "while", "with", "yield"] ∨
        n ∈ ["attributes", "create", "context", "ip", "operands", "print", "get_asm",
          "loc", "verify", "regions", "results", "self", "operation",
          "DIALECT_NAMESPACE", "OPERATION_NAME"] ∨
        "_ods_".data <+: n.data ∨ "_ods".data <:+ n.data) := by
    rw [Bool.or_eq_true, isPythonReserved_iff, isODSReserved_iff]
    tauto
  refine ⟨?_, ?_, ?_, by decide, by decide, by decide⟩
  · intro h
    unfold sanitizeName
    rw [if_pos (hres.mpr h)]
  · intro h
    unfold sanitizeName
    rw [if_neg (fun h2 => h (hres.mp h2))]
  · unfold sanitizeName
    split_ifs
    · exact Or.inl rfl
    · exact Or.inr rfl

theorem contains_append_underscore (l : List String)
    (hl : ∀ s ∈ l, s.data.getLast? ≠ some '_') (n : String) :
    l.contains (n ++ "_") = false := by
  rw [Bool.eq_false_iff]
  intro h
  have hm := List.elem_iff.mp h
  have := hl _ hm
  apply this
  rw [String.data_append]
  simp

theorem endswith_append_underscore (n : String) :
    StringRef.endswith (n ++ "_") "_ods" = false := by
  rw [Bool.eq_false_iff]
  intro h
  unfold StringRef.endswith at h
  rw [List.isSuffixOf_iff_suffix] at h
  obtain ⟨t, ht⟩ := h
  have h2 := congrArg List.getLast? ht
  rw [String.data_append] at h2
  simp at h2

theorem startswith_append_underscore (n : String) :
    StringRef.startswith (n ++ "_") "_ods_" = true ↔
      (StringRef.startswith n "_ods_" = true ∨ n = "_ods") := by
  unfold StringRef.startswith
  rw [List.isPrefixOf_iff_prefix, List.isPrefixOf_iff_prefix, String.data_append]
  constructor
  · intro h
    by_cases hlen : 5 ≤ n.data.length
    · left
      exact List.prefix_of_prefix_length_le h (List.prefix_append _ _) (by simpa using hlen)
    · right
      have hl := h.length_le
      rw [List.length_append] at hl
      have h4 : n.data.length = 4 := by
        have h5 : ("_ods_".data).length = 5 := rfl
        have h1 : ("_".data).length = 1 := rfl
        omega
      have heq : "_ods_".data = n.data ++ "_".data := by
        apply h.eq_of_length
        rw [List.length_append, h4]
        rfl
      have h5 : "_ods".data ++ "_".data = n.data ++ "_".data := heq
      have := List.append_cancel_right h5
      exact (String.ext this).symm
  · rintro (h | h)
    · exact h.trans (List.prefix_append _ _)
    · subst h
      exact List.prefix_refl _

/-- C23: the name resolver does not always return a safe name.  Appending `_`
leaves a name that starts with `_ods_` with that prefix, and turns `_ods` into
`_ods_`, so the result is again reserved for `isODSReserved`; these are the
only names for which the result of `sanitizeName` is reserved. -/
theorem sanitizeName_result_can_be_reserved :
    sanitizeName "_ods_x" = "_ods_x_" ∧ isODSReserved (sanitizeName "_ods_x") = true ∧
      sanitizeName "_ods" = "_ods_" ∧ isODSReserved (sanitizeName "_ods") = true ∧
      ∀ n : String,
        (isPythonReserved (sanitizeName n) || isODSReserved (sanitizeName n)) = true ↔
          (StringRef.startswith n "_ods_" = true ∨ n = "_ods") := by
  refine ⟨by decide, by decide, by decide, by decide, ?_⟩
  intro n
  by_cases hr : (isPythonReserved n || isODSReserved n) = true
  · have hs : sanitizeName n = n ++ "_" := by
      unfold sanitizeName
      rw [if_pos hr]
    have hp : isPythonReserved (n ++ "_") = false :=
      contains_append_underscore _ (by decide) n
    have ho : isODSReserved (n ++ "_") = StringRef.startswith (n ++ "_") "_ods_" := by
      unfold isODSReserved
      rw [endswith_append_underscore, contains_append_underscore _ (by decide) n]
      simp
    rw [hs, hp, ho, Bool.false_or]
    exact startswith_append_underscore n
  · have hs : sanitizeName n = n := by
      unfold sanitizeName
      rw [if_neg hr]
    rw [hs]
    constructor
    · intro h
      exact absurd h hr
    · rintro (h | h)
      · exfalso
        apply hr
        unfold isODSReserved
        rw [h]
        simp
      · subst h
        exact absurd (by decide) hr

/-! ## The emission driver -/

/-- C24: for a non-empty dialect name `emitAllOps` writes the file header and
the dialect declaration (the dialect-extension import when an extension name is
given) and nothing else, whatever the records are; the call of
`emitOpBindings` per operation of the dialect is commented out in the source.
For a record set holding `exampleSizedOp` of the dialect `test`, the binding
block that `emitOpBindings` writes starts with the class header of the
operation, and the output of `emitAllOps` holds no such chunk. -/
theorem emitAllOps_writes_no_binding_block :
    (∀ (clDialectName clDialectExtensionName : String) (records : List Operator)
        (os : List FileEmitted), StringRef.empty clDialectName = false →
        emitAllOps clDialectName clDialectExtensionName records os =
          Except.ok (os ++
            [FileEmitted.fileHeader
                (if StringRef.empty clDialectExtensionName then clDialectName
                 else clDialectExtensionName),
              if StringRef.empty clDialectExtensionName then
                FileEmitted.dialectClassTemplate clDialectName
              else FileEmitted.dialectExtensionTemplate clDialectName], false)) ∧
      exampleSizedOp.dialectName = "test" ∧
      emitAllOps "test" "" [exampleSizedOp] [] =
        Except.ok ([FileEmitted.fileHeader "test", FileEmitted.dialectClassTemplate "test"],
          false) ∧
      ((emitOpBindings exampleSizedOp []).toOption.map fun out => out.take 2) =
        some [FileEmitted.opClassTemplate "SizedOp" "test.sized",
          FileEmitted.opClassSizedSegmentsTemplate "OPERAND" "[1,0,-1,]"] ∧
      ∀ records : List Operator,
        ∀ out, emitAllOps "test" "" records [] = Except.ok (out, false) →
          ∀ cppClassName operationName : String,
            FileEmitted.opClassTemplate cppClassName operationName ∉ out := by
  have hgen : ∀ (clDialectName clDialectExtensionName : String) (records : List Operator)
      (os : List FileEmitted), StringRef.empty clDialectName = false →
      emitAllOps clDialectName clDialectExtensionName records os =
        Except.ok (os ++
          [FileEmitted.fileHeader
              (if StringRef.empty clDialectExtensionName then clDialectName
               else clDialectExtensionName),
            if StringRef.empty clDialectExtensionName then
              FileEmitted.dialectClassTemplate clDialectName
            else FileEmitted.dialectExtensionTemplate clDialectName], false) := by
    intro d e records os hd
    unfold emitAllOps
    cases he : StringRef.empty e <;> simp [hd]
  refine ⟨hgen, rfl, rfl, by rfl, ?_⟩
  intro records out h c o hmem
  rw [hgen "test" "" records [] (by decide)] at h
  simp only [Except.ok.injEq, Prod.mk.injEq] at h
  rw [← h.1] at hmem
  revert hmem
  simp [StringRef.empty]

/-! ## The name lists of the default builder -/

theorem filter_range_length_eq_countP_take (l : List Argument) (q : Argument → Bool) (i : Nat)
    (hi : i ≤ l.length) :
    ((List.range i).filter fun j => q (l.getD j default)).length = (l.take i).countP q := by
  induction i with
  | zero => simp
  | succ i ih =>
    have hlt : i < l.length := hi
    rw [List.range_succ, List.filter_append, List.length_append, ih (Nat.le_of_lt hlt),
      List.take_succ, List.countP_append, List.getElem?_eq_getElem hlt]
    have hg : l[i]?.getD default = l[i] := by rw [List.getElem?_eq_getElem hlt]; rfl
    cases hq : q l[i] <;> simp [List.filter_cons, hg, hq]

theorem filterMap_operands_length (l : List Argument)
    (h : ∀ a ∈ l, ∀ name, a ≠ Argument.other name) :
    (l.filterMap fun a =>
        match a with
        | Argument.namedTypeConstraint o => some o
        | _ => none).length = l.countP fun a => !a.isNamedAttribute := by
  induction l with
  | nil => rfl
  | cons a t ih =>
    have ht := ih fun b hb => h b (List.mem_cons_of_mem _ hb)
    cases a with
    | namedAttribute na =>
      simpa [List.filterMap_cons, List.countP_cons, Argument.isNamedAttribute] using ht
    | namedTypeConstraint o =>
      simpa [List.filterMap_cons, List.countP_cons, Argument.isNamedAttribute] using ht
    | other name => exact absurd rfl (h _ (List.mem_cons_self _ _) name)

theorem filter_range_getElem? (p : Nat → Bool) (n i : Nat) (hi : i < n) (hp : p i = true) :
    ((List.range n).filter p)[((List.range i).filter p).length]? = some i := by
  obtain ⟨m, rfl⟩ : ∃ m, n = (i + 1) + m := ⟨n - (i + 1), by omega⟩
  rw [List.range_add, List.range_succ, List.filter_append, List.filter_append,
    List.append_assoc, List.getElem?_append_right (le_refl _)]
  simp [List.filter_cons, hp]

theorem operands_getElem? (l : List Argument) (i : Nat) (o : NamedTypeConstraint)
    (h : ∀ a ∈ l, ∀ name, a ≠ Argument.other name)
    (hi : l[i]? = some (Argument.namedTypeConstraint o)) :
    (l.filterMap fun a =>
        match a with
        | Argument.namedTypeConstraint o => some o
        | _ => none)[(l.take i).countP fun a => !a.isNamedAttribute]? = some o := by
  have hlt : i < l.length := by
    by_contra hge
    rw [List.getElem?_eq_none (Nat.le_of_not_lt hge)] at hi
    exact absurd hi (by simp)
  have hsplit : l = l.take i ++ Argument.namedTypeConstraint o :: l.drop (i + 1) := by
    have h1 := (List.take_append_drop i l).symm
    rw [List.drop_eq_getElem_cons hlt] at h1
    rw [List.getElem?_eq_getElem hlt] at hi
    rw [Option.some.inj hi] at h1
    exact h1
  have hlen := filterMap_operands_length (l.take i)
    (fun a ha => h a (List.mem_of_mem_take ha))
  have hfm : (l.filterMap fun a =>
      match a with
      | Argument.namedTypeConstraint o => some o
      | _ => none) =
      ((l.take i).filterMap fun a =>
        match a with
        | Argument.namedTypeConstraint o => some o
        | _ => none) ++ o :: ((l.drop (i + 1)).filterMap fun a =>
        match a with
        | Argument.namedTypeConstraint o => some o
        | _ => none) := by
    conv_lhs => rw [hsplit]
    rw [List.filterMap_append, List.filterMap_cons]
  rw [hfm, List.getElem?_append_right (Nat.le_of_eq hlen), hlen, Nat.sub_self]
  exact List.getElem?_cons_zero

/-- C25: in `emitDefaultOpBuilder`, for an operation whose arguments are all
operands or attributes, the list passed to `populateBuilderLinesOperand` has
`getNumOperands` entries, and the entry at the position of an operand among
the operands is the parameter of that operand's argument; the list passed to
`populateBuilderLinesAttr` has at least `getNumArgs` entries and its entry `i`
is the parameter of argument `i`; when the result types can be inferred
`populateBuilderLinesResult` does not read its name list, and otherwise the
list passed to it has `getNumResults` entries, entry `i` being the parameter of
result `i`. -/
theorem builder_name_lists_in_range (op : Operator)
    (hargs : ∀ a ∈ op.arguments, ∀ name, a ≠ Argument.other name) :
    (populateBuilderArgs op (populateBuilderArgsResults op []) []).2.length =
        op.getNumOperands ∧
      (∀ i o, i < op.getNumArgs → op.getArg i = Argument.namedTypeConstraint o →
        (op.arguments.take i).countP (fun a => !a.isNamedAttribute) < op.getNumOperands ∧
          op.getOperand ((op.arguments.take i).countP fun a => !a.isNamedAttribute) = o ∧
          (populateBuilderArgs op (populateBuilderArgsResults op []) []).2[
              (op.arguments.take i).countP fun a => !a.isNamedAttribute]? =
            some (argParameterName op i)) ∧
      op.getNumArgs ≤
        ((populateBuilderArgsSuccessors op
          (populateBuilderArgs op (populateBuilderArgsResults op []) []).1 []).1.drop
            (populateBuilderArgsResults op []).length).length ∧
      (∀ i, i < op.getNumArgs →
        ((populateBuilderArgsSuccessors op
          (populateBuilderArgs op (populateBuilderArgsResults op []) []).1 []).1.drop
            (populateBuilderArgsResults op []).length)[i]? = some (argParameterName op i)) ∧
      (canInferType op = true → ∀ names names2 builderLines : List String,
        populateBuilderLinesResult op names builderLines =
          populateBuilderLinesResult op names2 builderLines) ∧
      (canInferType op = false →
        ((populateBuilderArgsSuccessors op
          (populateBuilderArgs op (populateBuilderArgsResults op []) []).1 []).1.take
            (populateBuilderArgsResults op []).length).length = op.getNumResults ∧
          ∀ i, i < op.getNumResults →
            ((populateBuilderArgsSuccessors op
              (populateBuilderArgs op (populateBuilderArgsResults op []) []).1 []).1.take
                (populateBuilderArgsResults op []).length)[i]? =
              some (resultParameterName op i)) := by
  have hnames : (populateBuilderArgs op (populateBuilderArgsResults op []) []).2 =
      ((List.range op.getNumArgs).filter fun i => !(op.getArg i).isNamedAttribute).map
        (argParameterName op) := by
    rw [populateBuilderArgs_eq]
    rfl
  have hall : (populateBuilderArgsSuccessors op
      (populateBuilderArgs op (populateBuilderArgsResults op []) []).1 []).1 =
      populateBuilderArgsResults op [] ++ ((List.range op.getNumArgs).map (argParameterName op) ++
        (List.range op.getNumSuccessors).map (successorParameterName op)) := by
    rw [populateBuilderArgsSuccessors_eq, populateBuilderArgs_eq, List.append_assoc]
  have hcount : ((List.range op.getNumArgs).filter fun i =>
      !(op.getArg i).isNamedAttribute).length = op.getNumOperands := by
    have h1 := filter_range_length_eq_countP_take op.arguments (fun a => !a.isNamedAttribute)
      op.arguments.length (le_refl _)
    rw [List.take_length] at h1
    have h2 : op.operands.length = op.arguments.countP fun a => !a.isNamedAttribute :=
      filterMap_operands_length op.arguments hargs
    unfold Operator.getNumOperands
    rw [h2]
    exact h1
  refine ⟨?_, ?_, ?_, ?_, ?_, ?_⟩
  · rw [hnames, List.length_map, hcount]
  · intro i o hi ho
    have hi2 : i < op.arguments.length := hi
    have hget : op.arguments[i]? = some (Argument.namedTypeConstraint o) := by
      rw [List.getElem?_eq_getElem hi2]
      unfold Operator.getArg at ho
      rw [List.getD_eq_getElem _ _ hi2] at ho
      rw [ho]
    have hk := filter_range_length_eq_countP_take op.arguments (fun a => !a.isNamedAttribute)
      i (Nat.le_of_lt hi2)
    have hop : op.operands[(op.arguments.take i).countP fun a => !a.isNamedAttribute]? =
        some o := operands_getElem? op.arguments i o hargs hget
    have hlt : (op.arguments.take i).countP (fun a => !a.isNamedAttribute) <
        op.getNumOperands := by
      by_contra hge
      unfold Operator.getNumOperands at hge
      rw [List.getElem?_eq_none (Nat.le_of_not_lt hge)] at hop
      exact absurd hop (by simp)
    refine ⟨hlt, ?_, ?_⟩
    · unfold Operator.getOperand
      rw [List.getD_eq_getElem?_getD, hop]
      rfl
    · have hk2 : (op.arguments.take i).countP (fun a => !a.isNamedAttribute) =
          ((List.range i).filter fun j => !(op.getArg j).isNamedAttribute).length := hk.symm
      rw [hnames, List.getElem?_map, hk2,
        filter_range_getElem? (fun j => !(op.getArg j).isNamedAttribute) op.getNumArgs i hi
          (by simp [ho, Argument.isNamedAttribute])]
      rfl
  · rw [hall, List.drop_left, List.length_append, List.length_map, List.length_range]
    exact Nat.le_add_right _ _
  · intro i hi
    rw [hall, List.drop_left, List.getElem?_append_left (by simpa using hi),
      List.getElem?_map, List.getElem?_range hi]
    rfl
  · intro hc names names2 builderLines
    rw [populateBuilderLinesResult_eq, populateBuilderLinesResult_eq]
    suffices hlines : resultLines op names = resultLines op names2 by rw [hlines]
    unfold canInferType at hc
    unfold resultLines
    by_cases h1 : hasSameArgumentAndResultTypes op = true
    · rw [if_pos h1, if_pos h1]
    · by_cases h2 : hasFirstAttrDerivedResultTypes op = true
      · rw [if_neg h1, if_neg h1, if_pos h2, if_pos h2]
      · have h3 : hasInferTypeInterface op = true := by
          simp only [Bool.not_eq_true] at h1 h2
          simpa [h1, h2] using hc
        rw [if_neg h1, if_neg h1, if_neg h2, if_neg h2, if_pos h3, if_pos h3]
  · intro hc
    have hres : populateBuilderArgsResults op [] =
        (List.range op.getNumResults).map (resultParameterName op) := by
      rw [populateBuilderArgsResults_eq, hc]
      rfl
    rw [hall, List.take_left, hres]
    refine ⟨by simp, ?_⟩
    intro i hi
    rw [List.getElem?_map, List.getElem?_range hi]
    rfl

theorem exampleBuilderOp_arguments (a : Argument) (ha : a ∈ exampleBuilderOp.arguments)
    (name : String) : a ≠ Argument.other name := by
  intro h
  subst h
  simp [exampleBuilderOp] at ha

/-- C25 at the example operation, whose arguments interleave three operands
and three attributes: the operand `mask` is argument 2 and operand 1. -/
theorem builder_name_lists_in_range_witness :
    (populateBuilderArgs exampleBuilderOp (populateBuilderArgsResults exampleBuilderOp [])
        []).2.length = 3 ∧
      (populateBuilderArgs exampleBuilderOp (populateBuilderArgsResults exampleBuilderOp [])
        []).2[1]? = some "mask" :=
  ⟨(builder_name_lists_in_range exampleBuilderOp exampleBuilderOp_arguments).1.trans
      (by decide),
    ((builder_name_lists_in_range exampleBuilderOp exampleBuilderOp_arguments).2.1 2
      (NamedTypeConstraint.mk "mask" Multiplicity.Optional) (by decide)
      (by decide)).2.2.trans (by decide)⟩

/-! ## The results argument of the build call -/

/-- C26, where the claim fails: `exampleSameTypeInferOp` has the trait
`SameOperandsAndResultType`, so its builder holds the statement that fills
`results` from the type of the first operand; it also has the trait
`InferTypeOpInterface` and no region, so the argument list of the build call
has no `results=results`. -/
theorem results_statement_without_results_argument :
    exampleSameTypeInferOp.skipDefaultBuilders = false ∧
      (emitDefaultOpBuilder exampleSameTypeInferOp).map
          (Option.map DefaultBuilder.builderLines) =
        Except.ok (some ["operands.append(_get_op_result_or_value(lhs))",
          "operands.append(_get_op_result_or_value(rhs))",
          "_ods_context = _ods_get_default_loc_context(loc)",
          "results.extend([operands[0].type] * 2)",
          "_ods_successors = None"]) ∧
      (emitDefaultOpBuilder exampleSameTypeInferOp).map (Option.map DefaultBuilder.initArgs) =
        Except.ok (some ["attributes=attributes", "operands=operands",
          "successors=_ods_successors", "regions=regions", "loc=loc", "ip=ip"]) ∧
      "results=results" ∉
        ["attributes=attributes", "operands=operands", "successors=_ods_successors",
          "regions=regions", "loc=loc", "ip=ip"] := by
  refine ⟨rfl, by rfl, by rfl, by decide⟩

/-- C26 as amended: the argument list of the build call holds
`results=results` exactly when the operation does not have the
`InferTypeOpInterface` trait with zero regions.  The statements of result
population are part of the builder statements; when there are any and the
operation has no such interface, in particular always in case (d),
`results=results` is passed; when the operation has the interface together
with case (a) or (b), the statements are there and `results=results` is
not. -/
theorem results_argument_iff_no_infer_interface (op : Operator) (b : DefaultBuilder)
    (h : emitDefaultOpBuilder op = Except.ok (some b)) :
    ("results=results" ∈ b.initArgs ↔ hasInferTypeInterface op = false) ∧
      (∀ line ∈ resultLines op (resultParameters op), line ∈ b.builderLines) ∧
      (hasInferTypeInterface op = false → resultLines op (resultParameters op) ≠ [] →
        "results=results" ∈ b.initArgs) ∧
      (hasSameArgumentAndResultTypes op = false → hasFirstAttrDerivedResultTypes op = false →
        resultLines op (resultParameters op) ≠ [] → "results=results" ∈ b.initArgs) ∧
      (hasInferTypeInterface op = true →
        hasSameArgumentAndResultTypes op = true ∨ hasFirstAttrDerivedResultTypes op = true →
        resultLines op (resultParameters op) ≠ [] ∧ "results=results" ∉ b.initArgs) := by
  obtain ⟨_, _, hlines, hinit⟩ := emitDefaultOpBuilder_closed op b h
  have hiff : "results=results" ∈ b.initArgs ↔ hasInferTypeInterface op = false := by
    rw [hinit]
    cases hinfer : hasInferTypeInterface op
    · simp
    · simp only [if_true, List.nil_append]
      constructor
      · intro hm
        exact absurd hm (by decide)
      · intro hf
        exact absurd hf (by simp)
  refine ⟨hiff, ?_, ?_, ?_, ?_⟩
  · intro line hline
    rw [hlines]
    simp only [List.mem_append, List.mem_cons]
    tauto
  · intro hinfer _
    exact hiff.mpr hinfer
  · intro h1 h2 hne
    apply hiff.mpr
    cases hinfer : hasInferTypeInterface op
    · rfl
    · exfalso
      apply hne
      unfold resultLines
      simp [h1, h2, hinfer]
  · intro hinfer hab
    refine ⟨?_, fun hm => ?_⟩
    · unfold resultLines
      rcases hab with ha | hb
      · simp [ha]
      · cases ha : hasSameArgumentAndResultTypes op <;> simp [hb]
    · have := hiff.mp hm
      rw [hinfer] at this
      exact absurd this (by simp)

/-- C26 as amended, at the operation of Example 4, which has no
`InferTypeOpInterface` trait. -/
theorem results_argument_iff_no_infer_interface_witness :
    hasInferTypeInterface exampleSameTypeOp = false ∧
      (emitDefaultOpBuilder exampleSameTypeOp).map
          (Option.map fun b => decide ("results=results" ∈ b.initArgs)) =
        Except.ok (some true) :=
  ⟨by decide,
    (congrArg (Except.map (Option.map fun b => decide ("results=results" ∈ b.initArgs)))
      (eq_ok_some_of_isSome (emitDefaultOpBuilder exampleSameTypeOp) (by decide))).trans
      (ok_some_congr
        (decide_eq_true
          ((results_argument_iff_no_infer_interface exampleSameTypeOp _
            (eq_ok_some_of_isSome (emitDefaultOpBuilder exampleSameTypeOp)
              (by decide))).1.mpr (by decide))))⟩

/-! ## The count-inferred accessors partition the runtime sequence -/

theorem evalAccessor_single {α : Type}
    (esa : List α → Nat → Nat → Nat → Except PyError (Int × Int)) (self : PyOperation α)
    (name : String) (kind : Kind) (j : Nat) (hj : j < (self.elements kind).length) :
    evalAccessor esa self [Emitted.opSingleTemplate name kind j] =
      Except.ok (PyValue.element (self.elements kind)[j]) := by
  simp only [evalAccessor, selfOperation, bind, Except.bind, pure, Except.pure,
    pyGetItem_of_eq _ _ j rfl hj]

theorem evalAccessor_singleAfterVariable {α : Type}
    (esa : List α → Nat → Nat → Nat → Except PyError (Int × Int)) (self : PyOperation α)
    (name : String) (kind : Kind) (n j : Nat) (hn : n ≤ j + (self.elements kind).length)
    (hj : j + (self.elements kind).length - n < (self.elements kind).length) :
    evalAccessor esa self [Emitted.opSingleAfterVariableTemplate name kind n j] =
      Except.ok (PyValue.element (self.elements kind)[j + (self.elements kind).length - n]) := by
  simp only [evalAccessor, selfOperation, bind, Except.bind, pure, Except.pure]
  rw [pyGetItem_of_eq _ _ (j + (self.elements kind).length - n) (by omega) hj]

theorem evalAccessor_oneOptional {α : Type}
    (esa : List α → Nat → Nat → Nat → Except PyError (Int × Int)) (self : PyOperation α)
    (name : String) (kind : Kind) (n v : Nat) (hv : v < n)
    (hlow : n ≤ (self.elements kind).length + 1) (hhigh : (self.elements kind).length ≤ n) :
    ∃ val, evalAccessor esa self [Emitted.opOneOptionalTemplate name kind n v] = Except.ok val ∧
      val.toList = ((self.elements kind).drop v).take ((self.elements kind).length + 1 - n) := by
  by_cases h : (self.elements kind).length < n
  · have h1 : ((self.elements kind).length : Int) < (n : Int) := by omega
    refine ⟨PyValue.None, ?_, ?_⟩
    · simp only [evalAccessor, selfOperation, bind, Except.bind, pure, Except.pure, h1, if_true]
    · have : (self.elements kind).length + 1 - n = 0 := by omega
      rw [this]
      rfl
  · have hvR : v < (self.elements kind).length := by omega
    have h1 : ¬ (((self.elements kind).length : Int) < (n : Int)) := by omega
    refine ⟨PyValue.element (self.elements kind)[v], ?_, ?_⟩
    · simp only [evalAccessor, selfOperation, bind, Except.bind, pure, Except.pure, h1,
        if_false, pyGetItem_of_eq _ _ v rfl hvR]
    · have : (self.elements kind).length + 1 - n = 1 := by omega
      rw [this, List.drop_eq_getElem_cons hvR]
      rfl

theorem evalAccessor_oneVariadic {α : Type}
    (esa : List α → Nat → Nat → Nat → Except PyError (Int × Int)) (self : PyOperation α)
    (name : String) (kind : Kind) (n v : Nat) (hv : v < n)
    (hlow : n ≤ (self.elements kind).length + 1) :
    evalAccessor esa self [Emitted.opOneVariadicTemplate name kind n v] =
      Except.ok (PyValue.sequence
        (((self.elements kind).drop v).take ((self.elements kind).length + 1 - n))) := by
  simp only [evalAccessor, selfOperation, bind, Except.bind, pure, Except.pure]
  rw [pySlice_of_eq _ _ _ v (v + ((self.elements kind).length + 1 - n)) rfl
    (by push_cast; omega) (by omega) (by omega)]
  simp

theorem flatMap_getElem?_range' {α : Type} (xs : List α) (r n : Nat) :
    ∀ (m a : Nat), n ≤ a + r →
      (List.range' a m).flatMap (fun j => (xs[j + r - n]?).toList) =
        (xs.drop (a + r - n)).take m := by
  intro m
  induction m with
  | zero => intro a _; simp
  | succ m ih =>
    intro a ha
    rw [List.range'_succ, List.flatMap_cons, ih (a + 1) (by omega)]
    have hk : a + 1 + r - n = (a + r - n) + 1 := by omega
    rw [hk]
    by_cases hlt : a + r - n < xs.length
    · rw [List.getElem?_eq_getElem hlt, List.drop_eq_getElem_cons hlt]
      rfl
    · have hge : xs.length ≤ a + r - n := Nat.le_of_not_lt hlt
      rw [List.getElem?_eq_none hge, List.drop_eq_nil_of_le hge,
        List.drop_eq_nil_of_le (Nat.le_succ_of_le hge)]
      simp

theorem flatMap_congr_of_mem {α β : Type} (l : List α) (f g : α → List β)
    (h : ∀ x ∈ l, f x = g x) : l.flatMap f = l.flatMap g := by
  induction l with
  | nil => rfl
  | cons a t ih =>
    rw [List.flatMap_cons, List.flatMap_cons, h a (List.mem_cons_self _ _),
      ih fun x hx => h x (List.mem_cons_of_mem _ hx)]

theorem flatMap_filterMap_eq {α β γ : Type} (l : List α) (f : α → Option β) (r : β → List γ) :
    (l.filterMap f).flatMap r = l.flatMap fun x => ((f x).map r).getD [] := by
  induction l with
  | nil => rfl
  | cons a t ih =>
    rw [List.filterMap_cons, List.flatMap_cons]
    cases hf : f a with
    | none => simpa using ih
    | some b => simp [List.flatMap_cons, ih]

theorem multiplicity_single_of_not_variableLength (e : NamedTypeConstraint)
    (h : e.isVariableLength = false) : e.multiplicity = Multiplicity.Single := by
  cases hm : e.multiplicity <;>
    simp [NamedTypeConstraint.isVariableLength, NamedTypeConstraint.isOptional,
      NamedTypeConstraint.isVariadic, hm] at h ⊢

theorem countInferred_slot_reads {α : Type} (kind : Kind) (op : Operator) (v : Nat)
    (esa : List α → Nat → Nat → Nat → Except PyError (Int × Int)) (self : PyOperation α)
    (hothers : ∀ j, j < (op.elements kind).length → j ≠ v →
      (op.getElement kind j).multiplicity = Multiplicity.Single)
    (hnamed : ∀ j, j < (op.elements kind).length →
      StringRef.empty (op.getElement kind j).name = false)
    (hlow : (op.elements kind).length ≤ (self.elements kind).length + 1)
    (hfixed : (v < (op.elements kind).length →
        (op.getElement kind v).multiplicity = Multiplicity.Single) →
      (self.elements kind).length = (op.elements kind).length)
    (hopt : v < (op.elements kind).length →
      (op.getElement kind v).multiplicity = Multiplicity.Optional →
      (self.elements kind).length ≤ (op.elements kind).length)
    (j : Nat) (hj : j < (op.elements kind).length) :
    ∃ c val,
      countInferredChunk kind (op.elements kind).length (op.getElement kind) j = some c ∧
        evalAccessor esa self [c] = Except.ok val ∧
        val.toList =
          if j < v then ((self.elements kind)[j + 0 - 0]?).toList
          else if j = v then
            ((self.elements kind).drop v).take
              ((self.elements kind).length + 1 - (op.elements kind).length)
          else
            ((self.elements kind)[j + (self.elements kind).length -
              (op.elements kind).length]?).toList := by
  have hs : ∀ i, i < (op.elements kind).length → i ≠ v →
      (op.getElement kind i).isVariableLength = false :=
    fun i hi hne => isVariableLength_of_single _ (hothers i hi hne)
  by_cases hvl : v < (op.elements kind).length ∧ (op.getElement kind v).isVariableLength = true
  · obtain ⟨hvN, hvv⟩ := hvl
    have hany := anyVariableLengthBefore_unique kind op v hvv hothers j hj
    rcases Nat.lt_trichotomy j v with hlt | heq | hgt
    · have hjR : j < (self.elements kind).length := by omega
      refine ⟨Emitted.opSingleTemplate (sanitizeName (op.getElement kind j).name) kind j, _,
        ?_, evalAccessor_single esa self _ kind j hjR, ?_⟩
      · have : ¬ v ≤ j := by omega
        simp [countInferredChunk, hnamed j hj, hs j hj (by omega), hany, this]
      · rw [if_pos hlt]
        simp [PyValue.toList, hjR]
    · subst heq
      cases hm : (op.getElement kind j).multiplicity with
      | Single =>
        rw [isVariableLength_of_single _ hm] at hvv
        exact absurd hvv (by simp)
      | Optional =>
        have hio : (op.getElement kind j).isOptional = true := by
          simp [NamedTypeConstraint.isOptional, hm]
        obtain ⟨val, hval, hlist⟩ := evalAccessor_oneOptional esa self
          (sanitizeName (op.getElement kind j).name) kind (op.elements kind).length j hj hlow
          (hopt hj hm)
        refine ⟨_, val, ?_, hval, ?_⟩
        · simp [countInferredChunk, hnamed j hj, hvv, hio]
        · rw [if_neg (Nat.lt_irrefl _), if_pos rfl]
          exact hlist
      | Variadic =>
        have hio : (op.getElement kind j).isOptional = false := by
          simp [NamedTypeConstraint.isOptional, hm]
        refine ⟨_, _, ?_, evalAccessor_oneVariadic esa self
          (sanitizeName (op.getElement kind j).name) kind (op.elements kind).length j hj hlow,
          ?_⟩
        · simp [countInferredChunk, hnamed j hj, hvv, hio]
        · rw [if_neg (Nat.lt_irrefl _), if_pos rfl]
          rfl
    · have hidx : j + (self.elements kind).length - (op.elements kind).length <
          (self.elements kind).length := by omega
      refine ⟨Emitted.opSingleAfterVariableTemplate (sanitizeName (op.getElement kind j).name)
          kind (op.elements kind).length j, _, ?_,
        evalAccessor_singleAfterVariable esa self _ kind _ j (by omega) hidx, ?_⟩
      · have : v ≤ j := by omega
        simp [countInferredChunk, hnamed j hj, hs j hj (by omega), hany, this]
      · rw [if_neg (by omega), if_neg (by omega)]
        simp [PyValue.toList, hidx]
  · have hall : ∀ i, i < (op.elements kind).length →
        (op.getElement kind i).isVariableLength = false := by
      intro i hi
      by_cases hiv : i = v
      · subst hiv
        cases h : (op.getElement kind i).isVariableLength
        · rfl
        · exact absurd ⟨hi, h⟩ hvl
      · exact hs i hi hiv
    have hR : (self.elements kind).length = (op.elements kind).length :=
      hfixed fun hv => multiplicity_single_of_not_variableLength _ (hall v hv)
    have hjR : j < (self.elements kind).length := by omega
    have hany : anyVariableLengthBefore (op.getElement kind) (j + 1) = false :=
      anyVariableLengthBefore_eq_false _ _ fun i hi => hall i (by omega)
    refine ⟨Emitted.opSingleTemplate (sanitizeName (op.getElement kind j).name) kind j, _,
      ?_, evalAccessor_single esa self _ kind j hjR, ?_⟩
    · simp [countInferredChunk, hnamed j hj, hall j hj, hany]
    · have h1 : j + (self.elements kind).length - (op.elements kind).length = j := by omega
      have h2 : (self.elements kind).length + 1 - (op.elements kind).length = 1 := by omega
      rw [h1, h2]
      by_cases hlt : j < v
      · rw [if_pos hlt]
        simp [PyValue.toList, hjR]
      · rw [if_neg hlt]
        by_cases heq : j = v
        · subst heq
          rw [if_pos rfl, List.drop_eq_getElem_cons hjR]
          rfl
        · rw [if_neg heq]
          simp [PyValue.toList, hjR]

theorem countInferred_emitAccessors (kind : Kind) (op : Operator) (v : Nat)
    (hothers : ∀ j, j < (op.elements kind).length → j ≠ v →
      (op.getElement kind j).multiplicity = Multiplicity.Single) :
    emitAccessors kind op [] =
      Except.ok ((List.range (op.elements kind).length).filterMap
        (countInferredChunk kind (op.elements kind).length (op.getElement kind))) := by
  rw [emitAccessors_eq, if_pos (numVariableLength_le_one_of_unique kind op v hothers),
    List.nil_append]

theorem length_filterMap_of_isSome {α β : Type} (l : List α) (f : α → Option β)
    (h : ∀ x ∈ l, (f x).isSome = true) : (l.filterMap f).length = l.length := by
  induction l with
  | nil => rfl
  | cons a t ih =>
    obtain ⟨b, hb⟩ := Option.isSome_iff_exists.mp (h a (List.mem_cons_self _ _))
    rw [List.filterMap_cons, hb]
    simp [ih fun x hx => h x (List.mem_cons_of_mem _ hx)]

theorem countInferredChunk_isSome (kind : Kind) (n : Nat) (g : Nat → NamedTypeConstraint)
    (j : Nat) (hname : StringRef.empty (g j).name = false) :
    (countInferredChunk kind n g j).isSome = true := by
  unfold countInferredChunk
  simp only [hname]
  split_ifs <;> first | rfl | contradiction

theorem range_split (v n : Nat) (h : v < n) :
    List.range n = List.range' 0 v ++ v :: List.range' (v + 1) (n - v - 1) := by
  have h1 : n = ((n - v - 1) + 1) + v := by omega
  conv_lhs => rw [List.range_eq_range', h1, ← List.range'_append_1, List.range'_succ,
    Nat.zero_add]

theorem countInferred_reads_concat {α : Type} (kind : Kind) (op : Operator) (v : Nat)
    (esa : List α → Nat → Nat → Nat → Except PyError (Int × Int)) (self : PyOperation α)
    (hothers : ∀ j, j < (op.elements kind).length → j ≠ v →
      (op.getElement kind j).multiplicity = Multiplicity.Single)
    (hnamed : ∀ j, j < (op.elements kind).length →
      StringRef.empty (op.getElement kind j).name = false)
    (hlow : (op.elements kind).length ≤ (self.elements kind).length + 1)
    (hfixed : (v < (op.elements kind).length →
        (op.getElement kind v).multiplicity = Multiplicity.Single) →
      (self.elements kind).length = (op.elements kind).length)
    (hopt : v < (op.elements kind).length →
      (op.getElement kind v).multiplicity = Multiplicity.Optional →
      (self.elements kind).length ≤ (op.elements kind).length) :
    (∀ c ∈ (List.range (op.elements kind).length).filterMap
        (countInferredChunk kind (op.elements kind).length (op.getElement kind)),
      ∃ val, evalAccessor esa self [c] = Except.ok val) ∧
    ((List.range (op.elements kind).length).filterMap
        (countInferredChunk kind (op.elements kind).length (op.getElement kind))).flatMap
      (accessorReads esa self) = self.elements kind := by
  have hslot := countInferred_slot_reads kind op v esa self hothers hnamed hlow hfixed hopt
  constructor
  · intro c hc
    obtain ⟨j, hj, hcj⟩ := List.mem_filterMap.mp hc
    obtain ⟨c2, val, hc2, hval, _⟩ := hslot j (List.mem_range.mp hj)
    rw [hcj] at hc2
    cases hc2
    exact ⟨val, hval⟩
  · rw [flatMap_filterMap_eq]
    rw [flatMap_congr_of_mem _ _
      (fun j =>
        if j < v then ((self.elements kind)[j + 0 - 0]?).toList
        else if j = v then
          ((self.elements kind).drop v).take
            ((self.elements kind).length + 1 - (op.elements kind).length)
        else
          ((self.elements kind)[j + (self.elements kind).length -
            (op.elements kind).length]?).toList)
      (by
        intro j hj
        obtain ⟨c, val, hc, hval, hlist⟩ := hslot j (List.mem_range.mp hj)
        rw [hc]
        simp only [Option.map_some', Option.getD_some]
        unfold accessorReads
        rw [hval]
        exact hlist)]
    by_cases hvN : v < (op.elements kind).length
    · rw [range_split v _ hvN, List.flatMap_append, List.flatMap_cons,
        flatMap_congr_of_mem (List.range' 0 v) _
          (fun j => ((self.elements kind)[j + 0 - 0]?).toList)
          (by
            intro j hj
            have := List.mem_range'_1.mp hj
            rw [if_pos (by omega)]),
        flatMap_congr_of_mem (List.range' (v + 1) ((op.elements kind).length - v - 1)) _
          (fun j => ((self.elements kind)[j + (self.elements kind).length -
            (op.elements kind).length]?).toList)
          (by
            intro j hj
            have := List.mem_range'_1.mp hj
            rw [if_neg (by omega), if_neg (by omega)]),
        flatMap_getElem?_range' _ 0 0 v 0 (Nat.zero_le _),
        flatMap_getElem?_range' _ (self.elements kind).length (op.elements kind).length
          ((op.elements kind).length - v - 1) (v + 1) (by omega),
        if_neg (Nat.lt_irrefl _), if_pos rfl]
      have h0 : 0 + 0 - 0 = 0 := rfl
      have hd : v + 1 + (self.elements kind).length - (op.elements kind).length =
          v + ((self.elements kind).length + 1 - (op.elements kind).length) := by omega
      have hlen : (((self.elements kind).drop v).drop
          ((self.elements kind).length + 1 - (op.elements kind).length)).length ≤
          (op.elements kind).length - v - 1 := by
        simp only [List.length_drop]
        omega
      rw [h0, List.drop_zero, hd, ← List.drop_drop, List.take_of_length_le hlen,
        List.take_append_drop, List.take_append_drop]
    · have hR : (self.elements kind).length = (op.elements kind).length :=
        hfixed fun hv => absurd hv hvN
      rw [List.range_eq_range',
        flatMap_congr_of_mem (List.range' 0 (op.elements kind).length) _
          (fun j => ((self.elements kind)[j + 0 - 0]?).toList)
          (by
            intro j hj
            have := List.mem_range'_1.mp hj
            rw [if_pos (by omega)]),
        flatMap_getElem?_range' _ 0 0 _ 0 (Nat.zero_le _)]
      have h0 : 0 + 0 - 0 = 0 := rfl
      rw [h0, List.drop_zero, ← hR, List.take_length]

/-- C27: under the count-inferred policy, for slots that are all named and all
Single except possibly the slot at position `v`, and a runtime sequence of a
legal length `R` (`N ≤ R + 1`; `R = N` when there is no variable-length slot;
`R ≤ N` when the slot at `v` is Optional), accessor synthesis succeeds with one
accessor per slot, every accessor returns, and the elements the accessors
read, concatenated in declaration order, are the runtime sequence itself.  On
the sequence whose element at index `k` is `k`, the accessors therefore read
index lists that are pairwise disjoint, increasing from one accessor to the
next, and together are `0, ..., R - 1`. -/
theorem count_inferred_accessors_partition (kind : Kind) (op : Operator) (v R : Nat)
    (hothers : ∀ j, j < (op.elements kind).length → j ≠ v →
      (op.getElement kind j).multiplicity = Multiplicity.Single)
    (hnamed : ∀ j, j < (op.elements kind).length →
      StringRef.empty (op.getElement kind j).name = false)
    (hlow : (op.elements kind).length ≤ R + 1)
    (hfixed : (v < (op.elements kind).length →
        (op.getElement kind v).multiplicity = Multiplicity.Single) →
      R = (op.elements kind).length)
    (hopt : v < (op.elements kind).length →
      (op.getElement kind v).multiplicity = Multiplicity.Optional →
      R ≤ (op.elements kind).length) :
    op.numVariableLength kind ≤ 1 ∧
      emitAccessors kind op [] =
        Except.ok ((List.range (op.elements kind).length).filterMap
          (countInferredChunk kind (op.elements kind).length (op.getElement kind))) ∧
      ∀ out, emitAccessors kind op [] = Except.ok out →
        out.length = (op.elements kind).length ∧
          (∀ c ∈ out, c.policy = Policy.countInferred) ∧
          (∀ {α : Type} (esa : List α → Nat → Nat → Nat → Except PyError (Int × Int))
            (self : PyOperation α), (self.elements kind).length = R →
            (∀ c ∈ out, ∃ val, evalAccessor esa self [c] = Except.ok val) ∧
              out.flatMap (accessorReads esa self) = self.elements kind) ∧
          ∀ (esa : List Nat → Nat → Nat → Nat → Except PyError (Int × Int))
            (self : PyOperation Nat), self.elements kind = List.range R →
            out.flatMap (accessorReads esa self) = List.range R ∧
              (out.map (accessorReads esa self)).Pairwise List.Disjoint ∧
              (out.flatMap (accessorReads esa self)).Pairwise (fun a b => a < b) := by
  have hemit := countInferred_emitAccessors kind op v hothers
  refine ⟨numVariableLength_le_one_of_unique kind op v hothers, hemit, ?_⟩
  intro out hout
  rw [hemit] at hout
  cases hout
  have hgen : ∀ {α : Type} (esa : List α → Nat → Nat → Nat → Except PyError (Int × Int))
      (self : PyOperation α), (self.elements kind).length = R →
      (∀ c ∈ (List.range (op.elements kind).length).filterMap
          (countInferredChunk kind (op.elements kind).length (op.getElement kind)),
        ∃ val, evalAccessor esa self [c] = Except.ok val) ∧
      ((List.range (op.elements kind).length).filterMap
          (countInferredChunk kind (op.elements kind).length (op.getElement kind))).flatMap
        (accessorReads esa self) = self.elements kind := by
    intro α esa self hR
    subst hR
    exact countInferred_reads_concat kind op v esa self hothers hnamed hlow hfixed hopt
  refine ⟨?_, ?_, hgen, ?_⟩
  · rw [length_filterMap_of_isSome, List.length_range]
    intro j hj
    exact countInferredChunk_isSome kind _ _ j (hnamed j (List.mem_range.mp hj))
  · intro c hc
    obtain ⟨j, _, hcj⟩ := List.mem_filterMap.mp hc
    exact countInferredChunk_policy kind _ _ j c hcj
  · intro esa self hself
    have hcat := (hgen esa self (by rw [hself, List.length_range])).2
    rw [hself] at hcat
    refine ⟨hcat, ?_, ?_⟩
    · have hnodup : (List.flatten (((List.range (op.elements kind).length).filterMap
          (countInferredChunk kind (op.elements kind).length (op.getElement kind))).map
            (accessorReads esa self))).Nodup := by
        rw [← List.flatMap_def, hcat]
        exact List.nodup_range R
      exact (List.nodup_flatten.mp hnodup).2
    · rw [hcat]
      exact List.pairwise_lt_range R

/-- C27 at operand slots `[a: Single, b: Variadic, c: Single]` and five runtime
operands: the accessors read the indices `[0]`, `[1, 2, 3]` and `[4]`. -/
theorem count_inferred_accessors_partition_witness :
    [Emitted.opSingleTemplate "a" Kind.operand 0,
        Emitted.opOneVariadicTemplate "b" Kind.operand 3 1,
        Emitted.opSingleAfterVariableTemplate "c" Kind.operand 3 2].flatMap
          (accessorReads exampleEquallySizedAccessor (PyOperation.mk (List.range 5) [] [])) =
        List.range 5 ∧
      [Emitted.opSingleTemplate "a" Kind.operand 0,
        Emitted.opOneVariadicTemplate "b" Kind.operand 3 1,
        Emitted.opSingleAfterVariableTemplate "c" Kind.operand 3 2].map
          (accessorReads exampleEquallySizedAccessor (PyOperation.mk (List.range 5) [] [])) =
        [[0], [1, 2, 3], [4]] :=
  ⟨(((count_inferred_accessors_partition Kind.operand exampleOneVariadicOp 1 5 (by decide)
      (by decide) (by decide) (by decide) (by decide)).2.2 _ (by decide)).2.2.2
      exampleEquallySizedAccessor (PyOperation.mk (List.range 5) [] []) rfl).1,
    by decide⟩

end Gen
